import Mathlib

/-!
# Forward multi-pass lighting pipeline of `exercises/exercise_8_solutions/main.cpp`

A shallow embedding of the rendering core of `main.cpp`: the instance transform
generator (`GenerateOffsets`), the per-frame pass sequence of `main`, and the
helper functions that toggle GL state between the passes.

Conventions of the embedding.

* `float` is an arbitrary field `K`; the transcendental functions of `<cmath>` that
  glm calls (`cos`, `sin`, `tan`, `sqrt`) and the constant `glm::pi` are bundled in a
  `MathOps K` record handed to every function that needs them.  Theorems about exact
  real arithmetic instantiate `K := ℝ` with `Real.cos`, `Real.sin`, `Real.tan`,
  `Real.sqrt`, `Real.pi`.
* glm (an external library) is transcribed from its reference implementation
  (`glm/ext/matrix_transform.inl`, `glm/ext/matrix_clip_space.inl`,
  `glm/detail/func_geometric.inl`), column-major: `m.c0 … m.c3` are `m[0] … m[3]`.
* The OpenGL context is a record `GLState K` holding exactly the pieces of context state
  that `main.cpp` reads or writes.  The state of the program is a `World K`: the
  context, the global variables of `main.cpp` that the core touches (`Vars K`), the
  static locals of `drawQuad`, the number of `rand()` calls made, and the trace.
  Each C++ function `f` is a Lean function `World K → World K` (or
  `→ Option (World K)` where the C++ indexes `config.lights`, `none` standing for an
  access outside the vector).
* Object names handed out by `glGen*` come from one counter starting at 1; only
  their being fresh and non-zero matters.
* `World.trace` is the chronological list of operations issued so far; a draw call
  stores a snapshot of the GL state in force at the moment it is issued.
* GLFW, Dear ImGui, `shader.h` and `camera.h` are not part of the sources; what the
  core needs of them is taken as input (`FrameInput`, `Panel`, `Camera`) or modelled
  from the specification (`Shader.use`, `Shader.setUniform`).
-/

namespace Gfxp

/-- The `<cmath>` functions and constants used through glm. -/
structure MathOps (K : Type) where
  cos : K → K
  sin : K → K
  tan : K → K
  sqrt : K → K
  pi : K

/-- The type `glm::vec3`. -/
structure Vec3 (K : Type) where
  x : K
  y : K
  z : K
deriving DecidableEq

/-- The type `glm::vec4`. -/
structure Vec4 (K : Type) where
  x : K
  y : K
  z : K
  w : K
deriving DecidableEq

/-- The type `glm::mat4`, column-major: `c0 … c3` are the columns `m[0] … m[3]`. -/
structure Mat4 (K : Type) where
  c0 : Vec4 K
  c1 : Vec4 K
  c2 : Vec4 K
  c3 : Vec4 K
deriving DecidableEq

section Glm

variable {K : Type} [Field K]

/-- Componentwise `vec3 * float`. -/
def Vec3.scale (v : Vec3 K) (s : K) : Vec3 K := ⟨v.x * s, v.y * s, v.z * s⟩

/-- Componentwise `vec3 - vec3`. -/
def Vec3.sub (a b : Vec3 K) : Vec3 K := ⟨a.x - b.x, a.y - b.y, a.z - b.z⟩

/-- The constructor `glm::vec3(s)`. -/
def Vec3.splat (s : K) : Vec3 K := ⟨s, s, s⟩

/-- Componentwise `vec4 * float`. -/
def Vec4.scale (v : Vec4 K) (s : K) : Vec4 K := ⟨v.x * s, v.y * s, v.z * s, v.w * s⟩

/-- Componentwise `vec4 + vec4`. -/
def Vec4.add (a b : Vec4 K) : Vec4 K := ⟨a.x + b.x, a.y + b.y, a.z + b.z, a.w + b.w⟩

/-- The first three components of a `vec4`. -/
def Vec4.xyz (v : Vec4 K) : Vec3 K := ⟨v.x, v.y, v.z⟩

/-- The constructor `glm::vec4(v, w)`. -/
def Vec4.ofVec3 (v : Vec3 K) (w : K) : Vec4 K := ⟨v.x, v.y, v.z, w⟩

/-- The constructor `glm::mat4(1.0f)`. -/
def Mat4.identity : Mat4 K := ⟨⟨1, 0, 0, 0⟩, ⟨0, 1, 0, 0⟩, ⟨0, 0, 1, 0⟩, ⟨0, 0, 0, 1⟩⟩

/-- The value of a zero-initialised `glm::mat4` global. -/
def Mat4.zero : Mat4 K := ⟨⟨0, 0, 0, 0⟩, ⟨0, 0, 0, 0⟩, ⟨0, 0, 0, 0⟩, ⟨0, 0, 0, 0⟩⟩

/-- The product `mat4 * vec4`: `m[0]*v.x + m[1]*v.y + m[2]*v.z + m[3]*v.w`. -/
def Mat4.mulVec (m : Mat4 K) (v : Vec4 K) : Vec4 K :=
  (((m.c0.scale v.x).add (m.c1.scale v.y)).add (m.c2.scale v.z)).add (m.c3.scale v.w)

/-- The product `mat4 * mat4`: column `j` of the result is `m1 * m2[j]`. -/
def Mat4.mul (m1 m2 : Mat4 K) : Mat4 K :=
  ⟨m1.mulVec m2.c0, m1.mulVec m2.c1, m1.mulVec m2.c2, m1.mulVec m2.c3⟩

namespace glm

/-- The function `glm::dot` on `vec3`. -/
def dot (a b : Vec3 K) : K := a.x * b.x + a.y * b.y + a.z * b.z

/-- The function `glm::cross`. -/
def cross (a b : Vec3 K) : Vec3 K :=
  ⟨a.y * b.z - b.y * a.z, a.z * b.x - b.z * a.x, a.x * b.y - b.x * a.y⟩

/-- The function `glm::length`: `sqrt(dot(v, v))`. -/
def length (F : MathOps K) (v : Vec3 K) : K := F.sqrt (dot v v)

/-- The function `glm::inversesqrt`: `1 / sqrt(x)`. -/
def inversesqrt (F : MathOps K) (x : K) : K := 1 / F.sqrt x

/-- The function `glm::normalize`: `v * inversesqrt(dot(v, v))`. -/
def normalize (F : MathOps K) (v : Vec3 K) : Vec3 K := v.scale (inversesqrt F (dot v v))

/-- The function `glm::radians`: degrees to radians. -/
def radians (F : MathOps K) (degrees : K) : K := degrees * (F.pi / 180)

/-- The function `glm::translate(m, v)`: only the fourth column changes,
`Result[3] = m[0]*v[0] + m[1]*v[1] + m[2]*v[2] + m[3]`. -/
def translate (m : Mat4 K) (v : Vec3 K) : Mat4 K :=
  { m with c3 := (((m.c0.scale v.x).add (m.c1.scale v.y)).add (m.c2.scale v.z)).add m.c3 }

/-- The function `glm::rotate(m, angle, v)`: builds the rotation `Rotate` about the
normalised axis and returns `m * Rotate`, copying the fourth column of `m`. -/
def rotate (F : MathOps K) (m : Mat4 K) (angle : K) (v : Vec3 K) : Mat4 K :=
  let c := F.cos angle
  let s := F.sin angle
  let axis := normalize F v
  let temp := axis.scale (1 - c)
  let r00 := c + temp.x * axis.x
  let r01 := temp.x * axis.y + s * axis.z
  let r02 := temp.x * axis.z - s * axis.y
  let r10 := temp.y * axis.x - s * axis.z
  let r11 := c + temp.y * axis.y
  let r12 := temp.y * axis.z + s * axis.x
  let r20 := temp.z * axis.x + s * axis.y
  let r21 := temp.z * axis.y - s * axis.x
  let r22 := c + temp.z * axis.z
  { c0 := ((m.c0.scale r00).add (m.c1.scale r01)).add (m.c2.scale r02)
    c1 := ((m.c0.scale r10).add (m.c1.scale r11)).add (m.c2.scale r12)
    c2 := ((m.c0.scale r20).add (m.c1.scale r21)).add (m.c2.scale r22)
    c3 := m.c3 }

/-- The function `glm::scale(m, v)`: `Result[i] = m[i] * v[i]` for `i < 3`,
`Result[3] = m[3]`. -/
def scale (m : Mat4 K) (v : Vec3 K) : Mat4 K :=
  { c0 := m.c0.scale v.x, c1 := m.c1.scale v.y, c2 := m.c2.scale v.z, c3 := m.c3 }

/-- The function `glm::ortho(left, right, bottom, top, zNear, zFar)`
(right-handed, depth range −1..1). -/
def ortho (left right bottom top zNear zFar : K) : Mat4 K :=
  { c0 := ⟨2 / (right - left), 0, 0, 0⟩
    c1 := ⟨0, 2 / (top - bottom), 0, 0⟩
    c2 := ⟨0, 0, -(2 / (zFar - zNear)), 0⟩
    c3 := ⟨-((right + left) / (right - left)), -((top + bottom) / (top - bottom)),
           -((zFar + zNear) / (zFar - zNear)), 1⟩ }

/-- The function `glm::perspective(fovy, aspect, zNear, zFar)`
(right-handed, depth range −1..1). -/
def perspective (F : MathOps K) (fovy aspect zNear zFar : K) : Mat4 K :=
  let tanHalfFovy := F.tan (fovy / 2)
  { c0 := ⟨1 / (aspect * tanHalfFovy), 0, 0, 0⟩
    c1 := ⟨0, 1 / tanHalfFovy, 0, 0⟩
    c2 := ⟨0, 0, -((zFar + zNear) / (zFar - zNear)), -1⟩
    c3 := ⟨0, 0, -((2 * zFar * zNear) / (zFar - zNear)), 0⟩ }

/-- The function `glm::lookAt(eye, center, up)` (right-handed). -/
def lookAt (F : MathOps K) (eye center up : Vec3 K) : Mat4 K :=
  let f := normalize F (center.sub eye)
  let s := normalize F (cross f up)
  let u := cross s f
  { c0 := ⟨s.x, u.x, -f.x, 0⟩
    c1 := ⟨s.y, u.y, -f.y, 0⟩
    c2 := ⟨s.z, u.z, -f.z, 0⟩
    c3 := ⟨-(dot s eye), -(dot u eye), dot f eye, 1⟩ }

end glm

end Glm

/-! ## OpenGL context and program state -/

/-- The five `Shader` objects that `main` creates with `new Shader(...)`. -/
inductive Shader
  | phong_shading
  | pbr_shading
  | leaf_shading
  | shadowMap_shader
  | skyboxShader
deriving DecidableEq

/-- A value passed to one of the typed uniform setters of `Shader`. -/
inductive UVal (K : Type)
  | float (v : K)
  | int (v : Int)
  | vec3 (v : Vec3 K)
  | vec4 (v : Vec4 K)
  | mat4 (v : Mat4 K)
deriving DecidableEq

/-- The depth comparison functions `main.cpp` passes to `glDepthFunc`. -/
inductive DepthFunc
  | GL_LESS
  | GL_LEQUAL
  | GL_EQUAL
deriving DecidableEq

/-- The blend factors `main.cpp` passes to `glBlendFunc`. -/
inductive BlendFactor
  | GL_ZERO
  | GL_ONE
deriving DecidableEq

/-- The capabilities `main.cpp` passes to `glEnable` / `glDisable`. -/
inductive Cap
  | GL_DEPTH_TEST
  | GL_BLEND
  | GL_FRAMEBUFFER_SRGB
deriving DecidableEq

/-- The texture targets `main.cpp` passes to `glBindTexture`. -/
inductive TexTarget
  | GL_TEXTURE_2D
  | GL_TEXTURE_CUBE_MAP
deriving DecidableEq

/-- The primitive modes `main.cpp` draws with. -/
inductive DrawMode
  | GL_TRIANGLES
  | GL_TRIANGLE_STRIP
deriving DecidableEq

/-- The part of the OpenGL context state that `main.cpp` reads or writes.
Texture contents, buffer contents and vertex attribute layouts are not represented. -/
structure GLState (K : Type) where
  /-- The program made current by the last `glUseProgram` (`Shader::use`). -/
  program : Option Shader
  /-- The uniform store of every program, addressed by uniform name. -/
  uniforms : Shader → String → Option (UVal K)
  depthTest : Bool
  depthFunc : DepthFunc
  blend : Bool
  blendSrc : BlendFactor
  blendDst : BlendFactor
  framebufferSRGB : Bool
  /-- The unit `n` selected by the last `glActiveTexture(GL_TEXTUREn)`. -/
  activeTexture : Nat
  /-- The texture bound to `GL_TEXTURE_2D` on each texture unit (0 = none). -/
  texture2D : Nat → Nat
  /-- The texture bound to `GL_TEXTURE_CUBE_MAP` on each texture unit (0 = none). -/
  textureCubeMap : Nat → Nat
  /-- The viewport rectangle `(x, y, width, height)`. -/
  viewport : Int × Int × Int × Int
  /-- The framebuffer bound to `GL_FRAMEBUFFER` (0 = the window). -/
  framebuffer : Nat
  vertexArray : Nat
  arrayBuffer : Nat
  clearColor : K × K × K × K
  /-- The next unused object name handed out by a `glGen*` call. -/
  nextName : Nat

/-- The functions of `main.cpp` whose entry is recorded in the trace. -/
inductive Fn
  | GenerateOffsets
  | drawSkybox
  | drawShadowMap
  | drawObjects
  | drawQuad
  | drawGui
  | setAmbientUniforms
  | setLightUniforms
  | setShadowUniforms
  | setupForwardAdditionalPass
  | resetForwardAdditionalPass
deriving DecidableEq

/-- One operation of the trace. -/
inductive Event (K : Type)
  /-- Entry into a function of `main.cpp`. -/
  | call (f : Fn)
  /-- The call `obj->use()`. -/
  | use (obj : Shader)
  /-- A uniform setter called on `obj` while `bound` was the current program. -/
  | uniform (obj : Shader) (name : String) (val : UVal K) (bound : Option Shader)
  /-- The call `glClear(mask)`, with the GL state in force. -/
  | glClear (color : Bool) (depth : Bool) (gl : GLState K)
  /-- The call `glDrawArrays(mode, first, count)`, with the GL state in force. -/
  | glDrawArrays (mode : DrawMode) (first : Int) (count : Int) (gl : GLState K)
  /-- The call `glDrawArraysInstanced(mode, first, count, instancecount)`,
  with the GL state in force. -/
  | glDrawArraysInstanced (mode : DrawMode) (first : Int) (count : Int)
      (instancecount : Int) (gl : GLState K)
  /-- The call `ImGui_ImplOpenGL3_RenderDrawData`. -/
  | imguiRender

/-- The struct `Light` of `main.cpp`. -/
structure Light (K : Type) where
  position : Vec3 K
  color : Vec3 K
  intensity : K
  radius : K
deriving DecidableEq

/-- The struct `Config` of `main.cpp` (the material fields, which no function of
the core reads, are left out). -/
structure Config (K : Type) where
  ambientLightColor : Vec3 K
  ambientLightIntensity : K
  lights : List (Light K)

/-- Modelled from the spec: `camera.h` is not part of the sources.  The camera is
the record of what `main.cpp` reads from it: `camera.Position`, `camera.Zoom` and
the result of `camera.GetViewMatrix()`. -/
structure Camera (K : Type) where
  Position : Vec3 K
  Zoom : K
  view : Mat4 K

/-- The global variables of `main.cpp` used by the rendering core. -/
structure Vars (K : Type) where
  shader : Shader
  config : Config K
  camera : Camera K
  lightRotationSpeed : K
  deltaTime : K
  lastFrame : K
  isPaused : Bool
  epsilon : K
  c : K
  maxThickness : K
  minThickness : K
  models : Fin 100 → Mat4 K
  instanceCount : Int
  lightSpaceMatrix : Mat4 K
  leaf_texture : Nat
  leaf_texture_normal : Nat
  leaf_texture_translusency : Nat
  leaf_texture_roughness : Nat
  skyboxVAO : Nat
  cubemapTexture : Nat
  shadowMap : Nat
  shadowMapFBO : Nat

/-- The static local variables of `drawQuad`. -/
structure QuadStatics where
  quadVAO : Nat
  quadVBO : Nat

/-- The state of the program: the OpenGL context, the global variables, the static
locals of `drawQuad`, the number of `rand()` calls made so far, and the trace of
operations issued so far. -/
structure World (K : Type) where
  gl : GLState K
  vars : Vars K
  statics : QuadStatics
  randCalls : Nat
  trace : List (Event K)

/-- The constant `SCR_WIDTH`. -/
def SCR_WIDTH : Nat := 1280

/-- The constant `SCR_HEIGHT`. -/
def SCR_HEIGHT : Nat := 720

/-- The constant `SHADOW_WIDTH`. -/
def SHADOW_WIDTH : Nat := 2048

/-- The constant `SHADOW_HEIGHT`. -/
def SHADOW_HEIGHT : Nat := 2048

section Ops

variable {K : Type}

/-- Append one operation to the trace. -/
def World.emit (w : World K) (e : Event K) : World K :=
  { w with trace := w.trace ++ [e] }

/-- Replace the OpenGL context. -/
def World.setGL (w : World K) (g : GLState K) : World K :=
  { w with gl := g }

/-- Modelled from the spec: `shader.h` is not part of the sources.  `Shader::use`
binds the program as current. -/
def Shader.use (obj : Shader) (w : World K) : World K :=
  (w.setGL { w.gl with program := some obj }).emit (Event.use obj)

/-- Replace the static locals of `drawQuad`. -/
def World.setStatics (w : World K) (q : QuadStatics) : World K :=
  { w with statics := q }

/-- Replace the global variables. -/
def World.setVars (w : World K) (v : Vars K) : World K :=
  { w with vars := v }

/-- The effect of a uniform setter on the context: the value is stored under `name`
in the uniform store of the currently bound program; nothing is stored when no
program is bound. -/
def GLState.setUniform (g : GLState K) (name : String) (val : UVal K) : GLState K :=
  { g with
    uniforms :=
      match g.program with
      | some p => fun q n => if q = p ∧ n = name then some val else g.uniforms q n
      | none => g.uniforms }

/-- Modelled from the spec: `shader.h` is not part of the sources.  A typed uniform
setter called on `obj` acts on whichever program is currently bound. -/
def Shader.setUniform (obj : Shader) (name : String) (val : UVal K) (w : World K) :
    World K :=
  (w.setGL (w.gl.setUniform name val)).emit (Event.uniform obj name val w.gl.program)

/-- The setter `Shader::setFloat`. -/
def Shader.setFloat (obj : Shader) (name : String) (v : K) (w : World K) : World K :=
  obj.setUniform name (UVal.float v) w

/-- The setter `Shader::setInt`. -/
def Shader.setInt (obj : Shader) (name : String) (v : Int) (w : World K) : World K :=
  obj.setUniform name (UVal.int v) w

/-- The setter `Shader::setVec3`. -/
def Shader.setVec3 (obj : Shader) (name : String) (v : Vec3 K) (w : World K) : World K :=
  obj.setUniform name (UVal.vec3 v) w

/-- The setter `Shader::setVec4`. -/
def Shader.setVec4 (obj : Shader) (name : String) (v : Vec4 K) (w : World K) : World K :=
  obj.setUniform name (UVal.vec4 v) w

/-- The setter `Shader::setMat4`. -/
def Shader.setMat4 (obj : Shader) (name : String) (v : Mat4 K) (w : World K) : World K :=
  obj.setUniform name (UVal.mat4 v) w

/-- The call `glEnable(cap)`. -/
def glEnable (cap : Cap) (w : World K) : World K :=
  match cap with
  | Cap.GL_DEPTH_TEST => w.setGL { w.gl with depthTest := true }
  | Cap.GL_BLEND => w.setGL { w.gl with blend := true }
  | Cap.GL_FRAMEBUFFER_SRGB => w.setGL { w.gl with framebufferSRGB := true }

/-- The call `glDisable(cap)`. -/
def glDisable (cap : Cap) (w : World K) : World K :=
  match cap with
  | Cap.GL_DEPTH_TEST => w.setGL { w.gl with depthTest := false }
  | Cap.GL_BLEND => w.setGL { w.gl with blend := false }
  | Cap.GL_FRAMEBUFFER_SRGB => w.setGL { w.gl with framebufferSRGB := false }

/-- The call `glDepthFunc(func)`. -/
def glDepthFunc (func : DepthFunc) (w : World K) : World K :=
  w.setGL { w.gl with depthFunc := func }

/-- The call `glBlendFunc(sfactor, dfactor)`. -/
def glBlendFunc (sfactor dfactor : BlendFactor) (w : World K) : World K :=
  w.setGL { w.gl with blendSrc := sfactor, blendDst := dfactor }

/-- The call `glActiveTexture(GL_TEXTUREn)`. -/
def glActiveTexture (n : Nat) (w : World K) : World K :=
  w.setGL { w.gl with activeTexture := n }

/-- The call `glBindTexture(target, texture)`: binds on the active texture unit. -/
def glBindTexture (target : TexTarget) (texture : Nat) (w : World K) : World K :=
  match target with
  | TexTarget.GL_TEXTURE_2D =>
    w.setGL { w.gl with
      texture2D := fun u => if u = w.gl.activeTexture then texture else w.gl.texture2D u }
  | TexTarget.GL_TEXTURE_CUBE_MAP =>
    w.setGL { w.gl with
      textureCubeMap :=
        fun u => if u = w.gl.activeTexture then texture else w.gl.textureCubeMap u }

/-- The call `glBindVertexArray(array)`. -/
def glBindVertexArray (array : Nat) (w : World K) : World K :=
  w.setGL { w.gl with vertexArray := array }

/-- The call `glBindBuffer(GL_ARRAY_BUFFER, buffer)`. -/
def glBindBuffer (buffer : Nat) (w : World K) : World K :=
  w.setGL { w.gl with arrayBuffer := buffer }

/-- The call `glBindFramebuffer(GL_FRAMEBUFFER, framebuffer)`. -/
def glBindFramebuffer (framebuffer : Nat) (w : World K) : World K :=
  w.setGL { w.gl with framebuffer := framebuffer }

/-- The call `glViewport(x, y, width, height)`. -/
def glViewport (x y width height : Int) (w : World K) : World K :=
  w.setGL { w.gl with viewport := (x, y, width, height) }

/-- The call `glClearColor(r, g, b, a)`. -/
def glClearColor (r g b a : K) (w : World K) : World K :=
  w.setGL { w.gl with clearColor := (r, g, b, a) }

/-- The call `glClear(mask)`. -/
def glClear (color depth : Bool) (w : World K) : World K :=
  w.emit (Event.glClear color depth w.gl)

/-- A `glGen*(1, &id)` call: hands out the next unused object name. -/
def glGen (w : World K) : Nat × World K :=
  (w.gl.nextName, w.setGL { w.gl with nextName := w.gl.nextName + 1 })

/-- The call `glDrawArrays(mode, first, count)`. -/
def glDrawArrays (mode : DrawMode) (first count : Int) (w : World K) : World K :=
  w.emit (Event.glDrawArrays mode first count w.gl)

/-- The call `glDrawArraysInstanced(mode, first, count, instancecount)`. -/
def glDrawArraysInstanced (mode : DrawMode) (first count instancecount : Int)
    (w : World K) : World K :=
  w.emit (Event.glDrawArraysInstanced mode first count instancecount w.gl)

end Ops

/-! ## The functions of `main.cpp` -/

section Program

variable {K : Type} [LinearOrderedField K]

/-- The function `setAmbientUniforms` (lines 375–379). -/
def setAmbientUniforms (F : MathOps K) (ambientLightColor : Vec3 K) (w : World K) :
    World K :=
  let w := w.emit (Event.call Fn.setAmbientUniforms)
  w.vars.shader.setVec4 "ambientLightColor"
    (Vec4.ofVec3 ambientLightColor (if glm.length F ambientLightColor > 0 then 1 else 0)) w

/-- The function `setLightUniforms` (lines 381–395). -/
def setLightUniforms (F : MathOps K) (light : Light K) (w : World K) : World K :=
  let w := w.emit (Event.call Fn.setLightUniforms)
  let lightEnergy := light.color.scale light.intensity
  let lightEnergy :=
    if w.vars.shader = Shader.pbr_shading then lightEnergy.scale F.pi else lightEnergy
  let w := w.vars.shader.setVec3 "lightPosition" light.position w
  let w := w.vars.shader.setVec3 "lightColor" lightEnergy w
  w.vars.shader.setFloat "lightRadius" light.radius w

/-- The function `setupForwardAdditionalPass` (lines 397–412). -/
def setupForwardAdditionalPass (F : MathOps K) (w : World K) : World K :=
  let w := w.emit (Event.call Fn.setupForwardAdditionalPass)
  let w := setAmbientUniforms F (Vec3.splat 0) w
  let w := glEnable Cap.GL_BLEND w
  let w := glBlendFunc BlendFactor.GL_ONE BlendFactor.GL_ONE w
  let w := glDepthFunc DepthFunc.GL_EQUAL w
  let w := glActiveTexture 5 w
  glBindTexture TexTarget.GL_TEXTURE_2D 0 w

/-- The function `resetForwardAdditionalPass` (lines 414–425). -/
def resetForwardAdditionalPass (F : MathOps K) (w : World K) : World K :=
  let w := w.emit (Event.call Fn.resetForwardAdditionalPass)
  let w := setAmbientUniforms F
    (w.vars.config.ambientLightColor.scale w.vars.config.ambientLightIntensity) w
  let w := glDisable Cap.GL_BLEND w
  let w := glBlendFunc BlendFactor.GL_ONE BlendFactor.GL_ZERO w
  glDepthFunc DepthFunc.GL_LESS w

/-- The functions `loadTexture`, `loadTextureNoAlpha` and `loadTextureRED`
(lines 427–511): they differ only in the pixel format of the upload, which is not
represented; each generates a texture name and leaves it bound to `GL_TEXTURE_2D`
on the active unit. -/
def loadTexture (w : World K) : Nat × World K :=
  let (id, w) := glGen w
  (id, glBindTexture TexTarget.GL_TEXTURE_2D id w)

/-- The function `drawQuad` (lines 513–550). -/
def drawQuad (w : World K) : World K :=
  let w := w.emit (Event.call Fn.drawQuad)
  let w :=
    if w.statics.quadVAO = 0 then
      let (vao, w) := glGen w
      let w := w.setStatics { w.statics with quadVAO := vao }
      let (vbo, w) := glGen w
      let w := w.setStatics { w.statics with quadVBO := vbo }
      let w := glBindVertexArray w.statics.quadVAO w
      glBindBuffer w.statics.quadVBO w
    else w
  let w := glBindVertexArray w.statics.quadVAO w
  let w := glDrawArraysInstanced DrawMode.GL_TRIANGLE_STRIP 0 4 w.vars.instanceCount w
  glBindVertexArray 0 w

/-- The function `initSkyboxBuffers` (lines 554–615). -/
def initSkyboxBuffers (w : World K) : Nat × World K :=
  let (skyboxVAO, w) := glGen w
  let (skyboxVBO, w) := glGen w
  let w := glBindVertexArray skyboxVAO w
  let w := glBindBuffer skyboxVBO w
  (skyboxVAO, w)

/-- The function `loadCubemap` (lines 626–658). -/
def loadCubemap (w : World K) : Nat × World K :=
  let (textureID, w) := glGen w
  let w := glBindTexture TexTarget.GL_TEXTURE_CUBE_MAP textureID w
  let w := glBindTexture TexTarget.GL_TEXTURE_CUBE_MAP 0 w
  (textureID, w)

/-- The camera projection computed at lines 253, 665 and 764. -/
def cameraProjection (F : MathOps K) (w : World K) : Mat4 K :=
  glm.perspective F (glm.radians F w.vars.camera.Zoom) ((SCR_WIDTH : K) / (SCR_HEIGHT : K)) 0.1 100

/-- The function `drawSkybox` (lines 660–678). -/
def drawSkybox (F : MathOps K) (w : World K) : World K :=
  let w := w.emit (Event.call Fn.drawSkybox)
  let w := glDepthFunc DepthFunc.GL_LEQUAL w
  let w := Shader.skyboxShader.use w
  let projection := cameraProjection F w
  let view := w.vars.camera.view
  let w := Shader.skyboxShader.setMat4 "projection" projection w
  let w := Shader.skyboxShader.setMat4 "view" view w
  let w := Shader.skyboxShader.setInt "skybox" 0 w
  let w := glBindVertexArray w.vars.skyboxVAO w
  let w := glActiveTexture 0 w
  let w := glBindTexture TexTarget.GL_TEXTURE_CUBE_MAP w.vars.cubemapTexture w
  let w := glDrawArrays DrawMode.GL_TRIANGLES 0 36 w
  let w := glBindVertexArray 0 w
  glDepthFunc DepthFunc.GL_LESS w

/-- The function `createShadowMap` (lines 680–700). -/
def createShadowMap (w : World K) : World K :=
  let (id, w) := glGen w
  let w := w.setVars { w.vars with shadowMap := id }
  let w := glBindTexture TexTarget.GL_TEXTURE_2D w.vars.shadowMap w
  let (fbo, w) := glGen w
  let w := w.setVars { w.vars with shadowMapFBO := fbo }
  let w := glBindFramebuffer w.vars.shadowMapFBO w
  glBindFramebuffer 0 w

/-- The function `setShadowUniforms` (lines 746–754). -/
def setShadowUniforms (w : World K) : World K :=
  let w := w.emit (Event.call Fn.setShadowUniforms)
  let w := w.vars.shader.setMat4 "lightSpaceMatrix" w.vars.lightSpaceMatrix w
  let w := w.vars.shader.setInt "shadowMap" 6 w
  let w := glActiveTexture 6 w
  glBindTexture TexTarget.GL_TEXTURE_2D w.vars.shadowMap w

/-- The function `drawObjects` (lines 756–811). -/
def drawObjects (F : MathOps K) (w : World K) : World K :=
  let w := w.emit (Event.call Fn.drawObjects)
  let projection := cameraProjection F w
  let view := w.vars.camera.view
  let viewProjection := projection.mul view
  let w := w.vars.shader.setVec3 "camPosition" w.vars.camera.Position w
  let w := w.vars.shader.setMat4 "viewProjection" viewProjection w
  let w := w.vars.shader.setInt "skybox" 5 w
  let w := glActiveTexture 5 w
  let w := glBindTexture TexTarget.GL_TEXTURE_CUBE_MAP w.vars.cubemapTexture w
  let w := w.vars.shader.use w
  let w := w.vars.shader.setMat4 "model" Mat4.identity w
  let w := w.vars.shader.setMat4 "viewProjection" viewProjection w
  let w := glEnable Cap.GL_DEPTH_TEST w
  let w := glDisable Cap.GL_DEPTH_TEST w
  let w := glActiveTexture 1 w
  let w := glBindTexture TexTarget.GL_TEXTURE_2D w.vars.leaf_texture w
  let w := glActiveTexture 2 w
  let w := glBindTexture TexTarget.GL_TEXTURE_2D w.vars.leaf_texture_normal w
  let w := glActiveTexture 7 w
  let w := glBindTexture TexTarget.GL_TEXTURE_2D w.vars.leaf_texture_translusency w
  let w := glActiveTexture 8 w
  let w := glBindTexture TexTarget.GL_TEXTURE_2D w.vars.leaf_texture_roughness w
  let w := w.vars.shader.setInt "texture_diffuse1" 1 w
  let w := w.vars.shader.setInt "texture_normal1" 2 w
  let w := w.vars.shader.setInt "texture_translucency1" 7 w
  let w := w.vars.shader.setInt "texture_roughness1" 8 w
  drawQuad w

/-- The function `drawShadowMap` (lines 702–744), where `light0` is the value of
`config.lights[0]` read at line 719. -/
def drawShadowMap.body (F : MathOps K) (light0 : Light K) (w : World K) : World K :=
  let w := w.emit (Event.call Fn.drawShadowMap)
  let currShader := w.vars.shader
  let w := w.setVars { w.vars with shader := Shader.shadowMap_shader }
  let w := w.vars.shader.use w
  let near_plane : K := 1
  let shadowMapSize : K := 6
  let shadowMapDepthRange : K := 10
  let half := shadowMapSize / 2
  let lightProjection :=
    glm.ortho (-half) half (-half) half near_plane (near_plane + shadowMapDepthRange)
  let lightView :=
    glm.lookAt F (((glm.normalize F light0.position).scale shadowMapDepthRange).scale 0.5)
      (Vec3.splat 0) ⟨0, 1, 0⟩
  let w := w.setVars { w.vars with lightSpaceMatrix := lightProjection.mul lightView }
  let w := w.vars.shader.setMat4 "lightSpaceMatrix" w.vars.lightSpaceMatrix w
  let viewport := w.gl.viewport
  let w := glViewport 0 0 SHADOW_WIDTH SHADOW_HEIGHT w
  let w := glBindFramebuffer w.vars.shadowMapFBO w
  let w := glClear false true w
  let w := drawObjects F w
  let w := glBindFramebuffer 0 w
  let w := glViewport viewport.1 viewport.2.1 viewport.2.2.1 viewport.2.2.2 w
  w.setVars { w.vars with shader := currShader }

/-- The function `drawShadowMap` (lines 702–744); `none` when `config.lights[0]`
does not exist. -/
def drawShadowMap (F : MathOps K) (w : World K) : Option (World K) :=
  (w.vars.config.lights[0]?).map fun light0 => drawShadowMap.body F light0 w

/-- One call of `rand()`: the outcome of the `k`-th call is `rnd k`. -/
def rand (rnd : Nat → Nat) (w : World K) : Nat × World K :=
  (rnd w.randCalls, { w with randCalls := w.randCalls + 1 })

/-- The body of the first loop of `GenerateOffsets` (lines 818–841), on the pair of
the local `index` and the world, for loop counter `i`. -/
def GenerateOffsets.body (F : MathOps K) (RAND_MAX : Nat) (rnd : Nat → Nat)
    (st : Nat × World K) (i : Nat) : Nat × World K :=
  let index := st.1
  let w := st.2
  let rLow : K := 0.6
  let rHigh : K := 1.6
  let baseMatrix : Mat4 K := Mat4.identity
  let baseMatrix := glm.translate baseMatrix ⟨((i % 10 : Nat) : K), ((i / 10 : Nat) : K), 0⟩
  let (n, w) := rand rnd w
  let rx : K := (n : K) / ((RAND_MAX : K) / 6.28)
  let (n, w) := rand rnd w
  let ry : K := (n : K) / ((RAND_MAX : K) / 6.28)
  let (n, w) := rand rnd w
  let rz : K := (n : K) / ((RAND_MAX : K) / 6.28)
  let baseMatrix := glm.rotate F baseMatrix rz ⟨0, 0, 1⟩
  let baseMatrix := glm.rotate F baseMatrix ry ⟨0, 1, 0⟩
  let baseMatrix := glm.rotate F baseMatrix rx ⟨1, 0, 0⟩
  let (n, w) := rand rnd w
  let r : K := rLow + (n : K) / ((RAND_MAX : K) / (rHigh - rLow))
  let baseMatrix := glm.scale baseMatrix ⟨r, r, 1⟩
  (index + 1,
    w.setVars
      { w.vars with
        models := fun j => if j.val = index then baseMatrix else w.vars.models j })

/-- The body of the second loop of `GenerateOffsets` (lines 845–850). -/
def GenerateOffsets.upload (w : World K) (i : Nat) : World K :=
  if h : i < 100 then
    w.vars.shader.setMat4 ("models[" ++ toString i ++ "]") (w.vars.models ⟨i, h⟩) w
  else w

/-- The function `GenerateOffsets` (lines 813–851). -/
def GenerateOffsets (F : MathOps K) (RAND_MAX : Nat) (rnd : Nat → Nat) (w : World K) :
    World K :=
  let w := w.emit (Event.call Fn.GenerateOffsets)
  let w := ((List.range 100).foldl (GenerateOffsets.body F RAND_MAX rnd) (0, w)).2
  let w := w.vars.shader.use w
  (List.range 100).foldl GenerateOffsets.upload w

/-- Modelled from the spec: Dear ImGui is not part of the sources.  One frame of
panel interaction: for every widget of `drawGui` the value the user gives it this
frame, or `none` when the widget is left alone. -/
structure Panel (K : Type) where
  ambientLightColor : Option (Vec3 K)
  ambientLightIntensity : Option K
  light1Direction : Option (Vec3 K)
  light1Color : Option (Vec3 K)
  light1Intensity : Option K
  light2Position : Option (Vec3 K)
  light2Color : Option (Vec3 K)
  light2Intensity : Option K
  light2Radius : Option K
  light2Speed : Option K
  epsilon : Option K
  cValue : Option K
  instanceCount : Option Int
  maxThickness : Option K
  minThickness : Option K

/-- The range clamp a slider or drag widget applies to the value it writes. -/
def clampTo {α : Type} [LinearOrder α] (lo hi x : α) : α :=
  if x < lo then lo else if hi < x then hi else x

/-- A scalar slider with range `[lo, hi]` writing through a pointer. -/
def sliderEdit {α : Type} [LinearOrder α] (lo hi : α) (edit : Option α) (old : α) : α :=
  match edit with
  | none => old
  | some v => clampTo lo hi v

/-- The widget `ImGui::DragFloat3` with range `[lo, hi]` on every coordinate. -/
def dragFloat3 (lo hi : K) (edit : Option (Vec3 K)) (old : Vec3 K) : Vec3 K :=
  match edit with
  | none => old
  | some v => ⟨clampTo lo hi v.x, clampTo lo hi v.y, clampTo lo hi v.z⟩

/-- The widget `ImGui::ColorEdit3`. -/
def colorEdit3 (edit : Option (Vec3 K)) (old : Vec3 K) : Vec3 K :=
  match edit with
  | none => old
  | some v => v

/-- The function `drawGui` (lines 322–373); `none` when `config.lights[0]` or
`config.lights[1]` does not exist.  The ImGui renderer is taken to leave the
OpenGL context as it found it. -/
def drawGui (p : Panel K) (w : World K) : Option (World K) :=
  let w := w.emit (Event.call Fn.drawGui)
  match w.vars.config.lights with
  | l0 :: l1 :: rest =>
    let l0 : Light K :=
      { l0 with
        position := dragFloat3 (-20) 20 p.light1Direction l0.position
        color := colorEdit3 p.light1Color l0.color
        intensity := sliderEdit 0 50 p.light1Intensity l0.intensity }
    let l1 : Light K :=
      { position := dragFloat3 (-20) 20 p.light2Position l1.position
        color := colorEdit3 p.light2Color l1.color
        intensity := sliderEdit 0 50 p.light2Intensity l1.intensity
        radius := sliderEdit 0.01 50 p.light2Radius l1.radius }
    let w := w.setVars
      { w.vars with
        config :=
          { ambientLightColor := colorEdit3 p.ambientLightColor w.vars.config.ambientLightColor
            ambientLightIntensity :=
              sliderEdit 0 1 p.ambientLightIntensity w.vars.config.ambientLightIntensity
            lights := l0 :: l1 :: rest }
        lightRotationSpeed := sliderEdit 0 2 p.light2Speed w.vars.lightRotationSpeed
        epsilon := sliderEdit 0.01 1 p.epsilon w.vars.epsilon
        c := sliderEdit 0.01 1 p.cValue w.vars.c
        instanceCount := sliderEdit 1 100 p.instanceCount w.vars.instanceCount
        maxThickness := sliderEdit 0.01 10 p.maxThickness w.vars.maxThickness
        minThickness := sliderEdit 0.01 10 p.minThickness w.vars.minThickness }
    some (w.emit Event.imguiRender)
  | _ => none

/-- Modelled from the spec: GLFW is not part of the sources.  What the window and
input collaborator delivers during one iteration of the render loop. -/
structure FrameInput (K : Type) where
  /-- The value of `glfwGetTime()`. -/
  currentFrame : K
  /-- The effect on the camera of the movement keys read by `processInput`. -/
  processInput : Camera K → Camera K
  /-- The effect on the camera of the cursor and scroll callbacks run by
  `glfwPollEvents`. -/
  pollCamera : Camera K → Camera K
  /-- Whether `key_input_callback` runs and sees the space key pressed. -/
  spacePressed : Bool
  /-- The panel interaction, used when `drawGui` runs. -/
  panel : Panel K

/-- The function `processInput` (lines 853–869). -/
def processInput (io : FrameInput K) (w : World K) : World K :=
  if w.vars.isPaused then w
  else w.setVars { w.vars with camera := io.processInput w.vars.camera }

/-- The light rotation of lines 259–264: the new value of
`config.lights[1].position` for the old value `p`. -/
def rotatedLightPosition (F : MathOps K) (lightRotationSpeed deltaTime : K) (p : Vec3 K) :
    Vec3 K :=
  if lightRotationSpeed > 0 then
    let rotatedLight :=
      (glm.rotate F Mat4.identity (lightRotationSpeed * deltaTime) ⟨0, 1, 0⟩).mulVec
        (Vec4.ofVec3 p 1)
    ⟨rotatedLight.x, rotatedLight.y, rotatedLight.z⟩
  else p

/-- Lines 259–264 of `main`: `none` when the branch is taken and `config.lights[1]`
does not exist. -/
def rotateLight2 (F : MathOps K) (w : World K) : Option (World K) :=
  if w.vars.lightRotationSpeed > 0 then
    match w.vars.config.lights[1]? with
    | none => none
    | some l1 =>
      some (w.setVars
        { w.vars with
          config :=
            { w.vars.config with
              lights := w.vars.config.lights.set 1
                { l1 with
                  position :=
                    rotatedLightPosition F w.vars.lightRotationSpeed w.vars.deltaTime
                      l1.position } } })
  else some w

/-- The effect of `glfwPollEvents` (callbacks at lines 871–909). -/
def pollEvents (io : FrameInput K) (w : World K) : World K :=
  w.setVars
    { w.vars with
      camera := io.pollCamera w.vars.camera
      isPaused := if io.spacePressed then !w.vars.isPaused else w.vars.isPaused }

/-- The additive passes of lines 291–295: one `setLightUniforms` / `drawObjects`
pair for each of `config.lights[1]`, `config.lights[2]`, … in order. -/
def additivePasses (F : MathOps K) (lights : List (Light K)) (w : World K) : World K :=
  lights.foldl (fun w light => drawObjects F (setLightUniforms F light w)) w

/-- Lines 248–267 of `main`: frame timing, `processInput`, the rotation of light 2,
and the clear of the window. -/
def frameBegin (F : MathOps K) (io : FrameInput K) (w : World K) : Option (World K) := do
  let w := w.setVars
    { w.vars with
      deltaTime := io.currentFrame - w.vars.lastFrame, lastFrame := io.currentFrame }
  let w := processInput io w
  let w ← rotateLight2 F w
  let w := glClearColor 0.3 0.3 0.3 1 w
  pure (glClear true true w)

/-- Lines 274–287 of `main`: the base pass ("First light + ambient"), where
`light0` is the value of `config.lights[0]` read at line 278. -/
def basePass.body (F : MathOps K) (light0 : Light K) (w : World K) : World K :=
  let w := w.vars.shader.use w
  let w := setAmbientUniforms F
    (w.vars.config.ambientLightColor.scale w.vars.config.ambientLightIntensity) w
  let w := setLightUniforms F light0 w
  let w := setShadowUniforms w
  let w := w.vars.shader.setFloat "epsilonC" (w.vars.epsilon * w.vars.c) w
  let w := w.vars.shader.setFloat "minThickness" w.vars.minThickness w
  let w := w.vars.shader.setFloat "maxThickness" w.vars.maxThickness w
  drawObjects F w

/-- Lines 274–287 of `main`; `none` when `config.lights[0]` does not exist. -/
def basePass (F : MathOps K) (w : World K) : Option (World K) :=
  (w.vars.config.lights[0]?).map fun light0 => basePass.body F light0 w

/-- Lines 289–296 of `main`: "Additional additive lights". -/
def additionalPasses (F : MathOps K) (w : World K) : World K :=
  let w := setupForwardAdditionalPass F w
  let w := additivePasses F w.vars.config.lights.tail w
  resetForwardAdditionalPass F w

/-- Lines 298–303 of `main`: the panel when paused, then `glfwSwapBuffers` and
`glfwPollEvents`. -/
def frameEnd (io : FrameInput K) (w : World K) : Option (World K) := do
  let w ← if w.vars.isPaused then drawGui io.panel w else some w
  pure (pollEvents io w)

/-- One iteration of the render loop of `main` (lines 248–303). -/
def mainLoopBody (F : MathOps K) (io : FrameInput K) (w : World K) : Option (World K) := do
  let w ← frameBegin F io w
  let w := drawSkybox F w
  let w ← drawShadowMap F w
  let w ← basePass F w
  let w := additionalPasses F w
  frameEnd io w

/-- Start a fresh trace. -/
def World.clearTrace (w : World K) : World K :=
  { w with trace := [] }

/-- The operations issued by one iteration of the render loop started in `w`, in
chronological order (empty when the iteration is undefined). -/
def frameEvents (F : MathOps K) (io : FrameInput K) (w : World K) : List (Event K) :=
  match mainLoopBody F io w.clearTrace with
  | some w' => w'.trace
  | none => []

/-- The render loop of `main` (line 246), one iteration per element of the list of
inputs; the loop ends when the window is asked to close. -/
def renderLoop (F : MathOps K) : List (FrameInput K) → World K → Option (World K)
  | [], w => some w
  | io :: ios, w => (mainLoopBody F io w).bind (renderLoop F ios)

/-- The OpenGL context right after `glfwMakeContextCurrent`: the initial values the
OpenGL specification gives to the state represented here. -/
def initialGL : GLState K :=
  { program := none
    uniforms := fun _ _ => none
    depthTest := false
    depthFunc := DepthFunc.GL_LESS
    blend := false
    blendSrc := BlendFactor.GL_ONE
    blendDst := BlendFactor.GL_ZERO
    framebufferSRGB := false
    activeTexture := 0
    texture2D := fun _ => 0
    textureCubeMap := fun _ => 0
    viewport := (0, 0, SCR_WIDTH, SCR_HEIGHT)
    framebuffer := 0
    vertexArray := 0
    arrayBuffer := 0
    clearColor := (0, 0, 0, 0)
    nextName := 1 }

/-- The global variables of `main.cpp` with their initialisers (lines 25–150), with
`shader` already assigned as at line 197. -/
def initialWorld (camera : Camera K) : World K :=
  { gl := initialGL
    vars :=
      { shader := Shader.leaf_shading
        config :=
          { ambientLightColor := ⟨1, 1, 1⟩
            ambientLightIntensity := 0.25
            lights :=
              [⟨⟨-1, 1, -0.5⟩, ⟨1, 1, 1⟩, 30, 0⟩, ⟨⟨1, 1.5, 0⟩, ⟨0.7, 0.2, 1⟩, 0, 10⟩] }
        camera := camera
        lightRotationSpeed := 1
        deltaTime := 0
        lastFrame := 0
        isPaused := false
        epsilon := 1
        c := 1
        maxThickness := 5
        minThickness := 0.1
        models := fun _ => Mat4.zero
        instanceCount := 1
        lightSpaceMatrix := Mat4.zero
        leaf_texture := 0
        leaf_texture_normal := 0
        leaf_texture_translusency := 0
        leaf_texture_roughness := 0
        skyboxVAO := 0
        cubemapTexture := 0
        shadowMap := 0
        shadowMapFBO := 0 }
    statics := { quadVAO := 0, quadVBO := 0 }
    randCalls := 0
    trace := [] }

/-- The assignment `var = f(...)` of the value returned by a call to a global
variable: `r` is the returned value paired with the state after the call. -/
def assign (set : Vars K → Nat → Vars K) (r : Nat × World K) : World K :=
  r.2.setVars (set r.2.vars r.1)

/-- Lines 200–204 of `main`: the four leaf textures. -/
def loadLeafTextures (w : World K) : World K :=
  let w := assign (fun v id => { v with leaf_texture := id }) (loadTexture w)
  let w := assign (fun v id => { v with leaf_texture_normal := id }) (loadTexture w)
  let w := assign (fun v id => { v with leaf_texture_translusency := id }) (loadTexture w)
  assign (fun v id => { v with leaf_texture_roughness := id }) (loadTexture w)

/-- Lines 206–218 of `main`: the skybox cube map and its vertex array. -/
def initSkybox (w : World K) : World K :=
  let w := assign (fun v id => { v with cubemapTexture := id }) (loadCubemap w)
  assign (fun v id => { v with skyboxVAO := id }) (initSkyboxBuffers w)

/-- The start-up part of `main` (lines 193–232); the calls that create the window,
the programs and the panel, and `glDepthRange`, change nothing represented here. -/
def startup (F : MathOps K) (RAND_MAX : Nat) (rnd : Nat → Nat) (camera : Camera K) :
    World K :=
  let w : World K := initialWorld camera
  let w := loadLeafTextures w
  let w := initSkybox w
  let w := createShadowMap w
  let w := GenerateOffsets F RAND_MAX rnd w
  let w := glEnable Cap.GL_DEPTH_TEST w
  let w := glDepthFunc DepthFunc.GL_LESS w
  glEnable Cap.GL_FRAMEBUFFER_SRGB w

/-! ## Closed forms used in the statements -/

/-- The matrix one iteration of the first loop of `GenerateOffsets` stores in
`models[i]`, for the three angles and the scale factor drawn in that iteration. -/
def instanceTransform (F : MathOps K) (i : Nat) (rx ry rz r : K) : Mat4 K :=
  glm.scale
    (glm.rotate F
      (glm.rotate F
        (glm.rotate F
          (glm.translate Mat4.identity ⟨((i % 10 : Nat) : K), ((i / 10 : Nat) : K), 0⟩)
          rz ⟨0, 0, 1⟩)
        ry ⟨0, 1, 0⟩)
      rx ⟨1, 0, 0⟩)
    ⟨r, r, 1⟩

/-- The angle `rand() / (RAND_MAX / 6.28f)` for the outcome `n` of `rand()`. -/
def randomAngle (RAND_MAX : Nat) (n : Nat) : K := (n : K) / ((RAND_MAX : K) / 6.28)

/-- The scale `rLow + rand() / (RAND_MAX / (rHigh - rLow))` for the outcome `n` of
`rand()`, with `rLow = 0.6` and `rHigh = 1.6`. -/
def randomScale (RAND_MAX : Nat) (n : Nat) : K :=
  0.6 + (n : K) / ((RAND_MAX : K) / (1.6 - 0.6))

/-- A frame of panel interaction in which no widget is touched. -/
def Panel.idle : Panel K :=
  { ambientLightColor := none
    ambientLightIntensity := none
    light1Direction := none
    light1Color := none
    light1Intensity := none
    light2Position := none
    light2Color := none
    light2Intensity := none
    light2Radius := none
    light2Speed := none
    epsilon := none
    cValue := none
    instanceCount := none
    maxThickness := none
    minThickness := none }

/-- The input of a frame at time `t` in which no key is held, no callback fires and
the panel is left alone. -/
def FrameInput.idle (t : K) : FrameInput K :=
  { currentFrame := t
    processInput := fun cam => cam
    pollCamera := fun cam => cam
    spacePressed := false
    panel := Panel.idle }

/-- What the frame loop depends on in the state during start-up: the next unused
object name is `n`, texture unit 0 is active, nothing is bound to `GL_TEXTURE_2D` on
unit 6, the configuration is `cfg`, the leaf program is selected, the loop is not
paused, and `shadowMap` holds `sm`. -/
def StartupInv (cfg : Config K) (n sm : Nat) (w : World K) : Prop :=
  w.gl.nextName = n ∧ w.gl.activeTexture = 0 ∧ w.gl.texture2D 6 = 0 ∧ w.vars.config = cfg ∧
    w.vars.shader = Shader.leaf_shading ∧ w.vars.isPaused = false ∧ w.vars.shadowMap = sm

/-- The instance IDs (`gl_InstanceID`) an operation draws: `0 … instancecount - 1` for
an instanced draw, none for any other operation. -/
def Event.instanceIDs : Event K → List Nat
  | Event.glDrawArraysInstanced _ _ _ instancecount _ => List.range instancecount.toNat
  | _ => []

/-- The context that was in force at the draw call of the `drawQuad` invocation
that returned `w`: after the draw, `drawQuad` only unbinds the vertex array. -/
def World.drawGL (w : World K) : GLState K :=
  { w.gl with vertexArray := w.statics.quadVAO }

/-- The context in force at the draw call of `drawSkybox`: afterwards `drawSkybox`
only unbinds the vertex array and restores the depth function. -/
def drawSkybox.drawGL (F : MathOps K) (w : World K) : GLState K :=
  { (drawSkybox F w).gl with depthFunc := DepthFunc.GL_LEQUAL, vertexArray := w.vars.skyboxVAO }

/-- The context in force at the draw call of the shadow pass: afterwards
`drawShadowMap` only rebinds the window framebuffer and restores the viewport. -/
def drawShadowMap.drawGL (F : MathOps K) (light0 : Light K) (w : World K) : GLState K :=
  { (drawShadowMap.body F light0 w).drawGL with
    viewport := (0, 0, SHADOW_WIDTH, SHADOW_HEIGHT), framebuffer := w.vars.shadowMapFBO }

/-- An entry of the outline of a trace: a function entry, or a draw call together
with an observation of the context in force at the draw. -/
inductive Mark (α : Type)
  | call (f : Fn)
  | draw (a : α)
deriving DecidableEq

/-- The outline entry of an operation under the observation `obs`: function entries
and draw calls are kept, every other operation is dropped. -/
def Event.mark {α : Type} (obs : GLState K → α) : Event K → Option (Mark α)
  | Event.call f => some (Mark.call f)
  | Event.glDrawArrays _ _ _ g => some (Mark.draw (obs g))
  | Event.glDrawArraysInstanced _ _ _ _ g => some (Mark.draw (obs g))
  | _ => none

/-- The outline of a trace under the observation `obs`, in chronological order. -/
def outline {α : Type} (obs : GLState K → α) (t : List (Event K)) : List (Mark α) :=
  t.filterMap (Event.mark obs)

/-- The outline of one additive pass whose draw is observed as `a`. -/
def additivePassOutline {α : Type} (a : α) : List (Mark α) :=
  [Mark.call Fn.setLightUniforms, Mark.call Fn.drawObjects, Mark.call Fn.drawQuad, Mark.draw a]

/-- The position of the first entry of the function `f` in an outline (the length of
the outline when `f` is never entered). -/
def firstCall (f : Fn) (t : List (Mark Unit)) : Nat :=
  t.indexOf (Mark.call f)

/-- Lines 274–296 of `main`: the lit passes of a frame, that is the base pass followed
by the additional additive passes; `none` when `config.lights[0]` does not exist. -/
def litPasses (F : MathOps K) (w : World K) : Option (World K) :=
  (basePass F w).map (additionalPasses F)

/-- The observation of a draw call kept in an outline entry, if it is one. -/
def Mark.drawn {α : Type} : Mark α → Option α
  | Mark.call _ => none
  | Mark.draw a => some a

/-- The three light uniforms `lightPosition`, `lightColor` and `lightRadius` of the
program `s` in a context. -/
def GLState.lightUniforms (s : Shader) (g : GLState K) :
    Option (UVal K) × Option (UVal K) × Option (UVal K) :=
  (g.uniforms s "lightPosition", g.uniforms s "lightColor", g.uniforms s "lightRadius")

/-- The values `setLightUniforms` (lines 381–395) gives the three light uniforms for
`light` when the global `shader` is `s`. -/
def Light.uniformValues (F : MathOps K) (s : Shader) (light : Light K) :
    Option (UVal K) × Option (UVal K) × Option (UVal K) :=
  (some (UVal.vec3 light.position),
    some (UVal.vec3
      (if s = Shader.pbr_shading then (light.color.scale light.intensity).scale F.pi
        else light.color.scale light.intensity)),
    some (UVal.float light.radius))

/-- The vectors `drawShadowMap` hands to `glm::normalize` while it computes `lightView`
at line 719, in the order of the calls: the light position `config.lights[0].position`,
then inside `glm::lookAt(eye, center, up)` the view direction `center - eye` and the
cross product `cross(f, up)` of the normalized view direction with the world up-axis. -/
def drawShadowMap.normalized (F : MathOps K) (light0 : Light K) : List (Vec3 K) :=
  let shadowMapDepthRange : K := 10
  let eye := ((glm.normalize F light0.position).scale shadowMapDepthRange).scale 0.5
  let center : Vec3 K := Vec3.splat 0
  let up : Vec3 K := ⟨0, 1, 0⟩
  let f := glm.normalize F (center.sub eye)
  [light0.position, center.sub eye, glm.cross f up]

/-- Bind-before-set for one operation: a uniform setter must be called on the program
object that is the current program at that moment; any other operation passes. -/
def Event.setsBoundProgram : Event K → Bool
  | Event.uniform obj _ _ bound => decide (bound = some obj)
  | _ => true

/-- The name a uniform setter was called with, for an operation that is one. -/
def Event.uniformName : Event K → Option String
  | Event.uniform _ name _ _ => some name
  | _ => none

/-- The operations issued by `GenerateOffsets` called in `w`, in chronological order. -/
def uploadEvents (F : MathOps K) (RAND_MAX : Nat) (rnd : Nat → Nat) (w : World K) :
    List (Event K) :=
  (GenerateOffsets F RAND_MAX rnd w.clearTrace).trace

/-- The names of the uniforms that the functions called in an iteration of the render
loop set. -/
def frameUniformNames : List String :=
  ["projection", "view", "skybox", "lightSpaceMatrix", "camPosition", "viewProjection",
    "model", "texture_diffuse1", "texture_normal1", "texture_translucency1",
    "texture_roughness1", "ambientLightColor", "lightPosition", "lightColor", "lightRadius",
    "shadowMap", "epsilonC", "minThickness", "maxThickness"]

/-- The operation the second loop of `GenerateOffsets` (lines 845–850) issues for the
loop counter `i`, when the global `shader` is `s` and its program is current: the call
`shader->setMat4("models[i]", models[i])`. -/
def Event.modelsUpload (s : Shader) (models : Fin 100 → Mat4 K) (i : Nat) : Event K :=
  Event.uniform s ("models[" ++ toString i ++ "]")
    (UVal.mat4 (if h : i < 100 then models ⟨i, h⟩ else Mat4.zero)) (some s)

/-- Whether an operation is no uniform setter, or is one called with a name of
`frameUniformNames`. -/
def Event.setsFrameUniform (e : Event K) : Bool :=
  match e.uniformName with
  | some n => decide (n ∈ frameUniformNames)
  | none => true

/-! ## Projection lemmas for the state updates -/

section Projections

variable {K : Type}

@[simp] theorem World.emit_gl (w : World K) (e : Event K) : (w.emit e).gl = w.gl := rfl

@[simp] theorem World.emit_vars (w : World K) (e : Event K) : (w.emit e).vars = w.vars := rfl

@[simp] theorem World.emit_statics (w : World K) (e : Event K) : (w.emit e).statics = w.statics := rfl

@[simp] theorem World.emit_randCalls (w : World K) (e : Event K) : (w.emit e).randCalls = w.randCalls := rfl

@[simp] theorem World.emit_trace (w : World K) (e : Event K) : (w.emit e).trace = w.trace ++ [e] := rfl

@[simp] theorem World.setGL_gl (w : World K) (g : GLState K) : (w.setGL g).gl = g := rfl

@[simp] theorem World.setGL_vars (w : World K) (g : GLState K) : (w.setGL g).vars = w.vars := rfl

@[simp] theorem World.setGL_statics (w : World K) (g : GLState K) : (w.setGL g).statics = w.statics := rfl

@[simp] theorem World.setGL_randCalls (w : World K) (g : GLState K) : (w.setGL g).randCalls = w.randCalls := rfl

@[simp] theorem World.setGL_trace (w : World K) (g : GLState K) : (w.setGL g).trace = w.trace := rfl

@[simp] theorem World.setVars_gl (w : World K) (v : Vars K) : (w.setVars v).gl = w.gl := rfl

@[simp] theorem World.setVars_vars (w : World K) (v : Vars K) : (w.setVars v).vars = v := rfl

@[simp] theorem World.setVars_statics (w : World K) (v : Vars K) : (w.setVars v).statics = w.statics := rfl

@[simp] theorem World.setVars_randCalls (w : World K) (v : Vars K) : (w.setVars v).randCalls = w.randCalls := rfl

@[simp] theorem World.setVars_trace (w : World K) (v : Vars K) : (w.setVars v).trace = w.trace := rfl

@[simp] theorem World.setStatics_gl (w : World K) (q : QuadStatics) : (w.setStatics q).gl = w.gl := rfl

@[simp] theorem World.setStatics_vars (w : World K) (q : QuadStatics) : (w.setStatics q).vars = w.vars := rfl

@[simp] theorem World.setStatics_statics (w : World K) (q : QuadStatics) : (w.setStatics q).statics = q := rfl

@[simp] theorem World.setStatics_randCalls (w : World K) (q : QuadStatics) : (w.setStatics q).randCalls = w.randCalls := rfl

@[simp] theorem World.setStatics_trace (w : World K) (q : QuadStatics) : (w.setStatics q).trace = w.trace := rfl

@[simp] theorem World.clearTrace_gl (w : World K) : w.clearTrace.gl = w.gl := rfl

@[simp] theorem World.clearTrace_vars (w : World K) : w.clearTrace.vars = w.vars := rfl

@[simp] theorem World.clearTrace_statics (w : World K) : w.clearTrace.statics = w.statics := rfl

@[simp] theorem World.clearTrace_randCalls (w : World K) : w.clearTrace.randCalls = w.randCalls := rfl

@[simp] theorem World.clearTrace_trace (w : World K) : w.clearTrace.trace = [] := rfl

@[simp] theorem GLState.setUniform_program (g : GLState K) (n : String) (v : UVal K) :
    (g.setUniform n v).program = g.program := rfl

@[simp] theorem GLState.setUniform_depthTest (g : GLState K) (n : String) (v : UVal K) :
    (g.setUniform n v).depthTest = g.depthTest := rfl

@[simp] theorem GLState.setUniform_depthFunc (g : GLState K) (n : String) (v : UVal K) :
    (g.setUniform n v).depthFunc = g.depthFunc := rfl

@[simp] theorem GLState.setUniform_blend (g : GLState K) (n : String) (v : UVal K) :
    (g.setUniform n v).blend = g.blend := rfl

@[simp] theorem GLState.setUniform_blendSrc (g : GLState K) (n : String) (v : UVal K) :
    (g.setUniform n v).blendSrc = g.blendSrc := rfl

@[simp] theorem GLState.setUniform_blendDst (g : GLState K) (n : String) (v : UVal K) :
    (g.setUniform n v).blendDst = g.blendDst := rfl

@[simp] theorem GLState.setUniform_framebufferSRGB (g : GLState K) (n : String) (v : UVal K) :
    (g.setUniform n v).framebufferSRGB = g.framebufferSRGB := rfl

@[simp] theorem GLState.setUniform_activeTexture (g : GLState K) (n : String) (v : UVal K) :
    (g.setUniform n v).activeTexture = g.activeTexture := rfl

@[simp] theorem GLState.setUniform_texture2D (g : GLState K) (n : String) (v : UVal K) :
    (g.setUniform n v).texture2D = g.texture2D := rfl

@[simp] theorem GLState.setUniform_textureCubeMap (g : GLState K) (n : String) (v : UVal K) :
    (g.setUniform n v).textureCubeMap = g.textureCubeMap := rfl

@[simp] theorem GLState.setUniform_viewport (g : GLState K) (n : String) (v : UVal K) :
    (g.setUniform n v).viewport = g.viewport := rfl

@[simp] theorem GLState.setUniform_framebuffer (g : GLState K) (n : String) (v : UVal K) :
    (g.setUniform n v).framebuffer = g.framebuffer := rfl

@[simp] theorem GLState.setUniform_vertexArray (g : GLState K) (n : String) (v : UVal K) :
    (g.setUniform n v).vertexArray = g.vertexArray := rfl

@[simp] theorem GLState.setUniform_arrayBuffer (g : GLState K) (n : String) (v : UVal K) :
    (g.setUniform n v).arrayBuffer = g.arrayBuffer := rfl

@[simp] theorem GLState.setUniform_clearColor (g : GLState K) (n : String) (v : UVal K) :
    (g.setUniform n v).clearColor = g.clearColor := rfl

@[simp] theorem GLState.setUniform_nextName (g : GLState K) (n : String) (v : UVal K) :
    (g.setUniform n v).nextName = g.nextName := rfl


/-- The store after a uniform setter, read at program `q` and name `n`. -/
theorem GLState.setUniform_uniforms (g : GLState K) (name : String) (v : UVal K) (q : Shader)
    (n : String) :
    (g.setUniform name v).uniforms q n =
      if g.program = some q ∧ n = name then some v else g.uniforms q n := by
  unfold GLState.setUniform
  cases hp : g.program with
  | none => simp
  | some p =>
    by_cases h : q = p
    · subst h; simp
    · have h' : p ≠ q := fun e => h e.symm
      simp [h, h']

@[simp] theorem World.drawGL_program (w : World K) : w.drawGL.program = w.gl.program := rfl

@[simp] theorem World.drawGL_uniforms (w : World K) : w.drawGL.uniforms = w.gl.uniforms := rfl

@[simp] theorem World.drawGL_depthTest (w : World K) : w.drawGL.depthTest = w.gl.depthTest := rfl

@[simp] theorem World.drawGL_depthFunc (w : World K) : w.drawGL.depthFunc = w.gl.depthFunc := rfl

@[simp] theorem World.drawGL_blend (w : World K) : w.drawGL.blend = w.gl.blend := rfl

@[simp] theorem World.drawGL_blendSrc (w : World K) : w.drawGL.blendSrc = w.gl.blendSrc := rfl

@[simp] theorem World.drawGL_blendDst (w : World K) : w.drawGL.blendDst = w.gl.blendDst := rfl

@[simp] theorem World.drawGL_framebufferSRGB (w : World K) : w.drawGL.framebufferSRGB = w.gl.framebufferSRGB := rfl

@[simp] theorem World.drawGL_activeTexture (w : World K) : w.drawGL.activeTexture = w.gl.activeTexture := rfl

@[simp] theorem World.drawGL_texture2D (w : World K) : w.drawGL.texture2D = w.gl.texture2D := rfl

@[simp] theorem World.drawGL_textureCubeMap (w : World K) : w.drawGL.textureCubeMap = w.gl.textureCubeMap := rfl

@[simp] theorem World.drawGL_viewport (w : World K) : w.drawGL.viewport = w.gl.viewport := rfl

@[simp] theorem World.drawGL_framebuffer (w : World K) : w.drawGL.framebuffer = w.gl.framebuffer := rfl

@[simp] theorem World.drawGL_vertexArray (w : World K) : w.drawGL.vertexArray = w.statics.quadVAO := rfl

@[simp] theorem World.drawGL_arrayBuffer (w : World K) : w.drawGL.arrayBuffer = w.gl.arrayBuffer := rfl

@[simp] theorem World.drawGL_clearColor (w : World K) : w.drawGL.clearColor = w.gl.clearColor := rfl

@[simp] theorem World.drawGL_nextName (w : World K) : w.drawGL.nextName = w.gl.nextName := rfl


end Projections

/-! ## Effect of each function on the state -/

attribute [simp] Shader.use Shader.setUniform Shader.setFloat Shader.setInt Shader.setVec3
  Shader.setVec4 Shader.setMat4 glEnable glDisable glDepthFunc glBlendFunc glActiveTexture
  glBindTexture glBindVertexArray glBindBuffer glBindFramebuffer glViewport glClearColor glClear
  glGen glDrawArrays glDrawArraysInstanced

section Outline

variable {K : Type} {α : Type}

@[simp] theorem outline_nil (obs : GLState K → α) : outline obs [] = [] := rfl

@[simp] theorem outline_append (obs : GLState K → α) (a b : List (Event K)) :
    outline obs (a ++ b) = outline obs a ++ outline obs b :=
  List.filterMap_append _ _ _

@[simp] theorem outline_cons (obs : GLState K → α) (e : Event K) (t : List (Event K)) :
    outline obs (e :: t) = (Event.mark obs e).toList ++ outline obs t := by
  unfold outline
  cases h : Event.mark obs e <;> simp [List.filterMap_cons, h]

end Outline

section Effects

variable {K : Type}

/-! ### `drawQuad` -/

@[simp] theorem drawQuad_vars (w : World K) : (drawQuad w).vars = w.vars := by
  unfold drawQuad
  by_cases h : w.statics.quadVAO = 0 <;> simp [h]

@[simp] theorem drawQuad_randCalls (w : World K) : (drawQuad w).randCalls = w.randCalls := by
  unfold drawQuad
  by_cases h : w.statics.quadVAO = 0 <;> simp [h]

@[simp] theorem drawQuad_program (w : World K) : (drawQuad w).gl.program = w.gl.program := by
  unfold drawQuad
  by_cases h : w.statics.quadVAO = 0 <;> simp [h]

@[simp] theorem drawQuad_uniforms (w : World K) : (drawQuad w).gl.uniforms = w.gl.uniforms := by
  unfold drawQuad
  by_cases h : w.statics.quadVAO = 0 <;> simp [h]

@[simp] theorem drawQuad_depthTest (w : World K) : (drawQuad w).gl.depthTest = w.gl.depthTest := by
  unfold drawQuad
  by_cases h : w.statics.quadVAO = 0 <;> simp [h]

@[simp] theorem drawQuad_depthFunc (w : World K) : (drawQuad w).gl.depthFunc = w.gl.depthFunc := by
  unfold drawQuad
  by_cases h : w.statics.quadVAO = 0 <;> simp [h]

@[simp] theorem drawQuad_blend (w : World K) : (drawQuad w).gl.blend = w.gl.blend := by
  unfold drawQuad
  by_cases h : w.statics.quadVAO = 0 <;> simp [h]

@[simp] theorem drawQuad_blendSrc (w : World K) : (drawQuad w).gl.blendSrc = w.gl.blendSrc := by
  unfold drawQuad
  by_cases h : w.statics.quadVAO = 0 <;> simp [h]

@[simp] theorem drawQuad_blendDst (w : World K) : (drawQuad w).gl.blendDst = w.gl.blendDst := by
  unfold drawQuad
  by_cases h : w.statics.quadVAO = 0 <;> simp [h]

@[simp] theorem drawQuad_framebufferSRGB (w : World K) : (drawQuad w).gl.framebufferSRGB = w.gl.framebufferSRGB := by
  unfold drawQuad
  by_cases h : w.statics.quadVAO = 0 <;> simp [h]

@[simp] theorem drawQuad_activeTexture (w : World K) : (drawQuad w).gl.activeTexture = w.gl.activeTexture := by
  unfold drawQuad
  by_cases h : w.statics.quadVAO = 0 <;> simp [h]

@[simp] theorem drawQuad_texture2D (w : World K) : (drawQuad w).gl.texture2D = w.gl.texture2D := by
  unfold drawQuad
  by_cases h : w.statics.quadVAO = 0 <;> simp [h]

@[simp] theorem drawQuad_textureCubeMap (w : World K) : (drawQuad w).gl.textureCubeMap = w.gl.textureCubeMap := by
  unfold drawQuad
  by_cases h : w.statics.quadVAO = 0 <;> simp [h]

@[simp] theorem drawQuad_viewport (w : World K) : (drawQuad w).gl.viewport = w.gl.viewport := by
  unfold drawQuad
  by_cases h : w.statics.quadVAO = 0 <;> simp [h]

@[simp] theorem drawQuad_framebuffer (w : World K) : (drawQuad w).gl.framebuffer = w.gl.framebuffer := by
  unfold drawQuad
  by_cases h : w.statics.quadVAO = 0 <;> simp [h]

@[simp] theorem drawQuad_clearColor (w : World K) : (drawQuad w).gl.clearColor = w.gl.clearColor := by
  unfold drawQuad
  by_cases h : w.statics.quadVAO = 0 <;> simp [h]

/-- The operations issued by `drawQuad`: its entry and one instanced draw of 4
vertices with `instanceCount` instances. -/
theorem drawQuad_trace (w : World K) :
    (drawQuad w).trace =
      w.trace ++ [Event.call Fn.drawQuad,
        Event.glDrawArraysInstanced DrawMode.GL_TRIANGLE_STRIP 0 4 w.vars.instanceCount
          (drawQuad w).drawGL] := by
  unfold drawQuad
  by_cases h : w.statics.quadVAO = 0 <;> simp [h, World.drawGL]

end Effects

section EffectsField

variable {K : Type} [LinearOrderedField K]

/-! ### `drawObjects` -/

@[simp] theorem drawObjects_vars (F : MathOps K) (w : World K) :
    (drawObjects F w).vars = w.vars := by
  simp [drawObjects]

@[simp] theorem drawObjects_randCalls (F : MathOps K) (w : World K) :
    (drawObjects F w).randCalls = w.randCalls := by
  simp [drawObjects]

@[simp] theorem drawObjects_program (F : MathOps K) (w : World K) :
    (drawObjects F w).gl.program = some w.vars.shader := by
  simp [drawObjects]

@[simp] theorem drawObjects_depthTest (F : MathOps K) (w : World K) :
    (drawObjects F w).gl.depthTest = false := by
  simp [drawObjects]

@[simp] theorem drawObjects_depthFunc (F : MathOps K) (w : World K) :
    (drawObjects F w).gl.depthFunc = w.gl.depthFunc := by
  simp [drawObjects]

@[simp] theorem drawObjects_blend (F : MathOps K) (w : World K) :
    (drawObjects F w).gl.blend = w.gl.blend := by
  simp [drawObjects]

@[simp] theorem drawObjects_blendSrc (F : MathOps K) (w : World K) :
    (drawObjects F w).gl.blendSrc = w.gl.blendSrc := by
  simp [drawObjects]

@[simp] theorem drawObjects_blendDst (F : MathOps K) (w : World K) :
    (drawObjects F w).gl.blendDst = w.gl.blendDst := by
  simp [drawObjects]

@[simp] theorem drawObjects_framebufferSRGB (F : MathOps K) (w : World K) :
    (drawObjects F w).gl.framebufferSRGB = w.gl.framebufferSRGB := by
  simp [drawObjects]

@[simp] theorem drawObjects_viewport (F : MathOps K) (w : World K) :
    (drawObjects F w).gl.viewport = w.gl.viewport := by
  simp [drawObjects]

@[simp] theorem drawObjects_framebuffer (F : MathOps K) (w : World K) :
    (drawObjects F w).gl.framebuffer = w.gl.framebuffer := by
  simp [drawObjects]

@[simp] theorem drawObjects_clearColor (F : MathOps K) (w : World K) :
    (drawObjects F w).gl.clearColor = w.gl.clearColor := by
  simp [drawObjects]

theorem drawObjects_texture2D (F : MathOps K) (w : World K) (u : Nat) :
    (drawObjects F w).gl.texture2D u =
      if u = 8 then w.vars.leaf_texture_roughness
      else if u = 7 then w.vars.leaf_texture_translusency
      else if u = 2 then w.vars.leaf_texture_normal
      else if u = 1 then w.vars.leaf_texture
      else w.gl.texture2D u := by
  simp [drawObjects]

/-- A uniform that `drawObjects` does not set keeps its value, in every program. -/
theorem drawObjects_uniforms (F : MathOps K) (w : World K) (q : Shader) (n : String)
    (hn : n ∉ ["camPosition", "viewProjection", "skybox", "model", "texture_diffuse1",
      "texture_normal1", "texture_translucency1", "texture_roughness1"]) :
    (drawObjects F w).gl.uniforms q n = w.gl.uniforms q n := by
  simp only [List.mem_cons, List.mem_singleton, List.not_mem_nil, not_or, or_false] at hn
  simp [drawObjects, GLState.setUniform_uniforms, hn]

/-- The outline of `drawObjects`: its entry, the entry of `drawQuad`, one draw. -/
theorem drawObjects_outline {α : Type} (obs : GLState K → α) (F : MathOps K) (w : World K) :
    outline obs (drawObjects F w).trace =
      outline obs w.trace ++
        [Mark.call Fn.drawObjects, Mark.call Fn.drawQuad, Mark.draw (obs (drawObjects F w).drawGL)] := by
  unfold drawObjects
  simp [drawQuad_trace, Event.mark]

end EffectsField

section Stages

variable {K : Type} [LinearOrderedField K]

/-! ### `drawSkybox` -/

@[simp] theorem drawSkybox_vars (F : MathOps K) (w : World K) :
    (drawSkybox F w).vars = w.vars := by
  simp [drawSkybox]

@[simp] theorem drawSkybox_statics (F : MathOps K) (w : World K) :
    (drawSkybox F w).statics = w.statics := by
  simp [drawSkybox]

@[simp] theorem drawSkybox_randCalls (F : MathOps K) (w : World K) :
    (drawSkybox F w).randCalls = w.randCalls := by
  simp [drawSkybox]

@[simp] theorem drawSkybox_program (F : MathOps K) (w : World K) :
    (drawSkybox F w).gl.program = some Shader.skyboxShader := by
  simp [drawSkybox]

@[simp] theorem drawSkybox_depthFunc (F : MathOps K) (w : World K) :
    (drawSkybox F w).gl.depthFunc = DepthFunc.GL_LESS := by
  simp [drawSkybox]

@[simp] theorem drawSkybox_depthTest (F : MathOps K) (w : World K) :
    (drawSkybox F w).gl.depthTest = w.gl.depthTest := by
  simp [drawSkybox]

@[simp] theorem drawSkybox_blend (F : MathOps K) (w : World K) :
    (drawSkybox F w).gl.blend = w.gl.blend := by
  simp [drawSkybox]

@[simp] theorem drawSkybox_blendSrc (F : MathOps K) (w : World K) :
    (drawSkybox F w).gl.blendSrc = w.gl.blendSrc := by
  simp [drawSkybox]

@[simp] theorem drawSkybox_blendDst (F : MathOps K) (w : World K) :
    (drawSkybox F w).gl.blendDst = w.gl.blendDst := by
  simp [drawSkybox]

@[simp] theorem drawSkybox_framebufferSRGB (F : MathOps K) (w : World K) :
    (drawSkybox F w).gl.framebufferSRGB = w.gl.framebufferSRGB := by
  simp [drawSkybox]

@[simp] theorem drawSkybox_texture2D (F : MathOps K) (w : World K) :
    (drawSkybox F w).gl.texture2D = w.gl.texture2D := by
  simp [drawSkybox]

@[simp] theorem drawSkybox_viewport (F : MathOps K) (w : World K) :
    (drawSkybox F w).gl.viewport = w.gl.viewport := by
  simp [drawSkybox]

@[simp] theorem drawSkybox_framebuffer (F : MathOps K) (w : World K) :
    (drawSkybox F w).gl.framebuffer = w.gl.framebuffer := by
  simp [drawSkybox]

@[simp] theorem drawSkybox_clearColor (F : MathOps K) (w : World K) :
    (drawSkybox F w).gl.clearColor = w.gl.clearColor := by
  simp [drawSkybox]

@[simp] theorem drawSkybox_arrayBuffer (F : MathOps K) (w : World K) :
    (drawSkybox F w).gl.arrayBuffer = w.gl.arrayBuffer := by
  simp [drawSkybox]

@[simp] theorem drawSkybox_nextName (F : MathOps K) (w : World K) :
    (drawSkybox F w).gl.nextName = w.gl.nextName := by
  simp [drawSkybox]

/-- A uniform that `drawSkybox` does not set keeps its value, in every program. -/
theorem drawSkybox_uniforms (F : MathOps K) (w : World K) (q : Shader) (n : String)
    (hn : n ∉ ["projection", "view", "skybox"]) :
    (drawSkybox F w).gl.uniforms q n = w.gl.uniforms q n := by
  simp only [List.mem_cons, List.mem_singleton, List.not_mem_nil, not_or, or_false] at hn
  simp [drawSkybox, GLState.setUniform_uniforms, hn]

/-- The outline of `drawSkybox`: its entry and one draw. -/
theorem drawSkybox_outline {α : Type} (obs : GLState K → α) (F : MathOps K) (w : World K) :
    outline obs (drawSkybox F w).trace =
      outline obs w.trace ++ [Mark.call Fn.drawSkybox, Mark.draw (obs (drawSkybox.drawGL F w))] := by
  simp [drawSkybox, drawSkybox.drawGL, Event.mark]

/-! ### `drawShadowMap` -/

@[simp] theorem drawShadowMap_body_shader (F : MathOps K) (l : Light K) (w : World K) :
    (drawShadowMap.body F l w).vars.shader = w.vars.shader := by
  simp [drawShadowMap.body]

@[simp] theorem drawShadowMap_body_config (F : MathOps K) (l : Light K) (w : World K) :
    (drawShadowMap.body F l w).vars.config = w.vars.config := by
  simp [drawShadowMap.body]

@[simp] theorem drawShadowMap_body_camera (F : MathOps K) (l : Light K) (w : World K) :
    (drawShadowMap.body F l w).vars.camera = w.vars.camera := by
  simp [drawShadowMap.body]

@[simp] theorem drawShadowMap_body_lightRotationSpeed (F : MathOps K) (l : Light K) (w : World K) :
    (drawShadowMap.body F l w).vars.lightRotationSpeed = w.vars.lightRotationSpeed := by
  simp [drawShadowMap.body]

@[simp] theorem drawShadowMap_body_deltaTime (F : MathOps K) (l : Light K) (w : World K) :
    (drawShadowMap.body F l w).vars.deltaTime = w.vars.deltaTime := by
  simp [drawShadowMap.body]

@[simp] theorem drawShadowMap_body_lastFrame (F : MathOps K) (l : Light K) (w : World K) :
    (drawShadowMap.body F l w).vars.lastFrame = w.vars.lastFrame := by
  simp [drawShadowMap.body]

@[simp] theorem drawShadowMap_body_isPaused (F : MathOps K) (l : Light K) (w : World K) :
    (drawShadowMap.body F l w).vars.isPaused = w.vars.isPaused := by
  simp [drawShadowMap.body]

@[simp] theorem drawShadowMap_body_epsilon (F : MathOps K) (l : Light K) (w : World K) :
    (drawShadowMap.body F l w).vars.epsilon = w.vars.epsilon := by
  simp [drawShadowMap.body]

@[simp] theorem drawShadowMap_body_c (F : MathOps K) (l : Light K) (w : World K) :
    (drawShadowMap.body F l w).vars.c = w.vars.c := by
  simp [drawShadowMap.body]

@[simp] theorem drawShadowMap_body_maxThickness (F : MathOps K) (l : Light K) (w : World K) :
    (drawShadowMap.body F l w).vars.maxThickness = w.vars.maxThickness := by
  simp [drawShadowMap.body]

@[simp] theorem drawShadowMap_body_minThickness (F : MathOps K) (l : Light K) (w : World K) :
    (drawShadowMap.body F l w).vars.minThickness = w.vars.minThickness := by
  simp [drawShadowMap.body]

@[simp] theorem drawShadowMap_body_models (F : MathOps K) (l : Light K) (w : World K) :
    (drawShadowMap.body F l w).vars.models = w.vars.models := by
  simp [drawShadowMap.body]

@[simp] theorem drawShadowMap_body_instanceCount (F : MathOps K) (l : Light K) (w : World K) :
    (drawShadowMap.body F l w).vars.instanceCount = w.vars.instanceCount := by
  simp [drawShadowMap.body]

@[simp] theorem drawShadowMap_body_leaf_texture (F : MathOps K) (l : Light K) (w : World K) :
    (drawShadowMap.body F l w).vars.leaf_texture = w.vars.leaf_texture := by
  simp [drawShadowMap.body]

@[simp] theorem drawShadowMap_body_leaf_texture_normal (F : MathOps K) (l : Light K) (w : World K) :
    (drawShadowMap.body F l w).vars.leaf_texture_normal = w.vars.leaf_texture_normal := by
  simp [drawShadowMap.body]

@[simp] theorem drawShadowMap_body_leaf_texture_translusency (F : MathOps K) (l : Light K) (w : World K) :
    (drawShadowMap.body F l w).vars.leaf_texture_translusency = w.vars.leaf_texture_translusency := by
  simp [drawShadowMap.body]

@[simp] theorem drawShadowMap_body_leaf_texture_roughness (F : MathOps K) (l : Light K) (w : World K) :
    (drawShadowMap.body F l w).vars.leaf_texture_roughness = w.vars.leaf_texture_roughness := by
  simp [drawShadowMap.body]

@[simp] theorem drawShadowMap_body_skyboxVAO (F : MathOps K) (l : Light K) (w : World K) :
    (drawShadowMap.body F l w).vars.skyboxVAO = w.vars.skyboxVAO := by
  simp [drawShadowMap.body]

@[simp] theorem drawShadowMap_body_cubemapTexture (F : MathOps K) (l : Light K) (w : World K) :
    (drawShadowMap.body F l w).vars.cubemapTexture = w.vars.cubemapTexture := by
  simp [drawShadowMap.body]

@[simp] theorem drawShadowMap_body_shadowMap (F : MathOps K) (l : Light K) (w : World K) :
    (drawShadowMap.body F l w).vars.shadowMap = w.vars.shadowMap := by
  simp [drawShadowMap.body]

@[simp] theorem drawShadowMap_body_shadowMapFBO (F : MathOps K) (l : Light K) (w : World K) :
    (drawShadowMap.body F l w).vars.shadowMapFBO = w.vars.shadowMapFBO := by
  simp [drawShadowMap.body]

@[simp] theorem drawShadowMap_body_randCalls (F : MathOps K) (l : Light K) (w : World K) :
    (drawShadowMap.body F l w).randCalls = w.randCalls := by
  simp [drawShadowMap.body]

@[simp] theorem drawShadowMap_body_program (F : MathOps K) (l : Light K) (w : World K) :
    (drawShadowMap.body F l w).gl.program = some Shader.shadowMap_shader := by
  simp [drawShadowMap.body]

@[simp] theorem drawShadowMap_body_depthTest (F : MathOps K) (l : Light K) (w : World K) :
    (drawShadowMap.body F l w).gl.depthTest = false := by
  simp [drawShadowMap.body]

@[simp] theorem drawShadowMap_body_framebuffer (F : MathOps K) (l : Light K) (w : World K) :
    (drawShadowMap.body F l w).gl.framebuffer = 0 := by
  simp [drawShadowMap.body]

@[simp] theorem drawShadowMap_body_depthFunc (F : MathOps K) (l : Light K) (w : World K) :
    (drawShadowMap.body F l w).gl.depthFunc = w.gl.depthFunc := by
  simp [drawShadowMap.body]

@[simp] theorem drawShadowMap_body_blend (F : MathOps K) (l : Light K) (w : World K) :
    (drawShadowMap.body F l w).gl.blend = w.gl.blend := by
  simp [drawShadowMap.body]

@[simp] theorem drawShadowMap_body_blendSrc (F : MathOps K) (l : Light K) (w : World K) :
    (drawShadowMap.body F l w).gl.blendSrc = w.gl.blendSrc := by
  simp [drawShadowMap.body]

@[simp] theorem drawShadowMap_body_blendDst (F : MathOps K) (l : Light K) (w : World K) :
    (drawShadowMap.body F l w).gl.blendDst = w.gl.blendDst := by
  simp [drawShadowMap.body]

@[simp] theorem drawShadowMap_body_framebufferSRGB (F : MathOps K) (l : Light K) (w : World K) :
    (drawShadowMap.body F l w).gl.framebufferSRGB = w.gl.framebufferSRGB := by
  simp [drawShadowMap.body]

@[simp] theorem drawShadowMap_body_viewport (F : MathOps K) (l : Light K) (w : World K) :
    (drawShadowMap.body F l w).gl.viewport = w.gl.viewport := by
  simp [drawShadowMap.body]

@[simp] theorem drawShadowMap_body_clearColor (F : MathOps K) (l : Light K) (w : World K) :
    (drawShadowMap.body F l w).gl.clearColor = w.gl.clearColor := by
  simp [drawShadowMap.body]

theorem drawShadowMap_body_texture2D (F : MathOps K) (l : Light K) (w : World K) (u : Nat) :
    (drawShadowMap.body F l w).gl.texture2D u =
      if u = 8 then w.vars.leaf_texture_roughness
      else if u = 7 then w.vars.leaf_texture_translusency
      else if u = 2 then w.vars.leaf_texture_normal
      else if u = 1 then w.vars.leaf_texture
      else w.gl.texture2D u := by
  simp [drawShadowMap.body, drawObjects_texture2D]

/-- A uniform that the shadow pass does not set keeps its value, in every program. -/
theorem drawShadowMap_body_uniforms (F : MathOps K) (l : Light K) (w : World K) (q : Shader)
    (n : String)
    (hn : n ∉ ["lightSpaceMatrix", "camPosition", "viewProjection", "skybox", "model",
      "texture_diffuse1", "texture_normal1", "texture_translucency1", "texture_roughness1"]) :
    (drawShadowMap.body F l w).gl.uniforms q n = w.gl.uniforms q n := by
  simp only [List.mem_cons, List.mem_singleton, List.not_mem_nil, not_or, or_false] at hn
  have hn' : n ∉ ["camPosition", "viewProjection", "skybox", "model", "texture_diffuse1",
      "texture_normal1", "texture_translucency1", "texture_roughness1"] := by
    simp [hn]
  simp [drawShadowMap.body, drawObjects_uniforms _ _ _ _ hn', GLState.setUniform_uniforms, hn]

/-- The outline of the shadow pass: the entries of `drawShadowMap`, `drawObjects`
and `drawQuad`, then one draw. -/
theorem drawShadowMap_body_outline {α : Type} (obs : GLState K → α) (F : MathOps K)
    (l : Light K) (w : World K) :
    outline obs (drawShadowMap.body F l w).trace =
      outline obs w.trace ++
        [Mark.call Fn.drawShadowMap, Mark.call Fn.drawObjects, Mark.call Fn.drawQuad,
          Mark.draw (obs (drawShadowMap.drawGL F l w))] := by
  simp [drawShadowMap.body, drawShadowMap.drawGL, drawObjects_outline, Event.mark, World.drawGL]

end Stages

section Passes

variable {K : Type} [LinearOrderedField K]

/-! ### The base pass -/

@[simp] theorem basePass_body_vars (F : MathOps K) (l : Light K) (w : World K) :
    (basePass.body F l w).vars = w.vars := by
  simp [basePass.body, setAmbientUniforms, setLightUniforms, setShadowUniforms]

@[simp] theorem basePass_body_randCalls (F : MathOps K) (l : Light K) (w : World K) :
    (basePass.body F l w).randCalls = w.randCalls := by
  simp [basePass.body, setAmbientUniforms, setLightUniforms, setShadowUniforms]

@[simp] theorem basePass_body_program (F : MathOps K) (l : Light K) (w : World K) :
    (basePass.body F l w).gl.program = some w.vars.shader := by
  simp [basePass.body, setAmbientUniforms, setLightUniforms, setShadowUniforms]

@[simp] theorem basePass_body_depthFunc (F : MathOps K) (l : Light K) (w : World K) :
    (basePass.body F l w).gl.depthFunc = w.gl.depthFunc := by
  simp [basePass.body, setAmbientUniforms, setLightUniforms, setShadowUniforms]

theorem basePass_body_texture2D (F : MathOps K) (l : Light K) (w : World K) (u : Nat) :
    (basePass.body F l w).gl.texture2D u =
      if u = 8 then w.vars.leaf_texture_roughness
      else if u = 7 then w.vars.leaf_texture_translusency
      else if u = 2 then w.vars.leaf_texture_normal
      else if u = 1 then w.vars.leaf_texture
      else if u = 6 then w.vars.shadowMap
      else w.gl.texture2D u := by
  simp [basePass.body, setAmbientUniforms, setLightUniforms, setShadowUniforms,
    drawObjects_texture2D]

/-- The ambient uniform of the shading program after the base pass. -/
theorem basePass_body_ambient (F : MathOps K) (l : Light K) (w : World K) (s : Shader)
    (hs : w.vars.shader = s) :
    (basePass.body F l w).gl.uniforms s "ambientLightColor" =
      some (UVal.vec4 (Vec4.ofVec3
        (w.vars.config.ambientLightColor.scale w.vars.config.ambientLightIntensity)
        (if glm.length F
            (w.vars.config.ambientLightColor.scale w.vars.config.ambientLightIntensity) > 0
          then 1 else 0))) := by
  subst hs
  simp [basePass.body, setAmbientUniforms, setLightUniforms, setShadowUniforms,
    drawObjects_uniforms, GLState.setUniform_uniforms]

/-- The Beer's-law and thickness uniforms of the shading program after the base pass. -/
theorem basePass_body_thickness (F : MathOps K) (l : Light K) (w : World K) (s : Shader)
    (hs : w.vars.shader = s) :
    (basePass.body F l w).gl.uniforms s "epsilonC" =
        some (UVal.float (w.vars.epsilon * w.vars.c)) ∧
    (basePass.body F l w).gl.uniforms s "minThickness" =
        some (UVal.float w.vars.minThickness) ∧
    (basePass.body F l w).gl.uniforms s "maxThickness" =
        some (UVal.float w.vars.maxThickness) := by
  subst hs
  simp [basePass.body, setAmbientUniforms, setLightUniforms, setShadowUniforms,
    drawObjects_uniforms, GLState.setUniform_uniforms]

/-- The outline of the base pass. -/
theorem basePass_body_outline {α : Type} (obs : GLState K → α) (F : MathOps K)
    (l : Light K) (w : World K) :
    outline obs (basePass.body F l w).trace =
      outline obs w.trace ++
        [Mark.call Fn.setAmbientUniforms, Mark.call Fn.setLightUniforms,
          Mark.call Fn.setShadowUniforms, Mark.call Fn.drawObjects, Mark.call Fn.drawQuad,
          Mark.draw (obs (basePass.body F l w).drawGL)] := by
  simp [basePass.body, setAmbientUniforms, setLightUniforms, setShadowUniforms,
    drawObjects_outline, Event.mark]

/-! ### The additive passes -/

@[simp] theorem setLightUniforms_vars (F : MathOps K) (l : Light K) (w : World K) :
    (setLightUniforms F l w).vars = w.vars := by
  simp [setLightUniforms]

@[simp] theorem setupForwardAdditionalPass_vars (F : MathOps K) (w : World K) :
    (setupForwardAdditionalPass F w).vars = w.vars := by
  simp [setupForwardAdditionalPass, setAmbientUniforms]

@[simp] theorem resetForwardAdditionalPass_vars (F : MathOps K) (w : World K) :
    (resetForwardAdditionalPass F w).vars = w.vars := by
  simp [resetForwardAdditionalPass, setAmbientUniforms]

/-- A property kept by every additive pass holds after all of them. -/
theorem additivePasses_induction (F : MathOps K) (Inv : World K → Prop)
    (hstep : ∀ (l : Light K) (v : World K), Inv v →
      Inv (drawObjects F (setLightUniforms F l v)))
    (ls : List (Light K)) (w : World K) (hw : Inv w) : Inv (additivePasses F ls w) := by
  induction ls generalizing w with
  | nil => exact hw
  | cons l ls ih => exact ih _ (hstep l w hw)

@[simp] theorem additivePasses_vars (F : MathOps K) (ls : List (Light K)) (w : World K) :
    (additivePasses F ls w).vars = w.vars :=
  additivePasses_induction F (fun v => v.vars = w.vars) (fun l v hv => by simp [hv]) ls w rfl

@[simp] theorem additionalPasses_vars (F : MathOps K) (w : World K) :
    (additionalPasses F w).vars = w.vars := by
  simp [additionalPasses]

/-- The outline of one additive pass. -/
theorem additivePass_outline {α : Type} (obs : GLState K → α) (F : MathOps K) (l : Light K)
    (w : World K) :
    outline obs (drawObjects F (setLightUniforms F l w)).trace =
      outline obs w.trace ++
        additivePassOutline (obs (drawObjects F (setLightUniforms F l w)).drawGL) := by
  simp [drawObjects_outline, setLightUniforms, additivePassOutline, Event.mark]

/-- The outline of the additive passes, when every pass keeps the property `Inv` and
draws under the observation `a` whenever it starts with `Inv`. -/
theorem additivePasses_outline {α : Type} (obs : GLState K → α) (a : α) (F : MathOps K)
    (Inv : World K → Prop)
    (hstep : ∀ (l : Light K) (v : World K), Inv v →
      Inv (drawObjects F (setLightUniforms F l v)) ∧
        obs (drawObjects F (setLightUniforms F l v)).drawGL = a)
    (ls : List (Light K)) (w : World K) (hw : Inv w) :
    Inv (additivePasses F ls w) ∧
      outline obs (additivePasses F ls w).trace =
        outline obs w.trace ++ (List.replicate ls.length (additivePassOutline a)).flatten := by
  induction ls generalizing w with
  | nil => exact ⟨hw, by simp [additivePasses]⟩
  | cons l ls ih =>
    obtain ⟨h1, h2⟩ := hstep l w hw
    obtain ⟨h3, h4⟩ := ih (drawObjects F (setLightUniforms F l w)) h1
    refine ⟨h3, ?_⟩
    have e : additivePasses F (l :: ls) w =
        additivePasses F ls (drawObjects F (setLightUniforms F l w)) := rfl
    rw [e, h4, additivePass_outline, h2]
    simp [List.replicate_succ]

/-- The outline of lines 289–296, under the same assumptions. -/
theorem additionalPasses_outline {α : Type} (obs : GLState K → α) (a : α) (F : MathOps K)
    (Inv : World K → Prop)
    (hstep : ∀ (l : Light K) (v : World K), Inv v →
      Inv (drawObjects F (setLightUniforms F l v)) ∧
        obs (drawObjects F (setLightUniforms F l v)).drawGL = a)
    (w : World K) (hw : Inv (setupForwardAdditionalPass F w)) :
    Inv (additivePasses F w.vars.config.lights.tail (setupForwardAdditionalPass F w)) ∧
      outline obs (additionalPasses F w).trace =
        outline obs w.trace ++
          [Mark.call Fn.setupForwardAdditionalPass, Mark.call Fn.setAmbientUniforms] ++
          (List.replicate w.vars.config.lights.tail.length (additivePassOutline a)).flatten ++
          [Mark.call Fn.resetForwardAdditionalPass, Mark.call Fn.setAmbientUniforms] := by
  obtain ⟨h1, h2⟩ := additivePasses_outline obs a F Inv hstep w.vars.config.lights.tail _ hw
  refine ⟨h1, ?_⟩
  unfold additionalPasses
  simp only [setupForwardAdditionalPass_vars]
  have e : ∀ v : World K, outline obs (resetForwardAdditionalPass F v).trace =
      outline obs v.trace ++
        [Mark.call Fn.resetForwardAdditionalPass, Mark.call Fn.setAmbientUniforms] := by
    intro v
    simp [resetForwardAdditionalPass, setAmbientUniforms, Event.mark]
  rw [e, h2]
  simp [setupForwardAdditionalPass, setAmbientUniforms, Event.mark]

/-! ### The frame -/

/-- Lines 248–267 are defined when there are two lights; they change the clear
colour, the frame timing, the camera and the position of light 2, and issue the
clear of the window. -/
theorem frameBegin_spec (F : MathOps K) (io : FrameInput K) (w : World K) (l0 l1 : Light K)
    (rest : List (Light K)) (h : w.vars.config.lights = l0 :: l1 :: rest) :
    ∃ wb, frameBegin F io w = some wb ∧
      wb.gl = { w.gl with clearColor := (0.3, 0.3, 0.3, 1) } ∧
      wb.vars =
        { w.vars with
          deltaTime := io.currentFrame - w.vars.lastFrame
          lastFrame := io.currentFrame
          camera := if w.vars.isPaused then w.vars.camera else io.processInput w.vars.camera
          config :=
            { w.vars.config with
              lights :=
                l0 :: { l1 with
                  position :=
                    rotatedLightPosition F w.vars.lightRotationSpeed
                      (io.currentFrame - w.vars.lastFrame) l1.position } :: rest } } ∧
      wb.statics = w.statics ∧ wb.randCalls = w.randCalls ∧
      wb.trace = w.trace ++ [Event.glClear true true { w.gl with clearColor := (0.3, 0.3, 0.3, 1) }] := by
  have hc : w.vars.config =
      ⟨w.vars.config.ambientLightColor, w.vars.config.ambientLightIntensity,
        l0 :: l1 :: rest⟩ := by
    rw [← h]
  by_cases hp : w.vars.isPaused = true <;> by_cases hs : w.vars.lightRotationSpeed > 0
  · simp [frameBegin, processInput, rotateLight2, rotatedLightPosition, hp, hs, h]
  · simp [frameBegin, processInput, rotateLight2, rotatedLightPosition, hp, hs]
    exact hc
  · simp [frameBegin, processInput, rotateLight2, rotatedLightPosition, hp, hs, h]
  · simp [frameBegin, processInput, rotateLight2, rotatedLightPosition, hp, hs]
    exact hc

/-- Lines 298–303 are defined when there are two lights; they leave the context
unchanged and issue the panel operations when paused. -/
theorem frameEnd_spec (io : FrameInput K) (w : World K) (l0 l1 : Light K)
    (rest : List (Light K)) (h : w.vars.config.lights = l0 :: l1 :: rest) :
    ∃ wf, frameEnd io w = some wf ∧ wf.gl = w.gl ∧ wf.statics = w.statics ∧
      wf.trace =
        w.trace ++ (if w.vars.isPaused then [Event.call Fn.drawGui, Event.imguiRender] else []) := by
  by_cases hp : w.vars.isPaused = true
  · simp [frameEnd, drawGui, pollEvents, hp, h]
  · simp [frameEnd, drawGui, pollEvents, hp, h]

/-- After lines 289–296 the ambient uniform of the shading program is the
configured ambient light again, provided the shading program is bound on entry. -/
theorem additionalPasses_ambient (F : MathOps K) (w : World K) (s : Shader)
    (hs : w.vars.shader = s) (hp : w.gl.program = some s) :
    (additionalPasses F w).gl.uniforms s "ambientLightColor" =
      some (UVal.vec4 (Vec4.ofVec3
        (w.vars.config.ambientLightColor.scale w.vars.config.ambientLightIntensity)
        (if glm.length F
            (w.vars.config.ambientLightColor.scale w.vars.config.ambientLightIntensity) > 0
          then 1 else 0))) := by
  have hprog : (additivePasses F w.vars.config.lights.tail
      (setupForwardAdditionalPass F w)).gl.program = some s :=
    additivePasses_induction F (fun v => v.vars.shader = s ∧ v.gl.program = some s)
      (fun l v hv => by simp [hv]) _ _
      (by simp [setupForwardAdditionalPass, setAmbientUniforms, hs, hp]) |>.2
  simp [additionalPasses, resetForwardAdditionalPass, setAmbientUniforms,
    GLState.setUniform_uniforms, hprog]

/-- One iteration of the render loop is defined when there are two lights: it is
lines 248–267, then `drawSkybox`, `drawShadowMap`, the base pass and the additional
passes, then lines 298–303. -/
theorem mainLoopBody_spec (F : MathOps K) (io : FrameInput K) (w : World K) (l0 l1 : Light K)
    (rest : List (Light K)) (h : w.vars.config.lights = l0 :: l1 :: rest) :
    ∃ wb wf, frameBegin F io w = some wb ∧
      wb.gl = { w.gl with clearColor := (0.3, 0.3, 0.3, 1) } ∧
      wb.vars =
        { w.vars with
          deltaTime := io.currentFrame - w.vars.lastFrame
          lastFrame := io.currentFrame
          camera := if w.vars.isPaused then w.vars.camera else io.processInput w.vars.camera
          config :=
            { w.vars.config with
              lights :=
                l0 :: { l1 with
                  position :=
                    rotatedLightPosition F w.vars.lightRotationSpeed
                      (io.currentFrame - w.vars.lastFrame) l1.position } :: rest } } ∧
      wb.statics = w.statics ∧
      mainLoopBody F io w = some wf ∧
      wf.gl =
        (additionalPasses F
          (basePass.body F l0 (drawShadowMap.body F l0 (drawSkybox F wb)))).gl ∧
      wf.trace =
        (additionalPasses F
          (basePass.body F l0 (drawShadowMap.body F l0 (drawSkybox F wb)))).trace ++
          (if w.vars.isPaused then [Event.call Fn.drawGui, Event.imguiRender] else []) := by
  obtain ⟨wb, hb, hgl, hvars, hst, hrc, htr⟩ := frameBegin_spec F io w l0 l1 rest h
  have hl : (additionalPasses F
      (basePass.body F l0 (drawShadowMap.body F l0 (drawSkybox F wb)))).vars.config.lights =
        l0 :: { l1 with
          position :=
            rotatedLightPosition F w.vars.lightRotationSpeed
              (io.currentFrame - w.vars.lastFrame) l1.position } :: rest := by
    simp [hvars]
  obtain ⟨wf, hf, hfgl, -, hftr⟩ := frameEnd_spec io _ _ _ _ hl
  refine ⟨wb, wf, hb, hgl, hvars, hst, ?_, hfgl, ?_⟩
  · simp [mainLoopBody, hb, drawShadowMap, basePass, hvars, hf]
  · rw [hftr]
    simp [hvars]

end Passes

section Frame
variable {K : Type} [LinearOrderedField K]

/-- The outline of one iteration of the render loop with two or more lights, under
any observation `obs` that every additive pass draws with value `a`. -/
theorem frame_outline {α : Type} (obs : GLState K → α) (a : α) (F : MathOps K)
    (Inv : World K → Prop)
    (hstep : ∀ (l : Light K) (v : World K), Inv v →
      Inv (drawObjects F (setLightUniforms F l v)) ∧
        obs (drawObjects F (setLightUniforms F l v)).drawGL = a)
    (io : FrameInput K) (w : World K) (l0 l1 : Light K) (rest : List (Light K))
    (h : w.vars.config.lights = l0 :: l1 :: rest) :
    ∃ wb, frameBegin F io w.clearTrace = some wb ∧
      wb.gl = { w.gl with clearColor := (0.3, 0.3, 0.3, 1) } ∧
      wb.vars =
        { w.vars with
          deltaTime := io.currentFrame - w.vars.lastFrame
          lastFrame := io.currentFrame
          camera := if w.vars.isPaused then w.vars.camera else io.processInput w.vars.camera
          config :=
            { w.vars.config with
              lights :=
                l0 :: { l1 with
                  position :=
                    rotatedLightPosition F w.vars.lightRotationSpeed
                      (io.currentFrame - w.vars.lastFrame) l1.position } :: rest } } ∧
      wb.statics = w.statics ∧
      (Inv (setupForwardAdditionalPass F
          (basePass.body F l0 (drawShadowMap.body F l0 (drawSkybox F wb)))) →
        outline obs (frameEvents F io w) =
          [Mark.call Fn.drawSkybox, Mark.draw (obs (drawSkybox.drawGL F wb)),
            Mark.call Fn.drawShadowMap, Mark.call Fn.drawObjects, Mark.call Fn.drawQuad,
            Mark.draw (obs (drawShadowMap.drawGL F l0 (drawSkybox F wb))),
            Mark.call Fn.setAmbientUniforms, Mark.call Fn.setLightUniforms,
            Mark.call Fn.setShadowUniforms, Mark.call Fn.drawObjects, Mark.call Fn.drawQuad,
            Mark.draw
              (obs (basePass.body F l0 (drawShadowMap.body F l0 (drawSkybox F wb))).drawGL),
            Mark.call Fn.setupForwardAdditionalPass, Mark.call Fn.setAmbientUniforms] ++
          (List.replicate (rest.length + 1) (additivePassOutline a)).flatten ++
          [Mark.call Fn.resetForwardAdditionalPass, Mark.call Fn.setAmbientUniforms] ++
          (if w.vars.isPaused then [Mark.call Fn.drawGui] else [])) := by
  have h' : w.clearTrace.vars.config.lights = l0 :: l1 :: rest := h
  obtain ⟨wb, hb, hgl, hvars, hst, -, htr⟩ := frameBegin_spec F io w.clearTrace l0 l1 rest h'
  obtain ⟨wb', wf, hb', -, -, -, hm, -, hftr⟩ :=
    mainLoopBody_spec F io w.clearTrace l0 l1 rest h'
  have e : wb' = wb := Option.some.inj (hb'.symm.trans hb)
  subst e
  refine ⟨wb', hb, hgl, hvars, hst, ?_⟩
  intro hInv
  obtain ⟨-, ho⟩ := additionalPasses_outline obs a F Inv hstep _ hInv
  have hfe : frameEvents F io w = wf.trace := by
    simp [frameEvents, hm]
  rw [hfe, hftr, outline_append, ho, basePass_body_outline, drawShadowMap_body_outline,
    drawSkybox_outline, htr]
  by_cases hp : w.vars.isPaused = true <;> simp [hp, hvars, Event.mark]

end Frame

section FrameObservations
variable {K : Type} [LinearOrderedField K]

/-- The order of the function entries and draws of one iteration of the render loop. -/
theorem frame_calls (F : MathOps K) (io : FrameInput K) (w : World K) (l0 l1 : Light K)
    (rest : List (Light K)) (h : w.vars.config.lights = l0 :: l1 :: rest) :
    outline (fun _ => ()) (frameEvents F io w) =
      [Mark.call Fn.drawSkybox, Mark.draw (),
        Mark.call Fn.drawShadowMap, Mark.call Fn.drawObjects, Mark.call Fn.drawQuad,
        Mark.draw (),
        Mark.call Fn.setAmbientUniforms, Mark.call Fn.setLightUniforms,
        Mark.call Fn.setShadowUniforms, Mark.call Fn.drawObjects, Mark.call Fn.drawQuad,
        Mark.draw (),
        Mark.call Fn.setupForwardAdditionalPass, Mark.call Fn.setAmbientUniforms] ++
      (List.replicate (rest.length + 1) (additivePassOutline ())).flatten ++
      [Mark.call Fn.resetForwardAdditionalPass, Mark.call Fn.setAmbientUniforms] ++
      (if w.vars.isPaused then [Mark.call Fn.drawGui] else []) := by
  obtain ⟨wb, -, -, -, -, ho⟩ :=
    frame_outline (fun _ : GLState K => ()) () F (fun _ => True)
      (fun l v _ => ⟨trivial, rfl⟩) io w l0 l1 rest h
  exact ho trivial

/-- The texture bound to `GL_TEXTURE_2D` on unit 6 at every draw of a frame. -/
theorem frame_shadowUnit (F : MathOps K) (io : FrameInput K) (w : World K) (l0 l1 : Light K)
    (rest : List (Light K)) (h : w.vars.config.lights = l0 :: l1 :: rest) :
    outline (fun g => g.texture2D 6) (frameEvents F io w) =
      [Mark.call Fn.drawSkybox, Mark.draw (w.gl.texture2D 6),
        Mark.call Fn.drawShadowMap, Mark.call Fn.drawObjects, Mark.call Fn.drawQuad,
        Mark.draw (w.gl.texture2D 6),
        Mark.call Fn.setAmbientUniforms, Mark.call Fn.setLightUniforms,
        Mark.call Fn.setShadowUniforms, Mark.call Fn.drawObjects, Mark.call Fn.drawQuad,
        Mark.draw w.vars.shadowMap,
        Mark.call Fn.setupForwardAdditionalPass, Mark.call Fn.setAmbientUniforms] ++
      (List.replicate (rest.length + 1) (additivePassOutline w.vars.shadowMap)).flatten ++
      [Mark.call Fn.resetForwardAdditionalPass, Mark.call Fn.setAmbientUniforms] ++
      (if w.vars.isPaused then [Mark.call Fn.drawGui] else []) := by
  obtain ⟨wb, -, hgl, hvars, -, ho⟩ :=
    frame_outline (fun g : GLState K => g.texture2D 6) w.vars.shadowMap F
      (fun v => v.gl.texture2D 6 = w.vars.shadowMap)
      (fun l v hv => by simpa [setLightUniforms, drawObjects_texture2D] using hv)
      io w l0 l1 rest h
  rw [ho (by
    simp [setupForwardAdditionalPass, setAmbientUniforms, basePass_body_texture2D, hvars])]
  simp [drawSkybox.drawGL, drawShadowMap.drawGL, drawShadowMap_body_texture2D,
    basePass_body_texture2D, hgl, hvars]

/-- The Beer's-law and thickness uniforms at every draw of a frame. -/
theorem frame_thickness_outline (F : MathOps K) (io : FrameInput K) (w : World K)
    (l0 l1 : Light K) (rest : List (Light K)) (h : w.vars.config.lights = l0 :: l1 :: rest) :
    outline
        (fun g => (g.uniforms w.vars.shader "epsilonC", g.uniforms w.vars.shader "minThickness",
          g.uniforms w.vars.shader "maxThickness"))
        (frameEvents F io w) =
      [Mark.call Fn.drawSkybox,
        Mark.draw (w.gl.uniforms w.vars.shader "epsilonC",
          w.gl.uniforms w.vars.shader "minThickness", w.gl.uniforms w.vars.shader "maxThickness"),
        Mark.call Fn.drawShadowMap, Mark.call Fn.drawObjects, Mark.call Fn.drawQuad,
        Mark.draw (w.gl.uniforms w.vars.shader "epsilonC",
          w.gl.uniforms w.vars.shader "minThickness", w.gl.uniforms w.vars.shader "maxThickness"),
        Mark.call Fn.setAmbientUniforms, Mark.call Fn.setLightUniforms,
        Mark.call Fn.setShadowUniforms, Mark.call Fn.drawObjects, Mark.call Fn.drawQuad,
        Mark.draw (some (UVal.float (w.vars.epsilon * w.vars.c)),
          some (UVal.float w.vars.minThickness), some (UVal.float w.vars.maxThickness)),
        Mark.call Fn.setupForwardAdditionalPass, Mark.call Fn.setAmbientUniforms] ++
      (List.replicate (rest.length + 1)
        (additivePassOutline (some (UVal.float (w.vars.epsilon * w.vars.c)),
          some (UVal.float w.vars.minThickness), some (UVal.float w.vars.maxThickness)))).flatten ++
      [Mark.call Fn.resetForwardAdditionalPass, Mark.call Fn.setAmbientUniforms] ++
      (if w.vars.isPaused then [Mark.call Fn.drawGui] else []) := by
  obtain ⟨wb, -, hgl, hvars, -, ho⟩ :=
    frame_outline
      (fun g : GLState K => (g.uniforms w.vars.shader "epsilonC",
        g.uniforms w.vars.shader "minThickness", g.uniforms w.vars.shader "maxThickness"))
      (some (UVal.float (w.vars.epsilon * w.vars.c)),
        some (UVal.float w.vars.minThickness), some (UVal.float w.vars.maxThickness)) F
      (fun v =>
        v.gl.uniforms w.vars.shader "epsilonC" = some (UVal.float (w.vars.epsilon * w.vars.c)) ∧
        v.gl.uniforms w.vars.shader "minThickness" = some (UVal.float w.vars.minThickness) ∧
        v.gl.uniforms w.vars.shader "maxThickness" = some (UVal.float w.vars.maxThickness))
      (fun l v hv => by
        simp [setLightUniforms, drawObjects_uniforms, GLState.setUniform_uniforms, hv])
      io w l0 l1 rest h
  have hb := basePass_body_thickness F l0
    (drawShadowMap.body F l0 (drawSkybox F wb)) w.vars.shader (by simp [hvars])
  simp only [drawShadowMap_body_epsilon, drawShadowMap_body_c, drawShadowMap_body_minThickness,
    drawShadowMap_body_maxThickness, drawSkybox_vars, hvars] at hb
  rw [ho (by
    simpa [setupForwardAdditionalPass, setAmbientUniforms, GLState.setUniform_uniforms] using hb)]
  simp [drawSkybox.drawGL, drawShadowMap.drawGL, drawSkybox_uniforms,
    drawShadowMap_body_uniforms, hb, hgl]

end FrameObservations

/-! ## Instance transforms (`GenerateOffsets`) -/

theorem GenerateOffsets_body_eq (F : MathOps K) (R : Nat) (rnd : Nat → Nat) (idx : Nat)
    (w : World K) (i : Nat) :
    GenerateOffsets.body F R rnd (idx, w) i =
      (idx + 1,
        { w with
          randCalls := w.randCalls + 4
          vars :=
            { w.vars with
              models := fun j =>
                if j.val = idx then
                  instanceTransform F i (randomAngle R (rnd w.randCalls))
                    (randomAngle R (rnd (w.randCalls + 1)))
                    (randomAngle R (rnd (w.randCalls + 2)))
                    (randomScale R (rnd (w.randCalls + 3)))
                else w.vars.models j } }) := rfl

theorem GenerateOffsets_loop_eq (F : MathOps K) (R : Nat) (rnd : Nat → Nat) (w : World K)
    (n : Nat) :
    (List.range n).foldl (GenerateOffsets.body F R rnd) (0, w) =
      (n,
        { w with
          randCalls := w.randCalls + 4 * n
          vars :=
            { w.vars with
              models := fun j =>
                if j.val < n then
                  instanceTransform F j.val (randomAngle R (rnd (w.randCalls + 4 * j.val)))
                    (randomAngle R (rnd (w.randCalls + 4 * j.val + 1)))
                    (randomAngle R (rnd (w.randCalls + 4 * j.val + 2)))
                    (randomScale R (rnd (w.randCalls + 4 * j.val + 3)))
                else w.vars.models j } }) := by
  induction n with
  | zero => simp
  | succ n ih =>
    rw [List.range_succ, List.foldl_append, ih]
    simp only [List.foldl_cons, List.foldl_nil, GenerateOffsets_body_eq]
    refine Prod.ext rfl ?_
    simp only
    have e1 : w.randCalls + 4 * n + 4 = w.randCalls + 4 * (n + 1) := by omega
    rw [e1]
    congr 2
    funext j
    by_cases h1 : j.val = n
    · simp [h1]
    · by_cases h2 : j.val < n
      · have : j.val < n + 1 := by omega
        simp [h1, h2, this]
      · have : ¬ j.val < n + 1 := by omega
        simp [h1, h2, this]

omit [LinearOrderedField K] in
theorem GenerateOffsets_upload_vars (w : World K) (i : Nat) :
    (GenerateOffsets.upload w i).vars = w.vars := by
  unfold GenerateOffsets.upload
  split <;> rfl

omit [LinearOrderedField K] in
theorem GenerateOffsets_foldl_upload_vars (l : List Nat) (w : World K) :
    (l.foldl GenerateOffsets.upload w).vars = w.vars := by
  induction l generalizing w with
  | nil => rfl
  | cons a l ih => rw [List.foldl_cons, ih, GenerateOffsets_upload_vars]

/-- After `GenerateOffsets`, entry `i` of `models` is the matrix built from the four
`rand()` outcomes of iteration `i`. -/
theorem GenerateOffsets_models (F : MathOps K) (R : Nat) (rnd : Nat → Nat) (w : World K)
    (i : Fin 100) :
    (GenerateOffsets F R rnd w).vars.models i =
      instanceTransform F i.val (randomAngle R (rnd (w.randCalls + 4 * i.val)))
        (randomAngle R (rnd (w.randCalls + 4 * i.val + 1)))
        (randomAngle R (rnd (w.randCalls + 4 * i.val + 2)))
        (randomScale R (rnd (w.randCalls + 4 * i.val + 3))) := by
  unfold GenerateOffsets
  simp only [GenerateOffsets_foldl_upload_vars, GenerateOffsets_loop_eq]
  simp [Shader.use, World.emit, World.setGL, i.isLt]

theorem instanceTransform_c3 (F : MathOps K) (i : Nat) (rx ry rz r : K) :
    (instanceTransform F i rx ry rz r).c3 =
      ⟨((i % 10 : Nat) : K), ((i / 10 : Nat) : K), 0, 1⟩ := by
  simp [instanceTransform, glm.scale, glm.rotate, glm.translate, Mat4.identity, Vec4.add,
    Vec4.scale]

/-- C1: for every instance index `i < 100`, every outcome `rnd` of the `rand()` calls,
every value of `RAND_MAX` and every arithmetic, the fourth column of `models[i]` after
`GenerateOffsets` is exactly `(i mod 10, i div 10, 0, 1)`. -/
theorem GenerateOffsets_translation_column (F : MathOps K) (RAND_MAX : Nat)
    (rnd : Nat → Nat) (w : World K) (i : Fin 100) :
    ((GenerateOffsets F RAND_MAX rnd w).vars.models i).c3 =
      ⟨((i.val % 10 : Nat) : K), ((i.val / 10 : Nat) : K), 0, 1⟩ := by
  rw [GenerateOffsets_models, instanceTransform_c3]

theorem instanceTransform_real (i : Nat) (rx ry rz r : ℝ) :
    instanceTransform (MathOps.mk Real.cos Real.sin Real.tan Real.sqrt Real.pi) i rx ry rz r =
      { c0 := ⟨Real.cos rz * Real.cos ry * r, Real.sin rz * Real.cos ry * r,
               -(Real.sin ry * r), 0⟩
        c1 := ⟨(-(Real.sin rz * Real.cos rx) + Real.cos rz * Real.sin ry * Real.sin rx) * r,
               (Real.cos rz * Real.cos rx + Real.sin rz * Real.sin ry * Real.sin rx) * r,
               Real.cos ry * Real.sin rx * r, 0⟩
        c2 := ⟨Real.sin rz * Real.sin rx + Real.cos rz * Real.sin ry * Real.cos rx,
               -(Real.cos rz * Real.sin rx) + Real.sin rz * Real.sin ry * Real.cos rx,
               Real.cos ry * Real.cos rx, 0⟩
        c3 := ⟨((i % 10 : Nat) : ℝ), ((i / 10 : Nat) : ℝ), 0, 1⟩ } := by
  simp [instanceTransform, glm.scale, glm.rotate, glm.translate, glm.normalize,
    glm.inversesqrt, glm.dot, Mat4.identity, Vec4.add, Vec4.scale, Vec3.scale]

theorem randomScale_bounds (R n : Nat) (hR : 0 < R) (hn : n ≤ R) :
    (0.6 : ℝ) ≤ randomScale R n ∧ randomScale R n ≤ (1.6 : ℝ) := by
  have hR' : (0 : ℝ) < R := by exact_mod_cast hR
  have hn' : (n : ℝ) ≤ R := by exact_mod_cast hn
  have h0 : (0 : ℝ) ≤ (n : ℝ) / R := by positivity
  have h1 : (n : ℝ) / R ≤ 1 := (div_le_one hR').2 hn'
  have e : randomScale R n = (0.6 : ℝ) + (n : ℝ) / R := by
    unfold randomScale
    norm_num
  rw [e]
  constructor <;> norm_num <;> linarith

theorem instanceTransform_real_columns (i : Nat) (rx ry rz r : ℝ) (hr : 0 ≤ r) :
    glm.length (MathOps.mk Real.cos Real.sin Real.tan Real.sqrt Real.pi)
        (instanceTransform (MathOps.mk Real.cos Real.sin Real.tan Real.sqrt Real.pi)
          i rx ry rz r).c0.xyz = r ∧
    glm.length (MathOps.mk Real.cos Real.sin Real.tan Real.sqrt Real.pi)
        (instanceTransform (MathOps.mk Real.cos Real.sin Real.tan Real.sqrt Real.pi)
          i rx ry rz r).c1.xyz = r ∧
    glm.length (MathOps.mk Real.cos Real.sin Real.tan Real.sqrt Real.pi)
        (instanceTransform (MathOps.mk Real.cos Real.sin Real.tan Real.sqrt Real.pi)
          i rx ry rz r).c2.xyz = 1 := by
  have hx := Real.cos_sq_add_sin_sq rx
  have hy := Real.cos_sq_add_sin_sq ry
  have hz := Real.cos_sq_add_sin_sq rz
  rw [instanceTransform_real]
  simp only [glm.length, glm.dot, Vec4.xyz]
  refine ⟨?_, ?_, ?_⟩
  · rw [show _ * _ + _ * _ + _ * _ = r ^ 2 from by
      linear_combination (Real.cos ry ^ 2 * r ^ 2) * hz + r ^ 2 * hy]
    exact Real.sqrt_sq hr
  · rw [show _ * _ + _ * _ + _ * _ = r ^ 2 from by
      linear_combination
        ((Real.cos rx ^ 2 + Real.sin rx ^ 2 * Real.sin ry ^ 2) * r ^ 2) * hz +
          (Real.sin rx ^ 2 * r ^ 2) * hy + r ^ 2 * hx]
    exact Real.sqrt_sq hr
  · rw [show _ * _ + _ * _ + _ * _ = (1 : ℝ) from by
      linear_combination
        (Real.sin rx ^ 2 + Real.cos rx ^ 2 * Real.sin ry ^ 2) * hz +
          (Real.cos rx ^ 2) * hy + hx]
    exact Real.sqrt_one

theorem instanceTransform_real_orthogonal (i : Nat) (rx ry rz r : ℝ) :
    glm.dot
        (instanceTransform (MathOps.mk Real.cos Real.sin Real.tan Real.sqrt Real.pi)
          i rx ry rz r).c0.xyz
        (instanceTransform (MathOps.mk Real.cos Real.sin Real.tan Real.sqrt Real.pi)
          i rx ry rz r).c1.xyz = 0 ∧
    glm.dot
        (instanceTransform (MathOps.mk Real.cos Real.sin Real.tan Real.sqrt Real.pi)
          i rx ry rz r).c0.xyz
        (instanceTransform (MathOps.mk Real.cos Real.sin Real.tan Real.sqrt Real.pi)
          i rx ry rz r).c2.xyz = 0 ∧
    glm.dot
        (instanceTransform (MathOps.mk Real.cos Real.sin Real.tan Real.sqrt Real.pi)
          i rx ry rz r).c1.xyz
        (instanceTransform (MathOps.mk Real.cos Real.sin Real.tan Real.sqrt Real.pi)
          i rx ry rz r).c2.xyz = 0 := by
  have hy := Real.cos_sq_add_sin_sq ry
  have hz := Real.cos_sq_add_sin_sq rz
  rw [instanceTransform_real]
  simp only [glm.dot, Vec4.xyz]
  refine ⟨?_, ?_, ?_⟩
  · linear_combination (r ^ 2 * Real.cos ry * Real.sin ry * Real.sin rx) * hz
  · linear_combination (r * Real.cos ry * Real.sin ry * Real.cos rx) * hz
  · linear_combination
      (r * Real.sin rx * Real.cos rx) * ((Real.sin ry ^ 2 - 1) * hz + hy)

/-- Over the reals the upper-left 3×3 block of an instance transform is a rotation
composed with `diag(r, r, 1)`: its columns are `r u0`, `r u1`, `u2` for a right-handed
orthonormal frame `u0, u1, u2` (unit vectors, pairwise orthogonal, `u0 × u1 = u2`), the
columns of the rotation `Rz(rz) Ry(ry) Rx(rx)`. -/
theorem instanceTransform_real_rotation (i : Nat) (rx ry rz r : ℝ) :
    ∃ u0 u1 u2 : Vec3 ℝ,
      glm.dot u0 u0 = 1 ∧ glm.dot u1 u1 = 1 ∧ glm.dot u2 u2 = 1 ∧
      glm.dot u0 u1 = 0 ∧ glm.dot u0 u2 = 0 ∧ glm.dot u1 u2 = 0 ∧
      glm.cross u0 u1 = u2 ∧
      (instanceTransform (MathOps.mk Real.cos Real.sin Real.tan Real.sqrt Real.pi)
        i rx ry rz r).c0.xyz = u0.scale r ∧
      (instanceTransform (MathOps.mk Real.cos Real.sin Real.tan Real.sqrt Real.pi)
        i rx ry rz r).c1.xyz = u1.scale r ∧
      (instanceTransform (MathOps.mk Real.cos Real.sin Real.tan Real.sqrt Real.pi)
        i rx ry rz r).c2.xyz = u2 := by
  have hx := Real.cos_sq_add_sin_sq rx
  have hy := Real.cos_sq_add_sin_sq ry
  have hz := Real.cos_sq_add_sin_sq rz
  rw [instanceTransform_real]
  refine ⟨⟨Real.cos rz * Real.cos ry, Real.sin rz * Real.cos ry, -Real.sin ry⟩,
    ⟨-(Real.sin rz * Real.cos rx) + Real.cos rz * Real.sin ry * Real.sin rx,
      Real.cos rz * Real.cos rx + Real.sin rz * Real.sin ry * Real.sin rx,
      Real.cos ry * Real.sin rx⟩,
    ⟨Real.sin rz * Real.sin rx + Real.cos rz * Real.sin ry * Real.cos rx,
      -(Real.cos rz * Real.sin rx) + Real.sin rz * Real.sin ry * Real.cos rx,
      Real.cos ry * Real.cos rx⟩, ?_, ?_, ?_, ?_, ?_, ?_, ?_, ?_, ?_, ?_⟩
  · simp only [glm.dot]
    linear_combination (Real.cos ry ^ 2) * hz + hy
  · simp only [glm.dot]
    linear_combination
      (Real.cos rx ^ 2 + Real.sin rx ^ 2 * Real.sin ry ^ 2) * hz +
        (Real.sin rx ^ 2) * hy + hx
  · simp only [glm.dot]
    linear_combination
      (Real.sin rx ^ 2 + Real.cos rx ^ 2 * Real.sin ry ^ 2) * hz +
        (Real.cos rx ^ 2) * hy + hx
  · simp only [glm.dot]
    linear_combination (Real.cos ry * Real.sin ry * Real.sin rx) * hz
  · simp only [glm.dot]
    linear_combination (Real.cos ry * Real.sin ry * Real.cos rx) * hz
  · simp only [glm.dot]
    linear_combination
      (Real.sin rx * Real.cos rx) * ((Real.sin ry ^ 2 - 1) * hz + hy)
  · simp only [glm.cross, Vec3.mk.injEq]
    refine ⟨?_, ?_, ?_⟩
    · linear_combination (Real.sin rz * Real.sin rx) * hy
    · linear_combination (-(Real.cos rz * Real.sin rx)) * hy
    · linear_combination (Real.cos ry * Real.cos rx) * hz
  · simp [Vec4.xyz, Vec3.scale]
  · simp [Vec4.xyz, Vec3.scale]
  · simp [Vec4.xyz]

/-- Over the reals the determinant of the upper-left 3×3 block of an instance
transform, written as the triple product `(c0 × c1) · c2` of its columns, is `r²`. -/
theorem instanceTransform_real_det (i : Nat) (rx ry rz r : ℝ) :
    glm.dot
      (glm.cross
        (instanceTransform (MathOps.mk Real.cos Real.sin Real.tan Real.sqrt Real.pi)
          i rx ry rz r).c0.xyz
        (instanceTransform (MathOps.mk Real.cos Real.sin Real.tan Real.sqrt Real.pi)
          i rx ry rz r).c1.xyz)
      (instanceTransform (MathOps.mk Real.cos Real.sin Real.tan Real.sqrt Real.pi)
        i rx ry rz r).c2.xyz = r ^ 2 := by
  obtain ⟨u0, u1, u2, -, -, h3, -, -, -, h7, e0, e1, e2⟩ :=
    instanceTransform_real_rotation i rx ry rz r
  have key : glm.dot (glm.cross (u0.scale r) (u1.scale r)) u2 =
      r ^ 2 * glm.dot (glm.cross u0 u1) u2 := by
    simp only [glm.dot, glm.cross, Vec3.scale]
    ring
  rw [e0, e1, e2, key, h7, h3, mul_one]

/-- C2: over real arithmetic, for every instance index `i < 100` and every outcome of
the `rand()` calls with values in `[0, RAND_MAX]`, the upper-left 3×3 block of
`models[i]` is a rotation composed with `diag(r, r, 1)` for some `0.6 ≤ r ≤ 1.6`: its
columns are pairwise orthogonal, the first two of the same Euclidean length `r` and
the third of length exactly 1; they are `r u0`, `r u1`, `u2` for the columns
`u0, u1, u2` of a rotation matrix (unit vectors, pairwise orthogonal, right-handed:
`u0 × u1 = u2`); and the determinant of the block, the triple product of its columns,
is `r²`, so the block is no reflection. -/
theorem GenerateOffsets_rotation_scale (RAND_MAX : Nat) (rnd : Nat → Nat)
    (hR : 0 < RAND_MAX) (hrnd : ∀ k, rnd k ≤ RAND_MAX) (w : World ℝ) (i : Fin 100) :
    ∃ r : ℝ, 0.6 ≤ r ∧ r ≤ 1.6 ∧
      glm.length (MathOps.mk Real.cos Real.sin Real.tan Real.sqrt Real.pi)
        ((GenerateOffsets (MathOps.mk Real.cos Real.sin Real.tan Real.sqrt Real.pi)
          RAND_MAX rnd w).vars.models i).c0.xyz = r ∧
      glm.length (MathOps.mk Real.cos Real.sin Real.tan Real.sqrt Real.pi)
        ((GenerateOffsets (MathOps.mk Real.cos Real.sin Real.tan Real.sqrt Real.pi)
          RAND_MAX rnd w).vars.models i).c1.xyz = r ∧
      glm.length (MathOps.mk Real.cos Real.sin Real.tan Real.sqrt Real.pi)
        ((GenerateOffsets (MathOps.mk Real.cos Real.sin Real.tan Real.sqrt Real.pi)
          RAND_MAX rnd w).vars.models i).c2.xyz = 1 ∧
      glm.dot
        ((GenerateOffsets (MathOps.mk Real.cos Real.sin Real.tan Real.sqrt Real.pi)
          RAND_MAX rnd w).vars.models i).c0.xyz
        ((GenerateOffsets (MathOps.mk Real.cos Real.sin Real.tan Real.sqrt Real.pi)
          RAND_MAX rnd w).vars.models i).c1.xyz = 0 ∧
      glm.dot
        ((GenerateOffsets (MathOps.mk Real.cos Real.sin Real.tan Real.sqrt Real.pi)
          RAND_MAX rnd w).vars.models i).c0.xyz
        ((GenerateOffsets (MathOps.mk Real.cos Real.sin Real.tan Real.sqrt Real.pi)
          RAND_MAX rnd w).vars.models i).c2.xyz = 0 ∧
      glm.dot
        ((GenerateOffsets (MathOps.mk Real.cos Real.sin Real.tan Real.sqrt Real.pi)
          RAND_MAX rnd w).vars.models i).c1.xyz
        ((GenerateOffsets (MathOps.mk Real.cos Real.sin Real.tan Real.sqrt Real.pi)
          RAND_MAX rnd w).vars.models i).c2.xyz = 0 ∧
      (∃ u0 u1 u2 : Vec3 ℝ,
        glm.dot u0 u0 = 1 ∧ glm.dot u1 u1 = 1 ∧ glm.dot u2 u2 = 1 ∧
        glm.dot u0 u1 = 0 ∧ glm.dot u0 u2 = 0 ∧ glm.dot u1 u2 = 0 ∧
        glm.cross u0 u1 = u2 ∧
        ((GenerateOffsets (MathOps.mk Real.cos Real.sin Real.tan Real.sqrt Real.pi)
          RAND_MAX rnd w).vars.models i).c0.xyz = u0.scale r ∧
        ((GenerateOffsets (MathOps.mk Real.cos Real.sin Real.tan Real.sqrt Real.pi)
          RAND_MAX rnd w).vars.models i).c1.xyz = u1.scale r ∧
        ((GenerateOffsets (MathOps.mk Real.cos Real.sin Real.tan Real.sqrt Real.pi)
          RAND_MAX rnd w).vars.models i).c2.xyz = u2) ∧
      glm.dot
        (glm.cross
          ((GenerateOffsets (MathOps.mk Real.cos Real.sin Real.tan Real.sqrt Real.pi)
            RAND_MAX rnd w).vars.models i).c0.xyz
          ((GenerateOffsets (MathOps.mk Real.cos Real.sin Real.tan Real.sqrt Real.pi)
            RAND_MAX rnd w).vars.models i).c1.xyz)
        ((GenerateOffsets (MathOps.mk Real.cos Real.sin Real.tan Real.sqrt Real.pi)
          RAND_MAX rnd w).vars.models i).c2.xyz = r ^ 2 := by
  have hb := randomScale_bounds RAND_MAX (rnd (w.randCalls + 4 * i.val + 3)) hR (hrnd _)
  have hr : (0 : ℝ) ≤ randomScale RAND_MAX (rnd (w.randCalls + 4 * i.val + 3)) :=
    le_trans (by norm_num) hb.1
  rw [GenerateOffsets_models]
  exact ⟨_, hb.1, hb.2, (instanceTransform_real_columns _ _ _ _ _ hr).1,
    (instanceTransform_real_columns _ _ _ _ _ hr).2.1,
    (instanceTransform_real_columns _ _ _ _ _ hr).2.2,
    (instanceTransform_real_orthogonal _ _ _ _ _).1,
    (instanceTransform_real_orthogonal _ _ _ _ _).2.1,
    (instanceTransform_real_orthogonal _ _ _ _ _).2.2,
    instanceTransform_real_rotation _ _ _ _ _,
    instanceTransform_real_det _ _ _ _ _⟩

/-- Witness for C2: `RAND_MAX = 32767`, every `rand()` call returning 12345, the
start-up globals, instance 37. -/
theorem GenerateOffsets_rotation_scale_witness :
    ∃ r : ℝ, 0.6 ≤ r ∧ r ≤ 1.6 ∧
      glm.length (MathOps.mk Real.cos Real.sin Real.tan Real.sqrt Real.pi)
        ((GenerateOffsets (MathOps.mk Real.cos Real.sin Real.tan Real.sqrt Real.pi)
          32767 (fun _ => 12345)
          (initialWorld ⟨⟨0, 1.6, 5⟩, 45, Mat4.identity⟩)).vars.models 37).c0.xyz = r ∧
      glm.length (MathOps.mk Real.cos Real.sin Real.tan Real.sqrt Real.pi)
        ((GenerateOffsets (MathOps.mk Real.cos Real.sin Real.tan Real.sqrt Real.pi)
          32767 (fun _ => 12345)
          (initialWorld ⟨⟨0, 1.6, 5⟩, 45, Mat4.identity⟩)).vars.models 37).c1.xyz = r ∧
      glm.length (MathOps.mk Real.cos Real.sin Real.tan Real.sqrt Real.pi)
        ((GenerateOffsets (MathOps.mk Real.cos Real.sin Real.tan Real.sqrt Real.pi)
          32767 (fun _ => 12345)
          (initialWorld ⟨⟨0, 1.6, 5⟩, 45, Mat4.identity⟩)).vars.models 37).c2.xyz = 1 :=
  match GenerateOffsets_rotation_scale 32767 (fun _ => 12345) (by decide)
      (fun _ => (by norm_num : (12345 : Nat) ≤ 32767)) (initialWorld ⟨⟨0, 1.6, 5⟩, 45, Mat4.identity⟩) 37 with
  | ⟨r, h1, h2, h3, h4, h5, _⟩ => ⟨r, h1, h2, h3, h4, h5⟩

section Startup

variable {K : Type} [LinearOrderedField K]

/-! ### Start-up -/

omit [LinearOrderedField K] in
theorem GenerateOffsets_upload_gl (w : World K) (i : Nat) :
    (GenerateOffsets.upload w i).gl =
      { w.gl with uniforms := (GenerateOffsets.upload w i).gl.uniforms } := by
  unfold GenerateOffsets.upload
  split
  · simp [GLState.setUniform]
  · rfl

omit [LinearOrderedField K] in
theorem GenerateOffsets_foldl_upload_gl (l : List Nat) (w : World K) :
    (l.foldl GenerateOffsets.upload w).gl =
      { w.gl with uniforms := (l.foldl GenerateOffsets.upload w).gl.uniforms } := by
  induction l generalizing w with
  | nil => rfl
  | cons a l ih =>
    rw [List.foldl_cons, ih, GenerateOffsets_upload_gl]

/-- `GenerateOffsets` changes no global variable other than `models`. -/
theorem GenerateOffsets_vars (F : MathOps K) (R : Nat) (rnd : Nat → Nat) (w : World K) :
    (GenerateOffsets F R rnd w).vars =
      { w.vars with models := (GenerateOffsets F R rnd w).vars.models } := by
  unfold GenerateOffsets
  simp only [GenerateOffsets_foldl_upload_vars, GenerateOffsets_loop_eq]
  simp

/-- `GenerateOffsets` changes nothing in the context but the bound program and the
uniform stores. -/
theorem GenerateOffsets_gl (F : MathOps K) (R : Nat) (rnd : Nat → Nat) (w : World K) :
    (GenerateOffsets F R rnd w).gl =
      { w.gl with
        program := some w.vars.shader
        uniforms := (GenerateOffsets F R rnd w).gl.uniforms } := by
  unfold GenerateOffsets
  rw [GenerateOffsets_foldl_upload_gl]
  simp only [GenerateOffsets_loop_eq]
  simp

@[simp] theorem GenerateOffsets_shader (F : MathOps K) (R : Nat) (rnd : Nat → Nat) (w : World K) :
    (GenerateOffsets F R rnd w).vars.shader = w.vars.shader := by
  rw [GenerateOffsets_vars]

@[simp] theorem GenerateOffsets_config (F : MathOps K) (R : Nat) (rnd : Nat → Nat) (w : World K) :
    (GenerateOffsets F R rnd w).vars.config = w.vars.config := by
  rw [GenerateOffsets_vars]

@[simp] theorem GenerateOffsets_camera (F : MathOps K) (R : Nat) (rnd : Nat → Nat) (w : World K) :
    (GenerateOffsets F R rnd w).vars.camera = w.vars.camera := by
  rw [GenerateOffsets_vars]

@[simp] theorem GenerateOffsets_lightRotationSpeed (F : MathOps K) (R : Nat) (rnd : Nat → Nat) (w : World K) :
    (GenerateOffsets F R rnd w).vars.lightRotationSpeed = w.vars.lightRotationSpeed := by
  rw [GenerateOffsets_vars]

@[simp] theorem GenerateOffsets_deltaTime (F : MathOps K) (R : Nat) (rnd : Nat → Nat) (w : World K) :
    (GenerateOffsets F R rnd w).vars.deltaTime = w.vars.deltaTime := by
  rw [GenerateOffsets_vars]

@[simp] theorem GenerateOffsets_lastFrame (F : MathOps K) (R : Nat) (rnd : Nat → Nat) (w : World K) :
    (GenerateOffsets F R rnd w).vars.lastFrame = w.vars.lastFrame := by
  rw [GenerateOffsets_vars]

@[simp] theorem GenerateOffsets_isPaused (F : MathOps K) (R : Nat) (rnd : Nat → Nat) (w : World K) :
    (GenerateOffsets F R rnd w).vars.isPaused = w.vars.isPaused := by
  rw [GenerateOffsets_vars]

@[simp] theorem GenerateOffsets_epsilon (F : MathOps K) (R : Nat) (rnd : Nat → Nat) (w : World K) :
    (GenerateOffsets F R rnd w).vars.epsilon = w.vars.epsilon := by
  rw [GenerateOffsets_vars]

@[simp] theorem GenerateOffsets_c (F : MathOps K) (R : Nat) (rnd : Nat → Nat) (w : World K) :
    (GenerateOffsets F R rnd w).vars.c = w.vars.c := by
  rw [GenerateOffsets_vars]

@[simp] theorem GenerateOffsets_maxThickness (F : MathOps K) (R : Nat) (rnd : Nat → Nat) (w : World K) :
    (GenerateOffsets F R rnd w).vars.maxThickness = w.vars.maxThickness := by
  rw [GenerateOffsets_vars]

@[simp] theorem GenerateOffsets_minThickness (F : MathOps K) (R : Nat) (rnd : Nat → Nat) (w : World K) :
    (GenerateOffsets F R rnd w).vars.minThickness = w.vars.minThickness := by
  rw [GenerateOffsets_vars]

@[simp] theorem GenerateOffsets_instanceCount (F : MathOps K) (R : Nat) (rnd : Nat → Nat) (w : World K) :
    (GenerateOffsets F R rnd w).vars.instanceCount = w.vars.instanceCount := by
  rw [GenerateOffsets_vars]

@[simp] theorem GenerateOffsets_lightSpaceMatrix (F : MathOps K) (R : Nat) (rnd : Nat → Nat) (w : World K) :
    (GenerateOffsets F R rnd w).vars.lightSpaceMatrix = w.vars.lightSpaceMatrix := by
  rw [GenerateOffsets_vars]

@[simp] theorem GenerateOffsets_leaf_texture (F : MathOps K) (R : Nat) (rnd : Nat → Nat) (w : World K) :
    (GenerateOffsets F R rnd w).vars.leaf_texture = w.vars.leaf_texture := by
  rw [GenerateOffsets_vars]

@[simp] theorem GenerateOffsets_leaf_texture_normal (F : MathOps K) (R : Nat) (rnd : Nat → Nat) (w : World K) :
    (GenerateOffsets F R rnd w).vars.leaf_texture_normal = w.vars.leaf_texture_normal := by
  rw [GenerateOffsets_vars]

@[simp] theorem GenerateOffsets_leaf_texture_translusency (F : MathOps K) (R : Nat) (rnd : Nat → Nat) (w : World K) :
    (GenerateOffsets F R rnd w).vars.leaf_texture_translusency = w.vars.leaf_texture_translusency := by
  rw [GenerateOffsets_vars]

@[simp] theorem GenerateOffsets_leaf_texture_roughness (F : MathOps K) (R : Nat) (rnd : Nat → Nat) (w : World K) :
    (GenerateOffsets F R rnd w).vars.leaf_texture_roughness = w.vars.leaf_texture_roughness := by
  rw [GenerateOffsets_vars]

@[simp] theorem GenerateOffsets_skyboxVAO (F : MathOps K) (R : Nat) (rnd : Nat → Nat) (w : World K) :
    (GenerateOffsets F R rnd w).vars.skyboxVAO = w.vars.skyboxVAO := by
  rw [GenerateOffsets_vars]

@[simp] theorem GenerateOffsets_cubemapTexture (F : MathOps K) (R : Nat) (rnd : Nat → Nat) (w : World K) :
    (GenerateOffsets F R rnd w).vars.cubemapTexture = w.vars.cubemapTexture := by
  rw [GenerateOffsets_vars]

@[simp] theorem GenerateOffsets_shadowMap (F : MathOps K) (R : Nat) (rnd : Nat → Nat) (w : World K) :
    (GenerateOffsets F R rnd w).vars.shadowMap = w.vars.shadowMap := by
  rw [GenerateOffsets_vars]

@[simp] theorem GenerateOffsets_shadowMapFBO (F : MathOps K) (R : Nat) (rnd : Nat → Nat) (w : World K) :
    (GenerateOffsets F R rnd w).vars.shadowMapFBO = w.vars.shadowMapFBO := by
  rw [GenerateOffsets_vars]

@[simp] theorem GenerateOffsets_gl_depthTest (F : MathOps K) (R : Nat) (rnd : Nat → Nat) (w : World K) :
    (GenerateOffsets F R rnd w).gl.depthTest = w.gl.depthTest := by
  rw [GenerateOffsets_gl]

@[simp] theorem GenerateOffsets_gl_depthFunc (F : MathOps K) (R : Nat) (rnd : Nat → Nat) (w : World K) :
    (GenerateOffsets F R rnd w).gl.depthFunc = w.gl.depthFunc := by
  rw [GenerateOffsets_gl]

@[simp] theorem GenerateOffsets_gl_blend (F : MathOps K) (R : Nat) (rnd : Nat → Nat) (w : World K) :
    (GenerateOffsets F R rnd w).gl.blend = w.gl.blend := by
  rw [GenerateOffsets_gl]

@[simp] theorem GenerateOffsets_gl_blendSrc (F : MathOps K) (R : Nat) (rnd : Nat → Nat) (w : World K) :
    (GenerateOffsets F R rnd w).gl.blendSrc = w.gl.blendSrc := by
  rw [GenerateOffsets_gl]

@[simp] theorem GenerateOffsets_gl_blendDst (F : MathOps K) (R : Nat) (rnd : Nat → Nat) (w : World K) :
    (GenerateOffsets F R rnd w).gl.blendDst = w.gl.blendDst := by
  rw [GenerateOffsets_gl]

@[simp] theorem GenerateOffsets_gl_framebufferSRGB (F : MathOps K) (R : Nat) (rnd : Nat → Nat) (w : World K) :
    (GenerateOffsets F R rnd w).gl.framebufferSRGB = w.gl.framebufferSRGB := by
  rw [GenerateOffsets_gl]

@[simp] theorem GenerateOffsets_gl_activeTexture (F : MathOps K) (R : Nat) (rnd : Nat → Nat) (w : World K) :
    (GenerateOffsets F R rnd w).gl.activeTexture = w.gl.activeTexture := by
  rw [GenerateOffsets_gl]

@[simp] theorem GenerateOffsets_gl_texture2D (F : MathOps K) (R : Nat) (rnd : Nat → Nat) (w : World K) :
    (GenerateOffsets F R rnd w).gl.texture2D = w.gl.texture2D := by
  rw [GenerateOffsets_gl]

@[simp] theorem GenerateOffsets_gl_textureCubeMap (F : MathOps K) (R : Nat) (rnd : Nat → Nat) (w : World K) :
    (GenerateOffsets F R rnd w).gl.textureCubeMap = w.gl.textureCubeMap := by
  rw [GenerateOffsets_gl]

@[simp] theorem GenerateOffsets_gl_viewport (F : MathOps K) (R : Nat) (rnd : Nat → Nat) (w : World K) :
    (GenerateOffsets F R rnd w).gl.viewport = w.gl.viewport := by
  rw [GenerateOffsets_gl]

@[simp] theorem GenerateOffsets_gl_framebuffer (F : MathOps K) (R : Nat) (rnd : Nat → Nat) (w : World K) :
    (GenerateOffsets F R rnd w).gl.framebuffer = w.gl.framebuffer := by
  rw [GenerateOffsets_gl]

@[simp] theorem GenerateOffsets_gl_vertexArray (F : MathOps K) (R : Nat) (rnd : Nat → Nat) (w : World K) :
    (GenerateOffsets F R rnd w).gl.vertexArray = w.gl.vertexArray := by
  rw [GenerateOffsets_gl]

@[simp] theorem GenerateOffsets_gl_arrayBuffer (F : MathOps K) (R : Nat) (rnd : Nat → Nat) (w : World K) :
    (GenerateOffsets F R rnd w).gl.arrayBuffer = w.gl.arrayBuffer := by
  rw [GenerateOffsets_gl]

@[simp] theorem GenerateOffsets_gl_clearColor (F : MathOps K) (R : Nat) (rnd : Nat → Nat) (w : World K) :
    (GenerateOffsets F R rnd w).gl.clearColor = w.gl.clearColor := by
  rw [GenerateOffsets_gl]

@[simp] theorem GenerateOffsets_gl_nextName (F : MathOps K) (R : Nat) (rnd : Nat → Nat) (w : World K) :
    (GenerateOffsets F R rnd w).gl.nextName = w.gl.nextName := by
  rw [GenerateOffsets_gl]

omit [LinearOrderedField K] in
theorem startupInv_loadTexture (cfg : Config K) (n sm : Nat) (w : World K)
    (g : Vars K → Nat → Vars K)
    (hg : ∀ v id, (g v id).config = v.config ∧ (g v id).shader = v.shader ∧
      (g v id).isPaused = v.isPaused ∧ (g v id).shadowMap = v.shadowMap)
    (h : StartupInv cfg n sm w) :
    StartupInv cfg (n + 1) sm
      (assign g (loadTexture w)) := by
  obtain ⟨h1, h2, h3, h4, h5, h6, h7⟩ := h
  simp [StartupInv, assign, loadTexture, hg, h1, h2, h3, h4, h5, h6, h7]

omit [LinearOrderedField K] in
theorem startupInv_loadCubemap (cfg : Config K) (n sm : Nat) (w : World K)
    (g : Vars K → Nat → Vars K)
    (hg : ∀ v id, (g v id).config = v.config ∧ (g v id).shader = v.shader ∧
      (g v id).isPaused = v.isPaused ∧ (g v id).shadowMap = v.shadowMap)
    (h : StartupInv cfg n sm w) :
    StartupInv cfg (n + 1) sm
      (assign g (loadCubemap w)) := by
  obtain ⟨h1, h2, h3, h4, h5, h6, h7⟩ := h
  simp [StartupInv, assign, loadCubemap, hg, h1, h2, h3, h4, h5, h6, h7]

omit [LinearOrderedField K] in
theorem startupInv_initSkyboxBuffers (cfg : Config K) (n sm : Nat) (w : World K)
    (g : Vars K → Nat → Vars K)
    (hg : ∀ v id, (g v id).config = v.config ∧ (g v id).shader = v.shader ∧
      (g v id).isPaused = v.isPaused ∧ (g v id).shadowMap = v.shadowMap)
    (h : StartupInv cfg n sm w) :
    StartupInv cfg (n + 2) sm
      (assign g (initSkyboxBuffers w)) := by
  obtain ⟨h1, h2, h3, h4, h5, h6, h7⟩ := h
  simp [StartupInv, assign, initSkyboxBuffers, hg, h1, h2, h3, h4, h5, h6, h7]

omit [LinearOrderedField K] in
theorem startupInv_createShadowMap (cfg : Config K) (n sm : Nat) (w : World K)
    (h : StartupInv cfg n sm w) : StartupInv cfg (n + 2) n (createShadowMap w) := by
  obtain ⟨h1, h2, h3, h4, h5, h6, h7⟩ := h
  simp [StartupInv, createShadowMap, h1, h2, h3, h4, h5, h6, h7]

theorem startupInv_GenerateOffsets (F : MathOps K) (R : Nat) (rnd : Nat → Nat)
    (cfg : Config K) (n sm : Nat) (w : World K) (h : StartupInv cfg n sm w) :
    StartupInv cfg n sm (GenerateOffsets F R rnd w) := by
  obtain ⟨h1, h2, h3, h4, h5, h6, h7⟩ := h
  simp [StartupInv, h1, h2, h3, h4, h5, h6, h7]

omit [LinearOrderedField K] in
theorem startupInv_loadLeafTextures (cfg : Config K) (n sm : Nat) (w : World K)
    (h : StartupInv cfg n sm w) : StartupInv cfg (n + 4) sm (loadLeafTextures w) :=
  startupInv_loadTexture cfg (n + 3) sm _ _ (fun _ _ => ⟨rfl, rfl, rfl, rfl⟩)
    (startupInv_loadTexture cfg (n + 2) sm _ _ (fun _ _ => ⟨rfl, rfl, rfl, rfl⟩)
      (startupInv_loadTexture cfg (n + 1) sm _ _ (fun _ _ => ⟨rfl, rfl, rfl, rfl⟩)
        (startupInv_loadTexture cfg n sm _ _ (fun _ _ => ⟨rfl, rfl, rfl, rfl⟩) h)))

omit [LinearOrderedField K] in
theorem startupInv_initSkybox (cfg : Config K) (n sm : Nat) (w : World K)
    (h : StartupInv cfg n sm w) : StartupInv cfg (n + 3) sm (initSkybox w) :=
  startupInv_initSkyboxBuffers cfg (n + 1) sm _ _ (fun _ _ => ⟨rfl, rfl, rfl, rfl⟩)
    (startupInv_loadCubemap cfg n sm _ _ (fun _ _ => ⟨rfl, rfl, rfl, rfl⟩) h)

omit [LinearOrderedField K] in
theorem startupInv_depthSetup (cfg : Config K) (n sm : Nat) (w : World K)
    (h : StartupInv cfg n sm w) :
    StartupInv cfg n sm
      (glEnable Cap.GL_FRAMEBUFFER_SRGB
        (glDepthFunc DepthFunc.GL_LESS (glEnable Cap.GL_DEPTH_TEST w))) := by
  obtain ⟨h1, h2, h3, h4, h5, h6, h7⟩ := h
  simp [StartupInv, h1, h2, h3, h4, h5, h6, h7]

/-- The start-up part of `main` as a composition of its calls. -/
theorem startup_eq (F : MathOps K) (R : Nat) (rnd : Nat → Nat) (cam : Camera K) :
    startup F R rnd cam =
      glEnable Cap.GL_FRAMEBUFFER_SRGB
        (glDepthFunc DepthFunc.GL_LESS
          (glEnable Cap.GL_DEPTH_TEST
            (GenerateOffsets F R rnd
              (createShadowMap (initSkybox (loadLeafTextures (initialWorld cam))))))) :=
  rfl

/-- The state after start-up, as far as the frame loop depends on it: the two
lights and the ambient light of `Config`, the leaf program selected, not paused, the
shadow-map texture named 8, and texture unit 6 still unbound. -/
theorem startup_state (F : MathOps K) (R : Nat) (rnd : Nat → Nat) (cam : Camera K) :
    StartupInv (initialWorld cam).vars.config 10 8 (startup F R rnd cam) := by
  have h0 : StartupInv (initialWorld cam).vars.config 1 0 (initialWorld cam) := by
    simp [StartupInv, initialWorld, initialGL]
  rw [startup_eq]
  exact startupInv_depthSetup _ _ _ _
    (startupInv_GenerateOffsets F R rnd _ _ _ _
      (startupInv_createShadowMap _ 8 0 _
        (startupInv_initSkybox _ 5 0 _ (startupInv_loadLeafTextures _ 1 0 _ h0))))

end Startup

/-! ## The passes of a frame -/

/-- C3: over real arithmetic, in every frame of a state with two or more lights, the
ambient uniform of the shading program is `ambientLightColor * ambientLightIntensity`
(with fourth component 1 when that vector is non-zero and 0 otherwise) at the base
pass draw, the zero vector at every additive pass draw, and the base pass value
again once `resetForwardAdditionalPass` has run and the frame has ended. -/
theorem frame_ambient (io : FrameInput ℝ) (w : World ℝ) (l0 l1 : Light ℝ)
    (rest : List (Light ℝ)) (h : w.vars.config.lights = l0 :: l1 :: rest) :
    (∃ wf, mainLoopBody (MathOps.mk Real.cos Real.sin Real.tan Real.sqrt Real.pi) io w = some wf ∧
      wf.gl.uniforms w.vars.shader "ambientLightColor" =
        some (UVal.vec4 (Vec4.ofVec3
          (w.vars.config.ambientLightColor.scale w.vars.config.ambientLightIntensity)
          (if glm.length (MathOps.mk Real.cos Real.sin Real.tan Real.sqrt Real.pi)
              (w.vars.config.ambientLightColor.scale w.vars.config.ambientLightIntensity) > 0
            then 1 else 0)))) ∧
    outline (fun g => g.uniforms w.vars.shader "ambientLightColor")
        (frameEvents (MathOps.mk Real.cos Real.sin Real.tan Real.sqrt Real.pi) io w) =
      [Mark.call Fn.drawSkybox, Mark.draw (w.gl.uniforms w.vars.shader "ambientLightColor"),
        Mark.call Fn.drawShadowMap, Mark.call Fn.drawObjects, Mark.call Fn.drawQuad,
        Mark.draw (w.gl.uniforms w.vars.shader "ambientLightColor"),
        Mark.call Fn.setAmbientUniforms, Mark.call Fn.setLightUniforms,
        Mark.call Fn.setShadowUniforms, Mark.call Fn.drawObjects, Mark.call Fn.drawQuad,
        Mark.draw
          (some (UVal.vec4 (Vec4.ofVec3
            (w.vars.config.ambientLightColor.scale w.vars.config.ambientLightIntensity)
            (if glm.length (MathOps.mk Real.cos Real.sin Real.tan Real.sqrt Real.pi)
                (w.vars.config.ambientLightColor.scale w.vars.config.ambientLightIntensity) > 0
              then 1 else 0)))),
        Mark.call Fn.setupForwardAdditionalPass, Mark.call Fn.setAmbientUniforms] ++
      (List.replicate (rest.length + 1)
        (additivePassOutline (some (UVal.vec4 (⟨0, 0, 0, 0⟩ : Vec4 ℝ))))).flatten ++
      [Mark.call Fn.resetForwardAdditionalPass, Mark.call Fn.setAmbientUniforms] ++
      (if w.vars.isPaused then [Mark.call Fn.drawGui] else []) := by
  constructor
  · obtain ⟨wb, wf, -, -, hvars, -, hm, hgl, -⟩ :=
      mainLoopBody_spec (MathOps.mk Real.cos Real.sin Real.tan Real.sqrt Real.pi) io w l0 l1 rest h
    refine ⟨wf, hm, ?_⟩
    rw [hgl, additionalPasses_ambient _ _ w.vars.shader (by simp [hvars]) (by simp [hvars])]
    simp [hvars]
  · obtain ⟨wb, -, hgl, hvars, -, ho⟩ :=
      frame_outline (fun g : GLState ℝ => g.uniforms w.vars.shader "ambientLightColor")
        (some (UVal.vec4 (⟨0, 0, 0, 0⟩ : Vec4 ℝ)))
        (MathOps.mk Real.cos Real.sin Real.tan Real.sqrt Real.pi)
        (fun v => v.vars.shader = w.vars.shader ∧
          v.gl.uniforms w.vars.shader "ambientLightColor" =
            some (UVal.vec4 (⟨0, 0, 0, 0⟩ : Vec4 ℝ)))
        (fun l v hv => by
          simp [setLightUniforms, drawObjects_uniforms, GLState.setUniform_uniforms, hv])
        io w l0 l1 rest h
    rw [ho (by
      simp [setupForwardAdditionalPass, setAmbientUniforms, GLState.setUniform_uniforms, hvars,
        glm.length, glm.dot, Vec3.splat, Vec4.ofVec3])]
    simp [drawSkybox.drawGL, drawShadowMap.drawGL, drawSkybox_uniforms,
      drawShadowMap_body_uniforms, basePass_body_ambient, hgl, hvars]



/-- Witness for C3: the first frame on the initial globals (two lights, ambient
`(1, 1, 1) * 0.25`). -/
theorem frame_ambient_witness :
    ∃ wf, mainLoopBody (MathOps.mk Real.cos Real.sin Real.tan Real.sqrt Real.pi)
        (FrameInput.idle (1 / 60)) (initialWorld ⟨⟨0, 1.6, 5⟩, 45, Mat4.identity⟩) = some wf ∧
      wf.gl.uniforms (initialWorld ⟨⟨0, 1.6, 5⟩, 45, Mat4.identity⟩ : World ℝ).vars.shader
          "ambientLightColor" =
        some (UVal.vec4 (Vec4.ofVec3
          ((initialWorld ⟨⟨0, 1.6, 5⟩, 45, Mat4.identity⟩ :
              World ℝ).vars.config.ambientLightColor.scale
            (initialWorld ⟨⟨0, 1.6, 5⟩, 45, Mat4.identity⟩ :
              World ℝ).vars.config.ambientLightIntensity)
          (if glm.length (MathOps.mk Real.cos Real.sin Real.tan Real.sqrt Real.pi)
              ((initialWorld ⟨⟨0, 1.6, 5⟩, 45, Mat4.identity⟩ :
                  World ℝ).vars.config.ambientLightColor.scale
                (initialWorld ⟨⟨0, 1.6, 5⟩, 45, Mat4.identity⟩ :
                  World ℝ).vars.config.ambientLightIntensity) > 0
            then 1 else 0))) :=
  (frame_ambient (FrameInput.idle (1 / 60)) (initialWorld ⟨⟨0, 1.6, 5⟩, 45, Mat4.identity⟩)
    _ _ [] rfl).1


section DepthFunc

variable {K : Type} [LinearOrderedField K]

/-- C4: in every frame of a state with two or more lights, whatever the depth
function was before, the depth function is `GL_LEQUAL` at the skybox draw, `GL_LESS`
at the shadow pass draw and at the base pass draw, `GL_EQUAL` at every additive pass
draw, and `GL_LESS` after `resetForwardAdditionalPass` and at the end of the frame. -/
theorem frame_depthFunc (F : MathOps K) (io : FrameInput K) (w : World K) (l0 l1 : Light K)
    (rest : List (Light K)) (h : w.vars.config.lights = l0 :: l1 :: rest) :
    (∃ wf, mainLoopBody F io w = some wf ∧ wf.gl.depthFunc = DepthFunc.GL_LESS) ∧
    (∀ v : World K, (resetForwardAdditionalPass F v).gl.depthFunc = DepthFunc.GL_LESS) ∧
    outline GLState.depthFunc (frameEvents F io w) =
      [Mark.call Fn.drawSkybox, Mark.draw DepthFunc.GL_LEQUAL,
        Mark.call Fn.drawShadowMap, Mark.call Fn.drawObjects, Mark.call Fn.drawQuad,
        Mark.draw DepthFunc.GL_LESS,
        Mark.call Fn.setAmbientUniforms, Mark.call Fn.setLightUniforms,
        Mark.call Fn.setShadowUniforms, Mark.call Fn.drawObjects, Mark.call Fn.drawQuad,
        Mark.draw DepthFunc.GL_LESS,
        Mark.call Fn.setupForwardAdditionalPass, Mark.call Fn.setAmbientUniforms] ++
      (List.replicate (rest.length + 1) (additivePassOutline DepthFunc.GL_EQUAL)).flatten ++
      [Mark.call Fn.resetForwardAdditionalPass, Mark.call Fn.setAmbientUniforms] ++
      (if w.vars.isPaused then [Mark.call Fn.drawGui] else []) := by
  have hreset : ∀ v : World K,
      (resetForwardAdditionalPass F v).gl.depthFunc = DepthFunc.GL_LESS := by
    intro v
    simp [resetForwardAdditionalPass, setAmbientUniforms]
  refine ⟨?_, hreset, ?_⟩
  · obtain ⟨wb, wf, -, -, -, -, hm, hgl, -⟩ := mainLoopBody_spec F io w l0 l1 rest h
    exact ⟨wf, hm, by rw [hgl]; exact hreset _⟩
  · obtain ⟨wb, -, hgl, hvars, -, ho⟩ :=
      frame_outline GLState.depthFunc DepthFunc.GL_EQUAL F
        (fun v => v.gl.depthFunc = DepthFunc.GL_EQUAL)
        (fun l v hv => by simpa [setLightUniforms] using hv) io w l0 l1 rest h
    rw [ho (by simp [setupForwardAdditionalPass, setAmbientUniforms])]
    simp [drawSkybox.drawGL, drawShadowMap.drawGL]

end DepthFunc

/-- Witness for C4: the first frame on the initial globals. -/
theorem frame_depthFunc_witness :
    outline GLState.depthFunc
        (frameEvents (MathOps.mk Real.cos Real.sin Real.tan Real.sqrt Real.pi)
          (FrameInput.idle (1 / 60)) (initialWorld ⟨⟨0, 1.6, 5⟩, 45, Mat4.identity⟩)) =
      [Mark.call Fn.drawSkybox, Mark.draw DepthFunc.GL_LEQUAL,
        Mark.call Fn.drawShadowMap, Mark.call Fn.drawObjects, Mark.call Fn.drawQuad,
        Mark.draw DepthFunc.GL_LESS,
        Mark.call Fn.setAmbientUniforms, Mark.call Fn.setLightUniforms,
        Mark.call Fn.setShadowUniforms, Mark.call Fn.drawObjects, Mark.call Fn.drawQuad,
        Mark.draw DepthFunc.GL_LESS,
        Mark.call Fn.setupForwardAdditionalPass, Mark.call Fn.setAmbientUniforms,
        Mark.call Fn.setLightUniforms, Mark.call Fn.drawObjects, Mark.call Fn.drawQuad,
        Mark.draw DepthFunc.GL_EQUAL,
        Mark.call Fn.resetForwardAdditionalPass, Mark.call Fn.setAmbientUniforms] :=
  (frame_depthFunc (MathOps.mk Real.cos Real.sin Real.tan Real.sqrt Real.pi)
    (FrameInput.idle (1 / 60)) (initialWorld ⟨⟨0, 1.6, 5⟩, 45, Mat4.identity⟩)
    _ _ [] rfl).2.2

/-- The lights after start-up are the two lights of `Config`. -/
theorem startup_lights {K : Type} [LinearOrderedField K] (F : MathOps K) (R : Nat)
    (rnd : Nat → Nat) (cam : Camera K) :
    (startup F R rnd cam).vars.config.lights =
      [⟨⟨-1, 1, -0.5⟩, ⟨1, 1, 1⟩, 30, 0⟩, ⟨⟨1, 1.5, 0⟩, ⟨0.7, 0.2, 1⟩, 0, 10⟩] := by
  rw [(startup_state F R rnd cam).2.2.2.1]
  rfl


section RenderLoop
variable {K : Type} [LinearOrderedField K]

/-- Lines 298–303 keep the number of lights. -/
theorem frameEnd_lights (io : FrameInput K) (w : World K) (l0 l1 : Light K)
    (rest : List (Light K)) (h : w.vars.config.lights = l0 :: l1 :: rest) :
    ∃ wf l0' l1', frameEnd io w = some wf ∧ wf.vars.config.lights = l0' :: l1' :: rest := by
  by_cases hp : w.vars.isPaused = true
  · simp [frameEnd, drawGui, pollEvents, hp, h]
  · simp [frameEnd, drawGui, pollEvents, hp, h]

/-- One iteration of the render loop is defined when there are two or more lights,
and keeps their number. -/
theorem mainLoopBody_lights (F : MathOps K) (io : FrameInput K) (w : World K)
    (l0 l1 : Light K) (rest : List (Light K)) (h : w.vars.config.lights = l0 :: l1 :: rest) :
    ∃ wf l0' l1', mainLoopBody F io w = some wf ∧
      wf.vars.config.lights = l0' :: l1' :: rest := by
  obtain ⟨wb, hb, -, hvars, -, -, -⟩ := frameBegin_spec F io w l0 l1 rest h
  have hl : (additionalPasses F
      (basePass.body F l0 (drawShadowMap.body F l0 (drawSkybox F wb)))).vars.config.lights =
        l0 :: { l1 with
          position :=
            rotatedLightPosition F w.vars.lightRotationSpeed
              (io.currentFrame - w.vars.lastFrame) l1.position } :: rest := by
    simp [hvars]
  obtain ⟨wf, l0', l1', hf, hfl⟩ := frameEnd_lights io _ _ _ _ hl
  refine ⟨wf, l0', l1', ?_, hfl⟩
  simp [mainLoopBody, hb, drawShadowMap, basePass, hvars, hf]

/-- Every run of the render loop from a state with two or more lights is defined and
ends in a state with as many lights. -/
theorem renderLoop_lights (F : MathOps K) (ios : List (FrameInput K)) (w : World K)
    (l0 l1 : Light K) (rest : List (Light K)) (h : w.vars.config.lights = l0 :: l1 :: rest) :
    ∃ wf l0' l1', renderLoop F ios w = some wf ∧
      wf.vars.config.lights = l0' :: l1' :: rest := by
  induction ios generalizing w l0 l1 with
  | nil => exact ⟨w, l0, l1, rfl, h⟩
  | cons io ios ih =>
    obtain ⟨w1, a, b, h1, h2⟩ := mainLoopBody_lights F io w l0 l1 rest h
    obtain ⟨wf, a', b', h3, h4⟩ := ih w1 a b h2
    exact ⟨wf, a', b', by simp [renderLoop, h1, h3], h4⟩

/-- Every frame of every run of the program starts in a state with exactly two
lights: the hypothesis of the frame theorems holds in the first frame and in every
later one. -/
theorem renderLoop_startup_lights (F : MathOps K) (R : Nat) (rnd : Nat → Nat)
    (cam : Camera K) (ios : List (FrameInput K)) :
    ∃ wf l0 l1, renderLoop F ios (startup F R rnd cam) = some wf ∧
      wf.vars.config.lights = [l0, l1] :=
  renderLoop_lights F ios _ _ _ [] (startup_lights F R rnd cam)

end RenderLoop

section PassOrder

variable {K : Type} [LinearOrderedField K]

/-- C5, as amended: in a frame of a state with two or more lights the passes run in
the order skybox pass, shadow pass, base lit pass, additive lit passes, then the
panel when the loop is paused: `drawSkybox` is entered before `drawShadowMap`, which
is entered before the `drawObjects` of the base pass, which is entered before the
`drawObjects` of every additive pass, which are entered before `drawGui`. -/
theorem frame_pass_order (F : MathOps K) (io : FrameInput K) (w : World K) (l0 l1 : Light K)
    (rest : List (Light K)) (h : w.vars.config.lights = l0 :: l1 :: rest) :
    outline (fun _ => ()) (frameEvents F io w) =
      [Mark.call Fn.drawSkybox, Mark.draw (),
        Mark.call Fn.drawShadowMap, Mark.call Fn.drawObjects, Mark.call Fn.drawQuad,
        Mark.draw (),
        Mark.call Fn.setAmbientUniforms, Mark.call Fn.setLightUniforms,
        Mark.call Fn.setShadowUniforms, Mark.call Fn.drawObjects, Mark.call Fn.drawQuad,
        Mark.draw (),
        Mark.call Fn.setupForwardAdditionalPass, Mark.call Fn.setAmbientUniforms] ++
      (List.replicate (rest.length + 1) (additivePassOutline ())).flatten ++
      [Mark.call Fn.resetForwardAdditionalPass, Mark.call Fn.setAmbientUniforms] ++
      (if w.vars.isPaused then [Mark.call Fn.drawGui] else []) :=
  frame_calls F io w l0 l1 rest h

end PassOrder

/-- Witness for C5 as amended: the first frame on the initial globals. -/
theorem frame_pass_order_witness :
    outline (fun _ => ())
        (frameEvents (MathOps.mk Real.cos Real.sin Real.tan Real.sqrt Real.pi)
          (FrameInput.idle (1 / 60)) (initialWorld ⟨⟨0, 1.6, 5⟩, 45, Mat4.identity⟩)) =
      [Mark.call Fn.drawSkybox, Mark.draw (),
        Mark.call Fn.drawShadowMap, Mark.call Fn.drawObjects, Mark.call Fn.drawQuad,
        Mark.draw (),
        Mark.call Fn.setAmbientUniforms, Mark.call Fn.setLightUniforms,
        Mark.call Fn.setShadowUniforms, Mark.call Fn.drawObjects, Mark.call Fn.drawQuad,
        Mark.draw (),
        Mark.call Fn.setupForwardAdditionalPass, Mark.call Fn.setAmbientUniforms,
        Mark.call Fn.setLightUniforms, Mark.call Fn.drawObjects, Mark.call Fn.drawQuad,
        Mark.draw (),
        Mark.call Fn.resetForwardAdditionalPass, Mark.call Fn.setAmbientUniforms] :=
  frame_pass_order (MathOps.mk Real.cos Real.sin Real.tan Real.sqrt Real.pi)
    (FrameInput.idle (1 / 60)) (initialWorld ⟨⟨0, 1.6, 5⟩, 45, Mat4.identity⟩) _ _ [] rfl

/-- Counterexample to C5 as stated: in the first frame after start-up
`drawShadowMap` is not entered before `drawSkybox`. -/
theorem frame_pass_order_counterexample :
    ¬ (firstCall Fn.drawShadowMap
          (outline (fun _ => ())
            (frameEvents (MathOps.mk Real.cos Real.sin Real.tan Real.sqrt Real.pi)
              (FrameInput.idle (1 / 60))
              (startup (MathOps.mk Real.cos Real.sin Real.tan Real.sqrt Real.pi) 32767
                (fun _ => 12345) ⟨⟨0, 1.6, 5⟩, 45, Mat4.identity⟩))) <
        firstCall Fn.drawSkybox
          (outline (fun _ => ())
            (frameEvents (MathOps.mk Real.cos Real.sin Real.tan Real.sqrt Real.pi)
              (FrameInput.idle (1 / 60))
              (startup (MathOps.mk Real.cos Real.sin Real.tan Real.sqrt Real.pi) 32767
                (fun _ => 12345) ⟨⟨0, 1.6, 5⟩, 45, Mat4.identity⟩)))) := by
  rw [frame_calls _ _ _ _ _ [] (startup_lights _ _ _ _),
    (startup_state _ _ _ _).2.2.2.2.2.1]
  decide


/-- C6: in the first frame after start-up the shadow-map depth texture has name 8,
and at the additive pass draw texture 8 is bound to `GL_TEXTURE_2D` on texture unit 6,
the unit the `shadowMap` sampler refers to: `setupForwardAdditionalPass` unbinds unit 5
and leaves unit 6 as the base pass set it. -/
theorem additive_pass_shadowMap_bound :
    (startup (MathOps.mk Real.cos Real.sin Real.tan Real.sqrt Real.pi) 32767
        (fun _ => 12345) ⟨⟨0, 1.6, 5⟩, 45, Mat4.identity⟩).vars.shadowMap = 8 ∧
    outline (fun g => g.texture2D 6)
        (frameEvents (MathOps.mk Real.cos Real.sin Real.tan Real.sqrt Real.pi)
          (FrameInput.idle (1 / 60))
          (startup (MathOps.mk Real.cos Real.sin Real.tan Real.sqrt Real.pi) 32767
            (fun _ => 12345) ⟨⟨0, 1.6, 5⟩, 45, Mat4.identity⟩)) =
      [Mark.call Fn.drawSkybox, Mark.draw 0,
        Mark.call Fn.drawShadowMap, Mark.call Fn.drawObjects, Mark.call Fn.drawQuad,
        Mark.draw 0,
        Mark.call Fn.setAmbientUniforms, Mark.call Fn.setLightUniforms,
        Mark.call Fn.setShadowUniforms, Mark.call Fn.drawObjects, Mark.call Fn.drawQuad,
        Mark.draw 8,
        Mark.call Fn.setupForwardAdditionalPass, Mark.call Fn.setAmbientUniforms,
        Mark.call Fn.setLightUniforms, Mark.call Fn.drawObjects, Mark.call Fn.drawQuad,
        Mark.draw 8,
        Mark.call Fn.resetForwardAdditionalPass, Mark.call Fn.setAmbientUniforms] := by
  refine ⟨(startup_state _ _ _ _).2.2.2.2.2.2, ?_⟩
  rw [frame_shadowUnit _ _ _ _ _ [] (startup_lights _ _ _ _),
    (startup_state _ _ _ _).2.2.2.2.2.1, (startup_state _ _ _ _).2.2.2.2.2.2,
    (startup_state _ _ _ _).2.2.1]
  rfl


/-- The position lines 259–264 write, over the reals: a rotation about the Y axis. -/
theorem rotatedLightPosition_real (s dt : ℝ) (p : Vec3 ℝ) (hs : 0 ≤ s) :
    rotatedLightPosition (MathOps.mk Real.cos Real.sin Real.tan Real.sqrt Real.pi) s dt p =
      ⟨p.x * Real.cos (s * dt) + p.z * Real.sin (s * dt), p.y,
        -(p.x * Real.sin (s * dt)) + p.z * Real.cos (s * dt)⟩ := by
  unfold rotatedLightPosition
  by_cases h : s > 0
  · simp [h, glm.rotate, glm.normalize, glm.inversesqrt, glm.dot, Mat4.identity, Mat4.mulVec,
      Vec4.add, Vec4.scale, Vec3.scale, Vec4.ofVec3]
    refine ⟨by ring, by ring⟩
  · have h0 : s = 0 := le_antisymm (not_lt.mp h) hs
    subst h0
    simp

/-- C7: over real arithmetic, for every prior position of `lights[1]`, angular speed
`s ≥ 0` and frame times, the per-frame update sets the position to the prior position
rotated about the world Y axis by `s * deltaTime` radians (y unchanged, (x, z) rotated),
its distance from the origin is unchanged, and for `s = 0` the position is unchanged. -/
theorem frame_light2_rotation (io : FrameInput ℝ) (w : World ℝ) (l0 l1 : Light ℝ)
    (rest : List (Light ℝ)) (h : w.vars.config.lights = l0 :: l1 :: rest)
    (hs : 0 ≤ w.vars.lightRotationSpeed) :
    (∃ wb, frameBegin (MathOps.mk Real.cos Real.sin Real.tan Real.sqrt Real.pi) io w = some wb ∧
      wb.vars.config.lights =
        l0 ::
          { l1 with
            position :=
              ⟨l1.position.x *
                    Real.cos (w.vars.lightRotationSpeed * (io.currentFrame - w.vars.lastFrame)) +
                  l1.position.z *
                    Real.sin (w.vars.lightRotationSpeed * (io.currentFrame - w.vars.lastFrame)),
                l1.position.y,
                -(l1.position.x *
                    Real.sin (w.vars.lightRotationSpeed * (io.currentFrame - w.vars.lastFrame))) +
                  l1.position.z *
                    Real.cos (w.vars.lightRotationSpeed * (io.currentFrame - w.vars.lastFrame))⟩ } ::
          rest) ∧
    glm.length (MathOps.mk Real.cos Real.sin Real.tan Real.sqrt Real.pi)
        (rotatedLightPosition (MathOps.mk Real.cos Real.sin Real.tan Real.sqrt Real.pi)
          w.vars.lightRotationSpeed (io.currentFrame - w.vars.lastFrame) l1.position) =
      glm.length (MathOps.mk Real.cos Real.sin Real.tan Real.sqrt Real.pi) l1.position ∧
    (w.vars.lightRotationSpeed = 0 →
      rotatedLightPosition (MathOps.mk Real.cos Real.sin Real.tan Real.sqrt Real.pi)
        w.vars.lightRotationSpeed (io.currentFrame - w.vars.lastFrame) l1.position =
        l1.position) := by
  refine ⟨?_, ?_, ?_⟩
  · obtain ⟨wb, hb, -, hvars, -, -, -⟩ := frameBegin_spec _ io w l0 l1 rest h
    refine ⟨wb, hb, ?_⟩
    rw [hvars, rotatedLightPosition_real _ _ _ hs]
  · rw [rotatedLightPosition_real _ _ _ hs]
    simp only [glm.length, glm.dot]
    congr 1
    have hc := Real.cos_sq_add_sin_sq
      (w.vars.lightRotationSpeed * (io.currentFrame - w.vars.lastFrame))
    linear_combination (l1.position.x ^ 2 + l1.position.z ^ 2) * hc
  · intro h0
    simp [rotatedLightPosition, h0]

/-- Witness for C7: the first frame on the initial globals (speed 1, light 2 at
`(1, 1.5, 0)`). -/
theorem frame_light2_rotation_witness :
    glm.length (MathOps.mk Real.cos Real.sin Real.tan Real.sqrt Real.pi)
        (rotatedLightPosition (MathOps.mk Real.cos Real.sin Real.tan Real.sqrt Real.pi)
          (initialWorld ⟨⟨0, 1.6, 5⟩, 45, Mat4.identity⟩ : World ℝ).vars.lightRotationSpeed
          ((FrameInput.idle (1 / 60 : ℝ)).currentFrame -
            (initialWorld ⟨⟨0, 1.6, 5⟩, 45, Mat4.identity⟩ : World ℝ).vars.lastFrame)
          (⟨1, 1.5, 0⟩ : Vec3 ℝ)) =
      glm.length (MathOps.mk Real.cos Real.sin Real.tan Real.sqrt Real.pi) (⟨1, 1.5, 0⟩ : Vec3 ℝ) :=
  (frame_light2_rotation (FrameInput.idle (1 / 60))
    (initialWorld ⟨⟨0, 1.6, 5⟩, 45, Mat4.identity⟩) _ _ [] rfl
    (by norm_num [initialWorld])).2.1


section LightUniforms
variable {K : Type} [LinearOrderedField K]

/-- C8: for every light and every selected program, `setLightUniforms` sends
`lightPosition`, then `lightColor = light.color * light.intensity`, multiplied by π
exactly when the selected program is the PBR program, then `lightRadius`; the value
is stored in the bound program; and for a light of intensity 0 the `lightColor` sent
is the zero vector whichever program is selected. -/
theorem setLightUniforms_energy (F : MathOps K) (light : Light K) (w : World K) :
    (setLightUniforms F light w).trace =
      w.trace ++
        [Event.call Fn.setLightUniforms,
          Event.uniform w.vars.shader "lightPosition" (UVal.vec3 light.position) w.gl.program,
          Event.uniform w.vars.shader "lightColor"
            (UVal.vec3
              (if w.vars.shader = Shader.pbr_shading then
                (light.color.scale light.intensity).scale F.pi
              else light.color.scale light.intensity))
            w.gl.program,
          Event.uniform w.vars.shader "lightRadius" (UVal.float light.radius) w.gl.program] ∧
    (∀ p, w.gl.program = some p →
      (setLightUniforms F light w).gl.uniforms p "lightColor" =
        some (UVal.vec3
          (if w.vars.shader = Shader.pbr_shading then
            (light.color.scale light.intensity).scale F.pi
          else light.color.scale light.intensity))) ∧
    (setLightUniforms F { light with intensity := 0 } w).trace =
      w.trace ++
        [Event.call Fn.setLightUniforms,
          Event.uniform w.vars.shader "lightPosition" (UVal.vec3 light.position) w.gl.program,
          Event.uniform w.vars.shader "lightColor" (UVal.vec3 ⟨0, 0, 0⟩) w.gl.program,
          Event.uniform w.vars.shader "lightRadius" (UVal.float light.radius) w.gl.program] := by
  refine ⟨?_, ?_, ?_⟩
  · simp [setLightUniforms]
  · intro p hp
    simp [setLightUniforms, GLState.setUniform_uniforms, hp]
  · by_cases hpbr : w.vars.shader = Shader.pbr_shading <;>
      simp [setLightUniforms, Vec3.scale, hpbr]


omit [LinearOrderedField K] in
/-- C9: every call of `drawQuad` issues exactly one draw, an instanced draw of 4
vertices with `instanceCount` instances; its instance IDs are `0 … instanceCount - 1`,
and for `instanceCount` in `[1, 100]` each of them indexes inside the 100-entry
`models` array, entry `j` being used exactly when `j < instanceCount`. -/
theorem drawQuad_instances (w : World K) :
    (drawQuad w).trace =
      w.trace ++ [Event.call Fn.drawQuad,
        Event.glDrawArraysInstanced DrawMode.GL_TRIANGLE_STRIP 0 4 w.vars.instanceCount
          (drawQuad w).drawGL] ∧
    Event.instanceIDs
        (Event.glDrawArraysInstanced DrawMode.GL_TRIANGLE_STRIP 0 4 w.vars.instanceCount
          (drawQuad w).drawGL) =
      List.range w.vars.instanceCount.toNat ∧
    (1 ≤ w.vars.instanceCount → w.vars.instanceCount ≤ 100 →
      (∀ id ∈ Event.instanceIDs
          (Event.glDrawArraysInstanced DrawMode.GL_TRIANGLE_STRIP 0 4 w.vars.instanceCount
            (drawQuad w).drawGL), id < 100) ∧
      (∀ j : Fin 100,
        j.val ∈ Event.instanceIDs
          (Event.glDrawArraysInstanced DrawMode.GL_TRIANGLE_STRIP 0 4 w.vars.instanceCount
            (drawQuad w).drawGL) ↔ (j.val : Int) < w.vars.instanceCount)) := by
  refine ⟨drawQuad_trace w, rfl, ?_⟩
  intro h1 h2
  refine ⟨?_, ?_⟩
  · intro id hid
    simp only [Event.instanceIDs, List.mem_range] at hid
    omega
  · intro j
    simp only [Event.instanceIDs, List.mem_range]
    omega

end LightUniforms


/-- C9 at `instanceCount = 5`: the draw uses exactly the instances 0, 1, 2, 3, 4. -/
theorem drawQuad_instances_witness :
    Event.instanceIDs
        (Event.glDrawArraysInstanced DrawMode.GL_TRIANGLE_STRIP 0 4
          ((initialWorld ⟨⟨0, 1.6, 5⟩, 45, Mat4.identity⟩ : World ℝ).setVars
            { (initialWorld ⟨⟨0, 1.6, 5⟩, 45, Mat4.identity⟩ : World ℝ).vars with
              instanceCount := 5 }).vars.instanceCount
          (drawQuad ((initialWorld ⟨⟨0, 1.6, 5⟩, 45, Mat4.identity⟩ : World ℝ).setVars
            { (initialWorld ⟨⟨0, 1.6, 5⟩, 45, Mat4.identity⟩ : World ℝ).vars with
              instanceCount := 5 })).drawGL) =
      [0, 1, 2, 3, 4] :=
  (drawQuad_instances
    ((initialWorld ⟨⟨0, 1.6, 5⟩, 45, Mat4.identity⟩ : World ℝ).setVars
      { (initialWorld ⟨⟨0, 1.6, 5⟩, 45, Mat4.identity⟩ : World ℝ).vars with
        instanceCount := 5 })).2.1


section BeersLaw
variable {K : Type} [LinearOrderedField K]

/-- C10: in every frame of a state with two or more lights, at the base pass draw
(and at every additive pass draw) the `epsilonC` uniform of the shading program is
`epsilon * c`, and `minThickness` and `maxThickness` are the globals unchanged. -/
theorem frame_epsilonC (F : MathOps K) (io : FrameInput K) (w : World K)
    (l0 l1 : Light K) (rest : List (Light K)) (h : w.vars.config.lights = l0 :: l1 :: rest) :
    outline
        (fun g => (g.uniforms w.vars.shader "epsilonC", g.uniforms w.vars.shader "minThickness",
          g.uniforms w.vars.shader "maxThickness"))
        (frameEvents F io w) =
      [Mark.call Fn.drawSkybox,
        Mark.draw (w.gl.uniforms w.vars.shader "epsilonC",
          w.gl.uniforms w.vars.shader "minThickness", w.gl.uniforms w.vars.shader "maxThickness"),
        Mark.call Fn.drawShadowMap, Mark.call Fn.drawObjects, Mark.call Fn.drawQuad,
        Mark.draw (w.gl.uniforms w.vars.shader "epsilonC",
          w.gl.uniforms w.vars.shader "minThickness", w.gl.uniforms w.vars.shader "maxThickness"),
        Mark.call Fn.setAmbientUniforms, Mark.call Fn.setLightUniforms,
        Mark.call Fn.setShadowUniforms, Mark.call Fn.drawObjects, Mark.call Fn.drawQuad,
        Mark.draw (some (UVal.float (w.vars.epsilon * w.vars.c)),
          some (UVal.float w.vars.minThickness), some (UVal.float w.vars.maxThickness)),
        Mark.call Fn.setupForwardAdditionalPass, Mark.call Fn.setAmbientUniforms] ++
      (List.replicate (rest.length + 1)
        (additivePassOutline (some (UVal.float (w.vars.epsilon * w.vars.c)),
          some (UVal.float w.vars.minThickness), some (UVal.float w.vars.maxThickness)))).flatten ++
      [Mark.call Fn.resetForwardAdditionalPass, Mark.call Fn.setAmbientUniforms] ++
      (if w.vars.isPaused then [Mark.call Fn.drawGui] else []) :=
  frame_thickness_outline F io w l0 l1 rest h

end BeersLaw

/-- Witness for C10: with `epsilon = 0.5` and `c = 0.2` the `epsilonC` uniform at the
base pass draw (entry 11 of the outline) is exactly 0.1. -/
theorem frame_epsilonC_witness :
    (outline
        (fun g => (g.uniforms Shader.leaf_shading "epsilonC",
          g.uniforms Shader.leaf_shading "minThickness",
          g.uniforms Shader.leaf_shading "maxThickness"))
        (frameEvents (MathOps.mk Real.cos Real.sin Real.tan Real.sqrt Real.pi)
          (FrameInput.idle (1 / 60))
          ((initialWorld ⟨⟨0, 1.6, 5⟩, 45, Mat4.identity⟩ : World ℝ).setVars
            { (initialWorld ⟨⟨0, 1.6, 5⟩, 45, Mat4.identity⟩ : World ℝ).vars with
              epsilon := 0.5, c := 0.2 })))[11]? =
      some (Mark.draw (some (UVal.float (0.1 : ℝ)), some (UVal.float (0.1 : ℝ)),
        some (UVal.float (5 : ℝ)))) := by
  refine (congrArg (fun t => t[11]?)
    (frame_epsilonC (MathOps.mk Real.cos Real.sin Real.tan Real.sqrt Real.pi)
      (FrameInput.idle (1 / 60))
      ((initialWorld ⟨⟨0, 1.6, 5⟩, 45, Mat4.identity⟩ : World ℝ).setVars
        { (initialWorld ⟨⟨0, 1.6, 5⟩, 45, Mat4.identity⟩ : World ℝ).vars with
          epsilon := 0.5, c := 0.2 }) _ _ [] rfl)).trans ?_
  norm_num [initialWorld]

section ShadowMapRestore
variable {K : Type} [LinearOrderedField K]

end ShadowMapRestore

section DepthTest

variable {K : Type} [LinearOrderedField K]

/-- The depth test (enabled or not, and its function) at the draws of a frame of a
state with two or more lights: the skybox draw sees the enable flag the frame started
with, and every draw of `drawObjects` is issued with the depth test disabled. -/
theorem frame_depthTest_outline (F : MathOps K) (io : FrameInput K) (w : World K)
    (l0 l1 : Light K) (rest : List (Light K)) (h : w.vars.config.lights = l0 :: l1 :: rest) :
    outline (fun g => (g.depthTest, g.depthFunc)) (frameEvents F io w) =
      [Mark.call Fn.drawSkybox, Mark.draw (w.gl.depthTest, DepthFunc.GL_LEQUAL),
        Mark.call Fn.drawShadowMap, Mark.call Fn.drawObjects, Mark.call Fn.drawQuad,
        Mark.draw (false, DepthFunc.GL_LESS),
        Mark.call Fn.setAmbientUniforms, Mark.call Fn.setLightUniforms,
        Mark.call Fn.setShadowUniforms, Mark.call Fn.drawObjects, Mark.call Fn.drawQuad,
        Mark.draw (false, DepthFunc.GL_LESS),
        Mark.call Fn.setupForwardAdditionalPass, Mark.call Fn.setAmbientUniforms] ++
      (List.replicate (rest.length + 1)
        (additivePassOutline (false, DepthFunc.GL_EQUAL))).flatten ++
      [Mark.call Fn.resetForwardAdditionalPass, Mark.call Fn.setAmbientUniforms] ++
      (if w.vars.isPaused then [Mark.call Fn.drawGui] else []) := by
  obtain ⟨wb, -, hgl, hvars, -, ho⟩ :=
    frame_outline (fun g : GLState K => (g.depthTest, g.depthFunc)) (false, DepthFunc.GL_EQUAL) F
      (fun v => v.gl.depthFunc = DepthFunc.GL_EQUAL)
      (fun l v hv => by simpa [setLightUniforms] using hv) io w l0 l1 rest h
  rw [ho (by simp [setupForwardAdditionalPass, setAmbientUniforms])]
  simp [drawSkybox.drawGL, drawShadowMap.drawGL, hgl, basePass.body, setAmbientUniforms,
    setLightUniforms, setShadowUniforms]

/-- The depth test is enabled when start-up ends (line 229). -/
theorem startup_depthTest (F : MathOps K) (R : Nat) (rnd : Nat → Nat) (cam : Camera K) :
    (startup F R rnd cam).gl.depthTest = true := by
  rw [startup_eq]
  simp

end DepthTest

/-- C12: in the first frame after start-up the depth functions are as the claim says
(`GL_LESS` at the base pass draw, `GL_EQUAL` at the additive pass draw), but the
depth test itself is disabled at the base pass draw and at the additive pass draw:
`drawObjects` calls `glDisable(GL_DEPTH_TEST)` right after `glEnable(GL_DEPTH_TEST)`,
before it draws.  Only the skybox draw of this frame is depth-tested. -/
theorem frame_depthTest_disabled :
    outline (fun g => (g.depthTest, g.depthFunc))
        (frameEvents (MathOps.mk Real.cos Real.sin Real.tan Real.sqrt Real.pi)
          (FrameInput.idle (1 / 60))
          (startup (MathOps.mk Real.cos Real.sin Real.tan Real.sqrt Real.pi) 32767
            (fun _ => 12345) ⟨⟨0, 1.6, 5⟩, 45, Mat4.identity⟩)) =
      [Mark.call Fn.drawSkybox, Mark.draw (true, DepthFunc.GL_LEQUAL),
        Mark.call Fn.drawShadowMap, Mark.call Fn.drawObjects, Mark.call Fn.drawQuad,
        Mark.draw (false, DepthFunc.GL_LESS),
        Mark.call Fn.setAmbientUniforms, Mark.call Fn.setLightUniforms,
        Mark.call Fn.setShadowUniforms, Mark.call Fn.drawObjects, Mark.call Fn.drawQuad,
        Mark.draw (false, DepthFunc.GL_LESS),
        Mark.call Fn.setupForwardAdditionalPass, Mark.call Fn.setAmbientUniforms,
        Mark.call Fn.setLightUniforms, Mark.call Fn.drawObjects, Mark.call Fn.drawQuad,
        Mark.draw (false, DepthFunc.GL_EQUAL),
        Mark.call Fn.resetForwardAdditionalPass, Mark.call Fn.setAmbientUniforms] := by
  rw [frame_depthTest_outline _ _ _ _ _ [] (startup_lights _ _ _ _),
    (startup_state _ _ _ _).2.2.2.2.2.1, startup_depthTest]
  rfl

section BlendState

variable {K : Type} [LinearOrderedField K]

/-- Blending is off with the default factors when start-up ends: no call of the
start-up part touches the blend state. -/
theorem startup_blend (F : MathOps K) (R : Nat) (rnd : Nat → Nat) (cam : Camera K) :
    (startup F R rnd cam).gl.blend = false ∧
      (startup F R rnd cam).gl.blendSrc = BlendFactor.GL_ONE ∧
      (startup F R rnd cam).gl.blendDst = BlendFactor.GL_ZERO := by
  rw [startup_eq]
  simp [createShadowMap, initSkybox, loadLeafTextures, assign, loadTexture, loadCubemap,
    initSkyboxBuffers, initialWorld, initialGL]

/-- After `resetForwardAdditionalPass` blending is off with factors `(GL_ONE, GL_ZERO)`. -/
theorem resetForwardAdditionalPass_blend (F : MathOps K) (v : World K) :
    (resetForwardAdditionalPass F v).gl.blend = false ∧
      (resetForwardAdditionalPass F v).gl.blendSrc = BlendFactor.GL_ONE ∧
      (resetForwardAdditionalPass F v).gl.blendDst = BlendFactor.GL_ZERO := by
  simp [resetForwardAdditionalPass, setAmbientUniforms]

/-- The blend state (enabled or not, source and destination factor) at the draws of a
frame of a state with two or more lights: the skybox, shadow pass and base pass draws
see the blend state the frame started with, every additive pass draw is issued with
blending on and factors `(GL_ONE, GL_ONE)`. -/
theorem frame_blend_outline (F : MathOps K) (io : FrameInput K) (w : World K)
    (l0 l1 : Light K) (rest : List (Light K)) (h : w.vars.config.lights = l0 :: l1 :: rest) :
    outline (fun g => (g.blend, g.blendSrc, g.blendDst)) (frameEvents F io w) =
      [Mark.call Fn.drawSkybox, Mark.draw (w.gl.blend, w.gl.blendSrc, w.gl.blendDst),
        Mark.call Fn.drawShadowMap, Mark.call Fn.drawObjects, Mark.call Fn.drawQuad,
        Mark.draw (w.gl.blend, w.gl.blendSrc, w.gl.blendDst),
        Mark.call Fn.setAmbientUniforms, Mark.call Fn.setLightUniforms,
        Mark.call Fn.setShadowUniforms, Mark.call Fn.drawObjects, Mark.call Fn.drawQuad,
        Mark.draw (w.gl.blend, w.gl.blendSrc, w.gl.blendDst),
        Mark.call Fn.setupForwardAdditionalPass, Mark.call Fn.setAmbientUniforms] ++
      (List.replicate (rest.length + 1)
        (additivePassOutline (true, BlendFactor.GL_ONE, BlendFactor.GL_ONE))).flatten ++
      [Mark.call Fn.resetForwardAdditionalPass, Mark.call Fn.setAmbientUniforms] ++
      (if w.vars.isPaused then [Mark.call Fn.drawGui] else []) := by
  obtain ⟨wb, -, hgl, hvars, -, ho⟩ :=
    frame_outline (fun g : GLState K => (g.blend, g.blendSrc, g.blendDst))
      (true, BlendFactor.GL_ONE, BlendFactor.GL_ONE) F
      (fun v => v.gl.blend = true ∧ v.gl.blendSrc = BlendFactor.GL_ONE ∧
        v.gl.blendDst = BlendFactor.GL_ONE)
      (fun l v hv => by simpa [setLightUniforms] using hv) io w l0 l1 rest h
  rw [ho (by simp [setupForwardAdditionalPass, setAmbientUniforms])]
  simp [drawSkybox.drawGL, drawShadowMap.drawGL, hgl, basePass.body, setAmbientUniforms,
    setLightUniforms, setShadowUniforms]

/-- A frame of a state with two or more lights ends with two or more lights and with
blending off and factors `(GL_ONE, GL_ZERO)`, whatever the blend state was. -/
theorem mainLoopBody_blend (F : MathOps K) (io : FrameInput K) (w : World K)
    (l0 l1 : Light K) (rest : List (Light K)) (h : w.vars.config.lights = l0 :: l1 :: rest) :
    ∃ wf l0' l1', mainLoopBody F io w = some wf ∧
      wf.vars.config.lights = l0' :: l1' :: rest ∧
      wf.gl.blend = false ∧ wf.gl.blendSrc = BlendFactor.GL_ONE ∧
      wf.gl.blendDst = BlendFactor.GL_ZERO := by
  obtain ⟨wf, a, b, hm, hl⟩ := mainLoopBody_lights F io w l0 l1 rest h
  obtain ⟨wb, wf', -, -, -, -, hm', hgl, -⟩ := mainLoopBody_spec F io w l0 l1 rest h
  have e : wf' = wf := Option.some.inj (hm'.symm.trans hm)
  subst e
  refine ⟨wf', a, b, hm, hl, ?_⟩
  rw [hgl]
  exact resetForwardAdditionalPass_blend F _

/-- Every run of the render loop from a state with two or more lights and blending
off with factors `(GL_ONE, GL_ZERO)` is defined and ends in such a state. -/
theorem renderLoop_blend (F : MathOps K) (ios : List (FrameInput K)) (w : World K)
    (l0 l1 : Light K) (rest : List (Light K)) (h : w.vars.config.lights = l0 :: l1 :: rest)
    (hb : w.gl.blend = false ∧ w.gl.blendSrc = BlendFactor.GL_ONE ∧
      w.gl.blendDst = BlendFactor.GL_ZERO) :
    ∃ wf l0' l1', renderLoop F ios w = some wf ∧
      wf.vars.config.lights = l0' :: l1' :: rest ∧
      wf.gl.blend = false ∧ wf.gl.blendSrc = BlendFactor.GL_ONE ∧
      wf.gl.blendDst = BlendFactor.GL_ZERO := by
  induction ios generalizing w l0 l1 with
  | nil => exact ⟨w, l0, l1, rfl, h, hb⟩
  | cons io ios ih =>
    obtain ⟨w1, a, b, h1, h2, h3⟩ := mainLoopBody_blend F io w l0 l1 rest h
    obtain ⟨wf, a', b', h4, h5⟩ := ih w1 a b h2 h3
    exact ⟨wf, a', b', by simp [renderLoop, h1, h4], h5⟩

/-- C13: in every frame of every run of the program (start-up, then any number of
iterations of the render loop under any inputs, then the frame observed), the skybox,
shadow pass and base pass draws are issued with blending disabled, every additive
pass draw is issued with blending enabled and factors `(GL_ONE, GL_ONE)`, and
`resetForwardAdditionalPass` leaves blending disabled with factors `(GL_ONE, GL_ZERO)`,
which is the state the frame ends in and the next frame starts with. -/
theorem frame_blend_invariant (F : MathOps K) (R : Nat) (rnd : Nat → Nat) (cam : Camera K)
    (ios : List (FrameInput K)) (io : FrameInput K) :
    ∃ w wf, renderLoop F ios (startup F R rnd cam) = some w ∧
      outline (fun g => (g.blend, g.blendSrc, g.blendDst)) (frameEvents F io w) =
        [Mark.call Fn.drawSkybox, Mark.draw (false, BlendFactor.GL_ONE, BlendFactor.GL_ZERO),
          Mark.call Fn.drawShadowMap, Mark.call Fn.drawObjects, Mark.call Fn.drawQuad,
          Mark.draw (false, BlendFactor.GL_ONE, BlendFactor.GL_ZERO),
          Mark.call Fn.setAmbientUniforms, Mark.call Fn.setLightUniforms,
          Mark.call Fn.setShadowUniforms, Mark.call Fn.drawObjects, Mark.call Fn.drawQuad,
          Mark.draw (false, BlendFactor.GL_ONE, BlendFactor.GL_ZERO),
          Mark.call Fn.setupForwardAdditionalPass, Mark.call Fn.setAmbientUniforms,
          Mark.call Fn.setLightUniforms, Mark.call Fn.drawObjects, Mark.call Fn.drawQuad,
          Mark.draw (true, BlendFactor.GL_ONE, BlendFactor.GL_ONE),
          Mark.call Fn.resetForwardAdditionalPass, Mark.call Fn.setAmbientUniforms] ++
        (if w.vars.isPaused then [Mark.call Fn.drawGui] else []) ∧
      (∀ v : World K, (resetForwardAdditionalPass F v).gl.blend = false ∧
        (resetForwardAdditionalPass F v).gl.blendSrc = BlendFactor.GL_ONE ∧
        (resetForwardAdditionalPass F v).gl.blendDst = BlendFactor.GL_ZERO) ∧
      mainLoopBody F io w = some wf ∧ wf.gl.blend = false := by
  obtain ⟨w, l0, l1, hr, hl, hb, hs, hd⟩ :=
    renderLoop_blend F ios _ _ _ [] (startup_lights F R rnd cam) (startup_blend F R rnd cam)
  obtain ⟨wf, -, -, hm, -, hfb, -⟩ := mainLoopBody_blend F io w l0 l1 [] hl
  refine ⟨w, wf, hr, ?_, resetForwardAdditionalPass_blend F, hm, hfb⟩
  rw [frame_blend_outline F io w l0 l1 [] hl, hb, hs, hd]
  simp [additivePassOutline]

end BlendState

section LitPasses

variable {K : Type} [LinearOrderedField K]

/-- One iteration of the render loop runs the lit passes after the shadow pass. -/
theorem mainLoopBody_litPasses (F : MathOps K) (io : FrameInput K) (w : World K) :
    mainLoopBody F io w =
      (frameBegin F io w).bind fun w1 =>
        (drawShadowMap F (drawSkybox F w1)).bind fun w2 =>
          (litPasses F w2).bind (frameEnd io) := by
  unfold mainLoopBody litPasses
  cases frameBegin F io w with
  | none => rfl
  | some w1 =>
    simp only [Option.bind_eq_bind, Option.some_bind]
    cases drawShadowMap F (drawSkybox F w1) with
    | none => rfl
    | some w2 =>
      simp only [Option.some_bind]
      cases basePass F w2 <;> rfl

/-- The outline of the additive passes, when every pass keeps the property `Inv` and
the pass for the light `l` draws under the observation `f l` whenever it starts with
`Inv`. -/
theorem additivePasses_outline_map {α : Type} (obs : GLState K → α) (f : Light K → α)
    (F : MathOps K) (Inv : World K → Prop)
    (hstep : ∀ (l : Light K) (v : World K), Inv v →
      Inv (drawObjects F (setLightUniforms F l v)) ∧
        obs (drawObjects F (setLightUniforms F l v)).drawGL = f l)
    (ls : List (Light K)) (w : World K) (hw : Inv w) :
    Inv (additivePasses F ls w) ∧
      outline obs (additivePasses F ls w).trace =
        outline obs w.trace ++ (ls.map fun l => additivePassOutline (f l)).flatten := by
  induction ls generalizing w with
  | nil => exact ⟨hw, by simp [additivePasses]⟩
  | cons l ls ih =>
    obtain ⟨h1, h2⟩ := hstep l w hw
    obtain ⟨h3, h4⟩ := ih (drawObjects F (setLightUniforms F l w)) h1
    refine ⟨h3, ?_⟩
    have e : additivePasses F (l :: ls) w =
        additivePasses F ls (drawObjects F (setLightUniforms F l w)) := rfl
    rw [e, h4, additivePass_outline, h2]
    simp

/-- The light uniforms of the shading program at the draw of an additive pass are the
values of the light of that pass, when the shading program is bound on entry. -/
theorem additivePass_lightUniforms (F : MathOps K) (s : Shader) (l : Light K) (v : World K)
    (hv : v.vars.shader = s ∧ v.gl.program = some s) :
    ((drawObjects F (setLightUniforms F l v)).vars.shader = s ∧
        (drawObjects F (setLightUniforms F l v)).gl.program = some s) ∧
      GLState.lightUniforms s (drawObjects F (setLightUniforms F l v)).drawGL =
        Light.uniformValues F s l := by
  obtain ⟨h1, h2⟩ := hv
  subst h1
  refine ⟨by simp, ?_⟩
  simp [GLState.lightUniforms, Light.uniformValues, World.drawGL, drawObjects_uniforms,
    setLightUniforms, GLState.setUniform_uniforms, h2]

/-- The light uniforms of the shading program at the draw of the base pass are the
values of `config.lights[0]`. -/
theorem basePass_body_lightUniforms (F : MathOps K) (l : Light K) (w : World K) :
    GLState.lightUniforms w.vars.shader (basePass.body F l w).drawGL =
      Light.uniformValues F w.vars.shader l := by
  simp [GLState.lightUniforms, Light.uniformValues, World.drawGL, drawObjects_uniforms,
    basePass.body, setAmbientUniforms, setShadowUniforms,
    setLightUniforms, GLState.setUniform_uniforms]

/-- The outline of the lit passes of a state with one or more lights, observing the
light uniforms of the shading program at every draw. -/
theorem litPasses_outline (F : MathOps K) (w : World K) (l0 : Light K)
    (rest : List (Light K)) (h : w.vars.config.lights = l0 :: rest) :
    ∃ wf, litPasses F w.clearTrace = some wf ∧
      outline (GLState.lightUniforms w.vars.shader) wf.trace =
        [Mark.call Fn.setAmbientUniforms, Mark.call Fn.setLightUniforms,
          Mark.call Fn.setShadowUniforms, Mark.call Fn.drawObjects, Mark.call Fn.drawQuad,
          Mark.draw (Light.uniformValues F w.vars.shader l0),
          Mark.call Fn.setupForwardAdditionalPass, Mark.call Fn.setAmbientUniforms] ++
        (rest.map fun l => additivePassOutline (Light.uniformValues F w.vars.shader l)).flatten ++
        [Mark.call Fn.resetForwardAdditionalPass, Mark.call Fn.setAmbientUniforms] := by
  have h' : w.clearTrace.vars.config.lights = l0 :: rest := h
  refine ⟨additionalPasses F (basePass.body F l0 w.clearTrace), by simp [litPasses, basePass, h], ?_⟩
  obtain ⟨-, ho⟩ := additivePasses_outline_map (GLState.lightUniforms w.vars.shader)
    (Light.uniformValues F w.vars.shader) F
    (fun v => v.vars.shader = w.vars.shader ∧ v.gl.program = some w.vars.shader)
    (additivePass_lightUniforms F w.vars.shader) rest
    (setupForwardAdditionalPass F (basePass.body F l0 w.clearTrace))
    (by simp [setupForwardAdditionalPass, setAmbientUniforms, World.clearTrace])
  have e : ∀ v : World K, outline (GLState.lightUniforms w.vars.shader)
      (resetForwardAdditionalPass F v).trace =
      outline (GLState.lightUniforms w.vars.shader) v.trace ++
        [Mark.call Fn.resetForwardAdditionalPass, Mark.call Fn.setAmbientUniforms] := by
    intro v
    simp [resetForwardAdditionalPass, setAmbientUniforms, Event.mark]
  have hb := basePass_body_lightUniforms F l0 w.clearTrace
  have hs : w.clearTrace.vars.shader = w.vars.shader := rfl
  rw [hs] at hb
  unfold additionalPasses
  simp only [setupForwardAdditionalPass_vars, basePass_body_vars]
  rw [e, h', List.tail_cons, ho]
  simp [setupForwardAdditionalPass, setAmbientUniforms, Event.mark, basePass_body_outline, hb]

/-- C14: for every state with `N ≥ 1` lights, the lit passes of a frame (lines
274–296) are defined and issue exactly `N` draws, each the draw of one `drawObjects`
call, and the light uniforms `lightPosition`, `lightColor`, `lightRadius` of the
shading program in force at the `k`-th draw are the ones `setLightUniforms` writes for
`config.lights[k]`: the base pass draws with the uniforms of `lights[0]`, then there
is one additive draw per further light, in increasing order of `k`. -/
theorem litPasses_draws (F : MathOps K) (w : World K) (l0 : Light K)
    (rest : List (Light K)) (h : w.vars.config.lights = l0 :: rest) :
    ∃ wf, litPasses F w.clearTrace = some wf ∧
      outline (GLState.lightUniforms w.vars.shader) wf.trace =
        [Mark.call Fn.setAmbientUniforms, Mark.call Fn.setLightUniforms,
          Mark.call Fn.setShadowUniforms, Mark.call Fn.drawObjects, Mark.call Fn.drawQuad,
          Mark.draw (Light.uniformValues F w.vars.shader l0),
          Mark.call Fn.setupForwardAdditionalPass, Mark.call Fn.setAmbientUniforms] ++
        (rest.map fun l => additivePassOutline (Light.uniformValues F w.vars.shader l)).flatten ++
        [Mark.call Fn.resetForwardAdditionalPass, Mark.call Fn.setAmbientUniforms] ∧
      (outline (GLState.lightUniforms w.vars.shader) wf.trace).filterMap Mark.drawn =
        w.vars.config.lights.map (Light.uniformValues F w.vars.shader) ∧
      ((outline (GLState.lightUniforms w.vars.shader) wf.trace).filterMap Mark.drawn).length =
        w.vars.config.lights.length := by
  obtain ⟨wf, hf, ho⟩ := litPasses_outline F w l0 rest h
  have hd : (outline (GLState.lightUniforms w.vars.shader) wf.trace).filterMap Mark.drawn =
      w.vars.config.lights.map (Light.uniformValues F w.vars.shader) := by
    rw [ho, h]
    simp only [List.filterMap_append, List.map_cons]
    have e : ∀ ls : List (Light K),
        (ls.map fun l => additivePassOutline (Light.uniformValues F w.vars.shader l)).flatten.filterMap
          Mark.drawn = ls.map (Light.uniformValues F w.vars.shader) := by
      intro ls
      induction ls with
      | nil => rfl
      | cons a ls ih =>
        simp only [List.map_cons, List.flatten_cons, List.filterMap_append, ih]
        rfl
    rw [e]
    simp [Mark.drawn]
  exact ⟨wf, hf, ho, hd, by rw [hd, List.length_map]⟩

end LitPasses

/-- Witness for C14: the lit passes on the initial globals, with two lights. -/
theorem litPasses_draws_witness :
    ∃ wf, litPasses (MathOps.mk Real.cos Real.sin Real.tan Real.sqrt Real.pi)
        (initialWorld ⟨⟨0, 1.6, 5⟩, 45, Mat4.identity⟩ : World ℝ).clearTrace = some wf ∧
      (outline (GLState.lightUniforms Shader.leaf_shading) wf.trace).filterMap Mark.drawn =
        [(some (UVal.vec3 ⟨-1, 1, -0.5⟩), some (UVal.vec3 ⟨1 * 30, 1 * 30, 1 * 30⟩),
            some (UVal.float 0)),
          (some (UVal.vec3 ⟨1, 1.5, 0⟩), some (UVal.vec3 ⟨0.7 * 0, 0.2 * 0, 1 * 0⟩),
            some (UVal.float 10))] := by
  obtain ⟨wf, h1, -, h2, -⟩ :=
    litPasses_draws (MathOps.mk Real.cos Real.sin Real.tan Real.sqrt Real.pi)
      (initialWorld ⟨⟨0, 1.6, 5⟩, 45, Mat4.identity⟩) _ _ rfl
  exact ⟨wf, h1, h2⟩

section ShadowView

/-- The matrix `lightSpaceMatrix` that `drawShadowMap` computes is built from the
normalizations of exactly the three vectors of `drawShadowMap.normalized`. -/
theorem drawShadowMap_body_lightSpaceMatrix {K : Type} [LinearOrderedField K] (F : MathOps K)
    (l : Light K) (w : World K) :
    ∃ a b c, drawShadowMap.normalized F l = [a, b, c] ∧
      a = l.position ∧
      b = (Vec3.splat 0).sub (((glm.normalize F a).scale 10).scale 0.5) ∧
      c = glm.cross (glm.normalize F b) ⟨0, 1, 0⟩ ∧
      (drawShadowMap.body F l w).vars.lightSpaceMatrix =
        (glm.ortho (-(6 / 2)) (6 / 2) (-(6 / 2)) (6 / 2) 1 (1 + 10)).mul
          (let f := glm.normalize F b
           let s := glm.normalize F c
           let u := glm.cross s f
           let eye := ((glm.normalize F a).scale 10).scale 0.5
           { c0 := ⟨s.x, u.x, -f.x, 0⟩
             c1 := ⟨s.y, u.y, -f.y, 0⟩
             c2 := ⟨s.z, u.z, -f.z, 0⟩
             c3 := ⟨-(glm.dot s eye), -(glm.dot u eye), glm.dot f eye, 1⟩ }) := by
  refine ⟨_, _, _, rfl, rfl, rfl, rfl, ?_⟩
  simp [drawShadowMap.body, glm.lookAt]

/-- Over the reals a vector has length zero exactly when it is the zero vector. -/
theorem glm_length_ne_zero_iff (v : Vec3 ℝ) :
    glm.length (MathOps.mk Real.cos Real.sin Real.tan Real.sqrt Real.pi) v ≠ 0 ↔
      (v.x ≠ 0 ∨ v.y ≠ 0 ∨ v.z ≠ 0) := by
  simp only [glm.length, glm.dot, ne_eq]
  rw [Real.sqrt_eq_zero
    (by nlinarith [mul_self_nonneg v.x, mul_self_nonneg v.y, mul_self_nonneg v.z])]
  constructor
  · intro h
    by_contra hc
    push_neg at hc
    obtain ⟨h1, h2, h3⟩ := hc
    exact h (by rw [h1, h2, h3]; ring)
  · intro h hz
    have hx : v.x = 0 := by nlinarith [sq_nonneg v.x, sq_nonneg v.y, sq_nonneg v.z]
    have hy : v.y = 0 := by nlinarith [sq_nonneg v.x, sq_nonneg v.y, sq_nonneg v.z]
    have hz' : v.z = 0 := by nlinarith [sq_nonneg v.x, sq_nonneg v.y, sq_nonneg v.z]
    rcases h with h | h | h
    · exact h hx
    · exact h hy
    · exact h hz'

/-- Over the reals `normalize` keeps which coordinates are zero. -/
theorem glm_normalize_coord_ne_zero (v : Vec3 ℝ) :
    ((glm.normalize (MathOps.mk Real.cos Real.sin Real.tan Real.sqrt Real.pi) v).x ≠ 0 ↔
        v.x ≠ 0) ∧
      ((glm.normalize (MathOps.mk Real.cos Real.sin Real.tan Real.sqrt Real.pi) v).z ≠ 0 ↔
        v.z ≠ 0) := by
  have key : ∀ t : ℝ, (t = v.x ∨ t = v.z) → t ≠ 0 →
      (1 : ℝ) / Real.sqrt (glm.dot v v) ≠ 0 := by
    intro t ht h0
    have hl := (glm_length_ne_zero_iff v).2
      (by rcases ht with ht | ht
          · exact Or.inl (ht ▸ h0)
          · exact Or.inr (Or.inr (ht ▸ h0)))
    simp only [glm.length] at hl
    exact one_div_ne_zero hl
  simp only [glm.normalize, glm.inversesqrt, Vec3.scale, ne_eq]
  constructor
  · constructor
    · intro h hx
      exact h (by rw [hx, zero_mul])
    · intro h
      exact mul_ne_zero h (key v.x (Or.inl rfl) h)
  · constructor
    · intro h hz
      exact h (by rw [hz, zero_mul])
    · intro h
      exact mul_ne_zero h (key v.z (Or.inr rfl) h)

/-- Over the reals the view direction `center - eye` of the `lookAt` call of
`drawShadowMap` has a non-zero `x` (or `z`) coordinate exactly when the light position
has. -/
theorem shadowView_direction_coord (l : Light ℝ) :
    (((Vec3.splat 0).sub
        (((glm.normalize (MathOps.mk Real.cos Real.sin Real.tan Real.sqrt Real.pi)
          l.position).scale 10).scale 0.5)).x ≠ 0 ↔ l.position.x ≠ 0) ∧
      (((Vec3.splat 0).sub
        (((glm.normalize (MathOps.mk Real.cos Real.sin Real.tan Real.sqrt Real.pi)
          l.position).scale 10).scale 0.5)).z ≠ 0 ↔ l.position.z ≠ 0) := by
  have hn := glm_normalize_coord_ne_zero l.position
  constructor
  · rw [← hn.1]
    simp only [Vec3.sub, Vec3.splat, Vec3.scale, zero_sub, neg_ne_zero]
    constructor
    · intro h h0
      exact h (by rw [h0]; ring)
    · intro h
      exact mul_ne_zero (mul_ne_zero h (by norm_num)) (by norm_num)
  · rw [← hn.2]
    simp only [Vec3.sub, Vec3.splat, Vec3.scale, zero_sub, neg_ne_zero]
    constructor
    · intro h h0
      exact h (by rw [h0]; ring)
    · intro h
      exact mul_ne_zero (mul_ne_zero h (by norm_num)) (by norm_num)

/-- Over the reals the cross product `cross(f, up)` that `lookAt` normalizes inside
`drawShadowMap` has length zero exactly when the light position has `x = 0` and
`z = 0`: the zero vector, or a position on the world up-axis. -/
theorem shadowView_cross_length (l : Light ℝ) :
    glm.length (MathOps.mk Real.cos Real.sin Real.tan Real.sqrt Real.pi)
      (glm.cross (glm.normalize (MathOps.mk Real.cos Real.sin Real.tan Real.sqrt Real.pi)
        ((Vec3.splat 0).sub
          (((glm.normalize (MathOps.mk Real.cos Real.sin Real.tan Real.sqrt Real.pi)
            l.position).scale 10).scale 0.5))) ⟨0, 1, 0⟩) ≠ 0 ↔
      (l.position.x ≠ 0 ∨ l.position.z ≠ 0) := by
  have hb := glm_normalize_coord_ne_zero
    ((Vec3.splat 0).sub
      (((glm.normalize (MathOps.mk Real.cos Real.sin Real.tan Real.sqrt Real.pi)
        l.position).scale 10).scale 0.5))
  rw [glm_length_ne_zero_iff, ← (shadowView_direction_coord l).1, ← (shadowView_direction_coord l).2,
    ← hb.1, ← hb.2]
  simp only [glm.cross, mul_zero, mul_one, zero_mul, sub_zero, zero_sub, one_mul, neg_ne_zero,
    ne_eq, not_true_eq_false, false_or]
  exact or_comm

/-- The panel widget "light 1 direction" writes the position of the primary light:
the edited value clamped to `[-20, 20]` per coordinate. -/
theorem drawGui_light1Direction {K : Type} [LinearOrderedField K] (p : Panel K) (w : World K)
    (l0 l1 : Light K) (rest : List (Light K)) (h : w.vars.config.lights = l0 :: l1 :: rest) :
    ∃ w' l0' rest', drawGui p w = some w' ∧ w'.vars.config.lights = l0' :: rest' ∧
      l0'.position = dragFloat3 (-20) 20 p.light1Direction l0.position := by
  simp [drawGui, h]

/-- The three vectors `drawShadowMap` normalizes, written out. -/
theorem drawShadowMap_normalized_eq {K : Type} [LinearOrderedField K] (F : MathOps K)
    (l : Light K) :
    drawShadowMap.normalized F l =
      [l.position,
        (Vec3.splat 0).sub (((glm.normalize F l.position).scale 10).scale 0.5),
        glm.cross (glm.normalize F
          ((Vec3.splat 0).sub (((glm.normalize F l.position).scale 10).scale 0.5))) ⟨0, 1, 0⟩] :=
  rfl

/-- C15, as amended: `drawShadowMap` has no guard; over the reals, none of the three
vectors it hands to `glm::normalize` while computing `lightView` (the light position,
and inside `lookAt` the view direction and `cross(f, up)`) has length zero if and only
if the position of the primary light has a non-zero `x` or a non-zero `z` coordinate.
For the zero vector and for every position on the world up-axis a zero-length vector
is normalized. -/
theorem drawShadowMap_normalized_nonzero (l : Light ℝ) :
    (∀ v ∈ drawShadowMap.normalized (MathOps.mk Real.cos Real.sin Real.tan Real.sqrt Real.pi) l,
        glm.length (MathOps.mk Real.cos Real.sin Real.tan Real.sqrt Real.pi) v ≠ 0) ↔
      (l.position.x ≠ 0 ∨ l.position.z ≠ 0) := by
  have hc := shadowView_cross_length l
  rw [drawShadowMap_normalized_eq]
  constructor
  · intro h
    exact hc.1 (h _ (by simp))
  · intro h v hv
    simp only [List.mem_cons, List.mem_singleton, List.not_mem_nil, or_false] at hv
    rcases hv with hv | hv | hv
    · rw [hv, glm_length_ne_zero_iff]
      exact h.elim Or.inl (fun hz => Or.inr (Or.inr hz))
    · rw [hv, glm_length_ne_zero_iff, (shadowView_direction_coord l).1,
        (shadowView_direction_coord l).2]
      exact h.elim Or.inl (fun hz => Or.inr (Or.inr hz))
    · rw [hv]
      exact hc.2 h

end ShadowView

/-- Counterexample to C15 as stated.  Dragging the three fields of the panel widget
"light 1 direction" to 0, which lies in its range `[-20, 20]`, makes the position of
the primary light the zero vector, and then `drawShadowMap` normalizes a zero-length
vector (the position itself); and for the position `(0, 20, 0)` on the world up-axis,
also in the range of the panel, the vector `cross(f, up)` that `lookAt` normalizes has
length zero. -/
theorem drawShadowMap_normalized_counterexample :
    (∃ w' l0 rest,
      drawGui { (Panel.idle : Panel ℝ) with light1Direction := some ⟨0, 0, 0⟩ }
          (initialWorld ⟨⟨0, 1.6, 5⟩, 45, Mat4.identity⟩) = some w' ∧
        w'.vars.config.lights = l0 :: rest ∧ l0.position = ⟨0, 0, 0⟩ ∧
        ∃ v ∈ drawShadowMap.normalized
            (MathOps.mk Real.cos Real.sin Real.tan Real.sqrt Real.pi) l0,
          glm.length (MathOps.mk Real.cos Real.sin Real.tan Real.sqrt Real.pi) v = 0) ∧
    (clampTo (-20 : ℝ) 20 0 = 0 ∧ clampTo (-20 : ℝ) 20 20 = 20 ∧
      ∃ v ∈ drawShadowMap.normalized
          (MathOps.mk Real.cos Real.sin Real.tan Real.sqrt Real.pi)
          ⟨⟨0, 20, 0⟩, ⟨1, 1, 1⟩, 30, 0⟩,
        glm.length (MathOps.mk Real.cos Real.sin Real.tan Real.sqrt Real.pi) v = 0) := by
  constructor
  · obtain ⟨w', l0', rest', h1, h2, h3⟩ :=
      drawGui_light1Direction { (Panel.idle : Panel ℝ) with light1Direction := some ⟨0, 0, 0⟩ }
        (initialWorld ⟨⟨0, 1.6, 5⟩, 45, Mat4.identity⟩) _ _ [] rfl
    have h4 : l0'.position = ⟨0, 0, 0⟩ := by
      rw [h3]
      norm_num [dragFloat3, clampTo]
    refine ⟨w', l0', rest', h1, h2, h4, l0'.position, ?_, ?_⟩
    · rw [drawShadowMap_normalized_eq]
      exact List.mem_cons_self _ _
    · rw [h4]
      simp [glm.length, glm.dot]
  · refine ⟨by norm_num [clampTo], by norm_num [clampTo],
      glm.cross (glm.normalize (MathOps.mk Real.cos Real.sin Real.tan Real.sqrt Real.pi)
        ((Vec3.splat 0).sub
          (((glm.normalize (MathOps.mk Real.cos Real.sin Real.tan Real.sqrt Real.pi)
            ⟨0, 20, 0⟩).scale 10).scale 0.5))) ⟨0, 1, 0⟩, ?_, ?_⟩
    · rw [drawShadowMap_normalized_eq]
      exact List.mem_cons_of_mem _ (List.mem_cons_of_mem _ (List.mem_cons_self _ _))
    · have h := (shadowView_cross_length ⟨⟨0, 20, 0⟩, ⟨1, 1, 1⟩, 30, 0⟩).not
      simp only [ne_eq, not_not] at h
      exact h.2 (by simp)

section BindBeforeSet

variable {K : Type} [LinearOrderedField K]

/-- Every uniform setter of `drawObjects` is called on the bound program exactly when
the program of the global `shader` is bound on entry: the first three setters run
before `shader->use()`. -/
theorem drawObjects_bound (F : MathOps K) (w : World K) :
    (drawObjects F w).trace.all Event.setsBoundProgram =
      (w.trace.all Event.setsBoundProgram && decide (w.gl.program = some w.vars.shader)) := by
  unfold drawObjects
  by_cases hp : w.gl.program = some w.vars.shader <;>
    simp [drawQuad_trace, Event.setsBoundProgram, hp]

/-- Every uniform setter of `drawSkybox` is called on the bound program. -/
theorem drawSkybox_bound (F : MathOps K) (w : World K) :
    (drawSkybox F w).trace.all Event.setsBoundProgram = w.trace.all Event.setsBoundProgram := by
  simp [drawSkybox, Event.setsBoundProgram]

/-- Every uniform setter of the shadow pass is called on the bound program: the
global `shader` is swapped to the shadow-depth program and that program is bound
before anything is set. -/
theorem drawShadowMap_body_bound (F : MathOps K) (l : Light K) (w : World K) :
    (drawShadowMap.body F l w).trace.all Event.setsBoundProgram =
      w.trace.all Event.setsBoundProgram := by
  simp [drawShadowMap.body, drawObjects_bound, Event.setsBoundProgram]

/-- Every uniform setter of the base pass is called on the bound program: line 274
binds the program of `shader` first. -/
theorem basePass_body_bound (F : MathOps K) (l : Light K) (w : World K) :
    (basePass.body F l w).trace.all Event.setsBoundProgram =
      w.trace.all Event.setsBoundProgram := by
  simp [basePass.body, drawObjects_bound, setAmbientUniforms, setLightUniforms,
    setShadowUniforms, Event.setsBoundProgram]

/-- Every uniform setter of lines 289–296 is called on the bound program, when the
program of `shader` is bound on entry. -/
theorem additionalPasses_bound (F : MathOps K) (w : World K)
    (hp : w.gl.program = some w.vars.shader)
    (ht : w.trace.all Event.setsBoundProgram = true) :
    (additionalPasses F w).trace.all Event.setsBoundProgram = true := by
  have h := additivePasses_induction F
    (fun v => v.gl.program = some v.vars.shader ∧ v.trace.all Event.setsBoundProgram = true)
    (fun l v hv => by
      refine ⟨by simp, ?_⟩
      simp [drawObjects_bound, setLightUniforms, Event.setsBoundProgram, hv.1, hv.2])
    w.vars.config.lights.tail (setupForwardAdditionalPass F w)
    (by simp [setupForwardAdditionalPass, setAmbientUniforms, Event.setsBoundProgram, hp, ht])
  unfold additionalPasses
  simp only [setupForwardAdditionalPass_vars]
  simp only [resetForwardAdditionalPass, setAmbientUniforms]
  simp [Event.setsBoundProgram, h.1, h.2]

omit [LinearOrderedField K] in
/-- Every uniform setter of the second loop of `GenerateOffsets` is called on the
bound program, when the program of `shader` is bound on entry. -/
theorem GenerateOffsets_upload_bound (l : List Nat) (w : World K)
    (hp : w.gl.program = some w.vars.shader)
    (ht : w.trace.all Event.setsBoundProgram = true) :
    (l.foldl GenerateOffsets.upload w).trace.all Event.setsBoundProgram = true := by
  induction l generalizing w with
  | nil => exact ht
  | cons i l ih =>
    rw [List.foldl_cons]
    apply ih
    · unfold GenerateOffsets.upload
      split <;> simp [hp]
    · unfold GenerateOffsets.upload
      split <;> simp [Event.setsBoundProgram, hp, ht]

/-- Every uniform setter of `GenerateOffsets` is called on the bound program: the
function binds the program of `shader` before its upload loop. -/
theorem GenerateOffsets_bound (F : MathOps K) (R : Nat) (rnd : Nat → Nat) (w : World K) :
    (uploadEvents F R rnd w).all Event.setsBoundProgram = true := by
  unfold uploadEvents GenerateOffsets
  apply GenerateOffsets_upload_bound
  · simp only [GenerateOffsets_loop_eq]
    simp
  · simp only [GenerateOffsets_loop_eq]
    simp [Event.setsBoundProgram]

/-- Every uniform setter of an iteration of the render loop is called on the bound
program, in a state with two or more lights. -/
theorem frame_bound (F : MathOps K) (io : FrameInput K) (w : World K) (l0 l1 : Light K)
    (rest : List (Light K)) (h : w.vars.config.lights = l0 :: l1 :: rest) :
    (frameEvents F io w).all Event.setsBoundProgram = true := by
  have h' : w.clearTrace.vars.config.lights = l0 :: l1 :: rest := h
  obtain ⟨wb, hb, -, hvars, -, -, htr⟩ := frameBegin_spec F io w.clearTrace l0 l1 rest h'
  obtain ⟨wb', wf, hb', -, -, -, hm, -, hftr⟩ :=
    mainLoopBody_spec F io w.clearTrace l0 l1 rest h'
  have e : wb' = wb := Option.some.inj (hb'.symm.trans hb)
  subst e
  have hfe : frameEvents F io w = wf.trace := by
    simp [frameEvents, hm]
  have hpasses : (additionalPasses F
      (basePass.body F l0 (drawShadowMap.body F l0 (drawSkybox F wb')))).trace.all
        Event.setsBoundProgram = true := by
    apply additionalPasses_bound
    · simp
    · rw [basePass_body_bound, drawShadowMap_body_bound, drawSkybox_bound, htr]
      simp [Event.setsBoundProgram]
  rw [hfe, hftr, List.all_append, hpasses]
  by_cases hp : w.vars.isPaused = true <;> simp [hp, Event.setsBoundProgram]

/-- C16: in every state, every uniform setter called by `GenerateOffsets` is called on
the program object that is the current program at that moment; and in every state
with two or more lights an iteration of the render loop is defined and every uniform
setter called in it (by `drawSkybox`, `drawShadowMap`, the base pass,
`setupForwardAdditionalPass`, the additive passes and `resetForwardAdditionalPass`) is
called on the program object that is current at that moment, whatever program was
bound and whatever `shader` pointed to when the frame began. -/
theorem frame_bind_before_set (F : MathOps K) (R : Nat) (rnd : Nat → Nat)
    (io : FrameInput K) (w : World K) (l0 l1 : Light K)
    (rest : List (Light K)) (h : w.vars.config.lights = l0 :: l1 :: rest) :
    (∀ (v : World K), ∀ e ∈ uploadEvents F R rnd v, ∀ obj name val bound,
      e = Event.uniform obj name val bound → bound = some obj) ∧
    (∃ wf, mainLoopBody F io w.clearTrace = some wf ∧ frameEvents F io w = wf.trace) ∧
    (∀ e ∈ frameEvents F io w, ∀ obj name val bound,
      e = Event.uniform obj name val bound → bound = some obj) := by
  refine ⟨?_, ?_, ?_⟩
  · intro v e he obj name val bound heq
    have := List.all_eq_true.1 (GenerateOffsets_bound F R rnd v) e he
    subst heq
    simpa [Event.setsBoundProgram] using this
  · obtain ⟨wf, -, -, hm, -⟩ := mainLoopBody_lights F io w.clearTrace l0 l1 rest h
    exact ⟨wf, hm, by simp [frameEvents, hm]⟩
  · intro e he obj name val bound heq
    have := List.all_eq_true.1 (frame_bound F io w l0 l1 rest h) e he
    subst heq
    simpa [Event.setsBoundProgram] using this

end BindBeforeSet

/-- Witness for C16: the first frame on the initial globals, where no program is bound
when the frame begins. -/
theorem frame_bind_before_set_witness :
    (∃ wf, mainLoopBody (MathOps.mk Real.cos Real.sin Real.tan Real.sqrt Real.pi)
        (FrameInput.idle (1 / 60))
        (initialWorld ⟨⟨0, 1.6, 5⟩, 45, Mat4.identity⟩ : World ℝ).clearTrace = some wf ∧
      frameEvents (MathOps.mk Real.cos Real.sin Real.tan Real.sqrt Real.pi)
        (FrameInput.idle (1 / 60)) (initialWorld ⟨⟨0, 1.6, 5⟩, 45, Mat4.identity⟩) = wf.trace) ∧
    (frameEvents (MathOps.mk Real.cos Real.sin Real.tan Real.sqrt Real.pi)
      (FrameInput.idle (1 / 60))
      (initialWorld ⟨⟨0, 1.6, 5⟩, 45, Mat4.identity⟩)).all Event.setsBoundProgram = true := by
  have h := frame_bind_before_set (MathOps.mk Real.cos Real.sin Real.tan Real.sqrt Real.pi)
    32767 (fun _ => 12345) (FrameInput.idle (1 / 60))
    (initialWorld ⟨⟨0, 1.6, 5⟩, 45, Mat4.identity⟩) _ _ [] rfl
  refine ⟨h.2.1, List.all_eq_true.2 fun e he => ?_⟩
  cases e with
  | uniform obj name val bound =>
    simpa [Event.setsBoundProgram] using h.2.2 _ he obj name val bound rfl
  | _ => rfl

section ModelsUpload

variable {K : Type} [LinearOrderedField K]

/-- No name of the form `"models[…]"` is among the uniform names of the frame. -/
theorem models_name_not_frame (s : String) : ("models[" ++ s ++ "]") ∉ frameUniformNames := by
  intro h
  simp only [frameUniformNames, List.mem_cons, List.mem_singleton, List.not_mem_nil,
    or_false] at h
  have hd : ∀ t : String, "models[" ++ s ++ "]" = t →
      t.data.take 7 = ['m', 'o', 'd', 'e', 'l', 's', '['] := by
    intro t ht
    rw [← ht]
    simp [String.data_append]
  rcases h with h | h | h | h | h | h | h | h | h | h | h | h | h | h | h | h | h | h | h <;>
    exact absurd (hd _ h) (by decide)

/-- The uniform setters of `drawObjects` use names of `frameUniformNames`. -/
theorem drawObjects_names (F : MathOps K) (w : World K) :
    (drawObjects F w).trace.all Event.setsFrameUniform = w.trace.all Event.setsFrameUniform := by
  unfold drawObjects
  simp [drawQuad_trace, Event.setsFrameUniform, Event.uniformName, frameUniformNames]

/-- The uniform setters of `drawSkybox` use names of `frameUniformNames`. -/
theorem drawSkybox_names (F : MathOps K) (w : World K) :
    (drawSkybox F w).trace.all Event.setsFrameUniform = w.trace.all Event.setsFrameUniform := by
  simp [drawSkybox, Event.setsFrameUniform, Event.uniformName, frameUniformNames]

/-- The uniform setters of the shadow pass use names of `frameUniformNames`. -/
theorem drawShadowMap_body_names (F : MathOps K) (l : Light K) (w : World K) :
    (drawShadowMap.body F l w).trace.all Event.setsFrameUniform =
      w.trace.all Event.setsFrameUniform := by
  simp [drawShadowMap.body, drawObjects_names, Event.setsFrameUniform, Event.uniformName,
    frameUniformNames]

/-- The uniform setters of the base pass use names of `frameUniformNames`. -/
theorem basePass_body_names (F : MathOps K) (l : Light K) (w : World K) :
    (basePass.body F l w).trace.all Event.setsFrameUniform =
      w.trace.all Event.setsFrameUniform := by
  simp [basePass.body, drawObjects_names, setAmbientUniforms, setLightUniforms,
    setShadowUniforms, Event.setsFrameUniform, Event.uniformName, frameUniformNames]

/-- The uniform setters of lines 289–296 use names of `frameUniformNames`. -/
theorem additionalPasses_names (F : MathOps K) (w : World K)
    (ht : w.trace.all Event.setsFrameUniform = true) :
    (additionalPasses F w).trace.all Event.setsFrameUniform = true := by
  have h := additivePasses_induction F
    (fun v => v.trace.all Event.setsFrameUniform = true)
    (fun l v hv => by
      simp [drawObjects_names, setLightUniforms, Event.setsFrameUniform, Event.uniformName,
        frameUniformNames, hv])
    w.vars.config.lights.tail (setupForwardAdditionalPass F w)
    (by simp [setupForwardAdditionalPass, setAmbientUniforms, Event.setsFrameUniform,
      Event.uniformName, frameUniformNames, ht])
  unfold additionalPasses
  simp only [setupForwardAdditionalPass_vars]
  simp only [resetForwardAdditionalPass, setAmbientUniforms]
  simp [Event.setsFrameUniform, Event.uniformName, frameUniformNames, h]

/-- In a state with two or more lights, every uniform setter called in an iteration
of the render loop is called with a name of `frameUniformNames`, and the iteration
leaves the array `models` as it was. -/
theorem frame_names (F : MathOps K) (io : FrameInput K) (w : World K) (l0 l1 : Light K)
    (rest : List (Light K)) (h : w.vars.config.lights = l0 :: l1 :: rest) :
    (frameEvents F io w).all Event.setsFrameUniform = true := by
  have h' : w.clearTrace.vars.config.lights = l0 :: l1 :: rest := h
  obtain ⟨wb, hb, -, hvars, -, -, htr⟩ := frameBegin_spec F io w.clearTrace l0 l1 rest h'
  obtain ⟨wb', wf, hb', -, -, -, hm, -, hftr⟩ :=
    mainLoopBody_spec F io w.clearTrace l0 l1 rest h'
  have e : wb' = wb := Option.some.inj (hb'.symm.trans hb)
  subst e
  have hfe : frameEvents F io w = wf.trace := by
    simp [frameEvents, hm]
  have hpasses : (additionalPasses F
      (basePass.body F l0 (drawShadowMap.body F l0 (drawSkybox F wb')))).trace.all
        Event.setsFrameUniform = true := by
    apply additionalPasses_names
    rw [basePass_body_names, drawShadowMap_body_names, drawSkybox_names, htr]
    simp [Event.setsFrameUniform, Event.uniformName]
  rw [hfe, hftr, List.all_append, hpasses]
  by_cases hp : w.vars.isPaused = true <;> simp [hp, Event.setsFrameUniform, Event.uniformName]

/-- An iteration of the render loop in a state with two or more lights keeps the
number of lights and the array `models`. -/
theorem mainLoopBody_models (F : MathOps K) (io : FrameInput K) (w : World K)
    (l0 l1 : Light K) (rest : List (Light K)) (h : w.vars.config.lights = l0 :: l1 :: rest) :
    ∃ wf l0' l1', mainLoopBody F io w = some wf ∧
      wf.vars.config.lights = l0' :: l1' :: rest ∧ wf.vars.models = w.vars.models := by
  obtain ⟨wb, hb, -, hvars, -, -, -⟩ := frameBegin_spec F io w l0 l1 rest h
  by_cases hp : w.vars.isPaused = true
  · simp [mainLoopBody, hb, drawShadowMap, basePass, hvars, frameEnd, drawGui, pollEvents, hp]
  · simp [mainLoopBody, hb, drawShadowMap, basePass, hvars, frameEnd, drawGui, pollEvents, hp]

/-- Every run of the render loop from a state with two or more lights is defined and
keeps the number of lights and the array `models`. -/
theorem renderLoop_models (F : MathOps K) (ios : List (FrameInput K)) (w : World K)
    (l0 l1 : Light K) (rest : List (Light K)) (h : w.vars.config.lights = l0 :: l1 :: rest) :
    ∃ wf l0' l1', renderLoop F ios w = some wf ∧
      wf.vars.config.lights = l0' :: l1' :: rest ∧ wf.vars.models = w.vars.models := by
  induction ios generalizing w l0 l1 with
  | nil => exact ⟨w, l0, l1, rfl, h, rfl⟩
  | cons io ios ih =>
    obtain ⟨w1, a, b, h1, h2, h3⟩ := mainLoopBody_models F io w l0 l1 rest h
    obtain ⟨wf, a', b', h4, h5, h6⟩ := ih w1 a b h2
    exact ⟨wf, a', b', by simp [renderLoop, h1, h4], h5, h6.trans h3⟩

/-- The operations of the second loop of `GenerateOffsets`, when the program of
`shader` is bound on entry: one `setMat4` of `models[i]` per counter value. -/
theorem GenerateOffsets_upload_trace (l : List Nat) (w : World K)
    (hl : ∀ i ∈ l, i < 100) (hp : w.gl.program = some w.vars.shader) :
    (l.foldl GenerateOffsets.upload w).trace =
      w.trace ++ l.map (Event.modelsUpload w.vars.shader w.vars.models) := by
  induction l generalizing w with
  | nil => simp
  | cons i l ih =>
    have hi : i < 100 := hl i (List.mem_cons_self _ _)
    rw [List.foldl_cons, ih _ (fun j hj => hl j (List.mem_cons_of_mem _ hj))
      (by unfold GenerateOffsets.upload; simp [hi, hp])]
    unfold GenerateOffsets.upload
    simp [hi, hp, Event.modelsUpload]

/-- The operations of `GenerateOffsets`: its entry, `shader->use()`, and the hundred
calls `shader->setMat4("models[i]", models[i])` for `i = 0, …, 99` in this order, each
made while the program of `shader` is current. -/
theorem GenerateOffsets_events (F : MathOps K) (R : Nat) (rnd : Nat → Nat) (w : World K) :
    uploadEvents F R rnd w =
      [Event.call Fn.GenerateOffsets, Event.use w.vars.shader] ++
        (List.range 100).map
          (Event.modelsUpload w.vars.shader (GenerateOffsets F R rnd w).vars.models) := by
  have hm : (GenerateOffsets F R rnd w).vars.models =
      ((List.range 100).foldl (GenerateOffsets.body F R rnd)
        (0, w.clearTrace.emit (Event.call Fn.GenerateOffsets))).2.vars.models := by
    unfold GenerateOffsets
    simp only [GenerateOffsets_foldl_upload_vars, GenerateOffsets_loop_eq]
    simp
  rw [hm]
  unfold uploadEvents GenerateOffsets
  rw [GenerateOffsets_upload_trace _ _ (fun i hi => List.mem_range.1 hi)
    (by simp only [GenerateOffsets_loop_eq]; simp)]
  simp only [GenerateOffsets_loop_eq]
  simp

/-- The state in which line 223 calls `GenerateOffsets`: the configuration and the
leaf program are those of the initial globals. -/
theorem startup_upload_inv (cam : Camera K) :
    StartupInv (initialWorld cam).vars.config 10 8
      (createShadowMap (initSkybox (loadLeafTextures (initialWorld cam)))) := by
  have h0 : StartupInv (initialWorld cam).vars.config 1 0 (initialWorld cam) := by
    simp [StartupInv, initialWorld, initialGL]
  exact startupInv_createShadowMap _ 8 0 _
    (startupInv_initSkybox _ 5 0 _ (startupInv_loadLeafTextures _ 1 0 _ h0))

/-- When line 223 calls `GenerateOffsets` the global `shader` is the leaf program. -/
theorem startup_upload_shader (cam : Camera K) :
    (createShadowMap (initSkybox (loadLeafTextures (initialWorld cam)))).vars.shader =
      Shader.leaf_shading :=
  (startup_upload_inv cam).2.2.2.2.1

omit [LinearOrderedField K] in
/-- Lines 229–232 change no global variable. -/
theorem depthSetup_vars (w : World K) :
    (glEnable Cap.GL_FRAMEBUFFER_SRGB
      (glDepthFunc DepthFunc.GL_LESS (glEnable Cap.GL_DEPTH_TEST w))).vars = w.vars := by
  simp

/-- The array `models` after start-up is the one `GenerateOffsets` leaves. -/
theorem startup_models (F : MathOps K) (R : Nat) (rnd : Nat → Nat) (cam : Camera K) :
    (startup F R rnd cam).vars.models =
      (GenerateOffsets F R rnd
        (createShadowMap (initSkybox (loadLeafTextures (initialWorld cam))))).vars.models := by
  rw [startup_eq, depthSetup_vars]

/-- C17: in every run of the program the instance transforms are uploaded once.  The
call of `GenerateOffsets` at line 223 issues, after its entry and `shader->use()` on
the leaf program, exactly the hundred calls `setMat4("models[i]", models[i])` for
`i = 0, …, 99`, each on the leaf program while the leaf program is current, so none
reaches the shadow-depth program; and in every later iteration of the render loop,
under any inputs (panel edits included), the array `models` is still the one left by
start-up and no uniform setter is called with a name `"models[i]"`, on any program. -/
theorem models_uploaded_once (F : MathOps K) (R : Nat) (rnd : Nat → Nat) (cam : Camera K)
    (ios : List (FrameInput K)) (io : FrameInput K) :
    uploadEvents F R rnd (createShadowMap (initSkybox (loadLeafTextures (initialWorld cam)))) =
      [Event.call Fn.GenerateOffsets, Event.use Shader.leaf_shading] ++
        (List.range 100).map
          (Event.modelsUpload Shader.leaf_shading (startup F R rnd cam).vars.models) ∧
    (∀ e ∈ uploadEvents F R rnd
        (createShadowMap (initSkybox (loadLeafTextures (initialWorld cam)))),
      ∀ obj name val bound, e = Event.uniform obj name val bound →
        obj = Shader.leaf_shading ∧ bound = some Shader.leaf_shading) ∧
    ∃ w wf, renderLoop F ios (startup F R rnd cam) = some w ∧
      w.vars.models = (startup F R rnd cam).vars.models ∧
      mainLoopBody F io w = some wf ∧
      wf.vars.models = (startup F R rnd cam).vars.models ∧
      ∀ e ∈ frameEvents F io w, ∀ obj name val bound, e = Event.uniform obj name val bound →
        ∀ i : Nat, name ≠ "models[" ++ toString i ++ "]" := by
  have hev := GenerateOffsets_events F R rnd
    (createShadowMap (initSkybox (loadLeafTextures (initialWorld cam))))
  rw [startup_upload_shader, ← startup_models] at hev
  refine ⟨hev, ?_, ?_⟩
  · intro e he obj name val bound heq
    rw [hev] at he
    simp only [List.mem_append, List.mem_cons, List.mem_singleton, List.not_mem_nil, or_false,
      List.mem_map, List.mem_range] at he
    subst heq
    rcases he with (he | he) | ⟨i, -, he⟩
    · cases he
    · cases he
    · simp only [Event.modelsUpload, Event.uniform.injEq] at he
      exact ⟨he.1.symm, he.2.2.2.symm⟩
  · obtain ⟨w, l0, l1, hr, hl, hmod⟩ :=
      renderLoop_models F ios _ _ _ [] (startup_lights F R rnd cam)
    obtain ⟨wf, -, -, hm, -, hmod'⟩ := mainLoopBody_models F io w l0 l1 [] hl
    refine ⟨w, wf, hr, hmod, hm, hmod'.trans hmod, ?_⟩
    intro e he obj name val bound heq i hname
    have := List.all_eq_true.1 (frame_names F io w l0 l1 [] hl) e he
    subst heq
    simp only [Event.setsFrameUniform, Event.uniformName, decide_eq_true_eq] at this
    rw [hname] at this
    exact models_name_not_frame _ this

end ModelsUpload

section WindowFramebuffer

variable {K : Type} [LinearOrderedField K]

/-- The window framebuffer is bound when start-up ends: `createShadowMap` rebinds
framebuffer 0 after it has set up the shadow-map framebuffer. -/
theorem startup_framebuffer (F : MathOps K) (R : Nat) (rnd : Nat → Nat) (cam : Camera K) :
    (startup F R rnd cam).gl.framebuffer = 0 := by
  rw [startup_eq]
  simp [createShadowMap]

/-- The base pass leaves the framebuffer binding as it was. -/
theorem basePass_body_framebuffer (F : MathOps K) (l : Light K) (w : World K) :
    (basePass.body F l w).gl.framebuffer = w.gl.framebuffer := by
  simp [basePass.body, setAmbientUniforms, setLightUniforms, setShadowUniforms]

/-- Lines 289–296 leave the framebuffer binding as it was. -/
theorem additionalPasses_framebuffer (F : MathOps K) (w : World K) :
    (additionalPasses F w).gl.framebuffer = w.gl.framebuffer := by
  have hadd := additivePasses_induction F (fun v => v.gl.framebuffer = w.gl.framebuffer)
    (fun l v hv => by simpa [setLightUniforms] using hv)
    w.vars.config.lights.tail (setupForwardAdditionalPass F w)
    (by simp [setupForwardAdditionalPass, setAmbientUniforms])
  unfold additionalPasses
  simpa [resetForwardAdditionalPass, setAmbientUniforms] using hadd

/-- A frame of a state with two or more lights ends with two or more lights and with
the window framebuffer bound, whatever was bound before. -/
theorem mainLoopBody_framebuffer (F : MathOps K) (io : FrameInput K) (w : World K)
    (l0 l1 : Light K) (rest : List (Light K)) (h : w.vars.config.lights = l0 :: l1 :: rest) :
    ∃ wf l0' l1', mainLoopBody F io w = some wf ∧
      wf.vars.config.lights = l0' :: l1' :: rest ∧ wf.gl.framebuffer = 0 := by
  obtain ⟨wf, a, b, hm, hl⟩ := mainLoopBody_lights F io w l0 l1 rest h
  obtain ⟨wb, wf', -, -, -, -, hm', hgl, -⟩ := mainLoopBody_spec F io w l0 l1 rest h
  have e : wf' = wf := Option.some.inj (hm'.symm.trans hm)
  subst e
  refine ⟨wf', a, b, hm, hl, ?_⟩
  rw [hgl, additionalPasses_framebuffer, basePass_body_framebuffer, drawShadowMap_body_framebuffer]

/-- In every run of the program every frame starts with the window framebuffer bound,
so every call of `drawShadowMap` the program makes finds framebuffer 0 bound and
returns with the binding it found. -/
theorem renderLoop_framebuffer (F : MathOps K) (R : Nat) (rnd : Nat → Nat) (cam : Camera K)
    (ios : List (FrameInput K)) :
    ∃ w l0 l1, renderLoop F ios (startup F R rnd cam) = some w ∧
      w.vars.config.lights = [l0, l1] ∧ w.gl.framebuffer = 0 := by
  have key : ∀ (ios : List (FrameInput K)) (w : World K) (l0 l1 : Light K),
      w.vars.config.lights = [l0, l1] → w.gl.framebuffer = 0 →
      ∃ wf l0' l1', renderLoop F ios w = some wf ∧
        wf.vars.config.lights = [l0', l1'] ∧ wf.gl.framebuffer = 0 := by
    intro ios
    induction ios with
    | nil => exact fun w l0 l1 h hf => ⟨w, l0, l1, rfl, h, hf⟩
    | cons io ios ih =>
      intro w l0 l1 h _
      obtain ⟨w1, a, b, h1, h2, h3⟩ := mainLoopBody_framebuffer F io w l0 l1 [] h
      obtain ⟨wf, a', b', h4, h5⟩ := ih w1 a b h2 h3
      exact ⟨wf, a', b', by simp [renderLoop, h1, h4], h5⟩
  exact key ios _ _ _ (startup_lights F R rnd cam) (startup_framebuffer F R rnd cam)

end WindowFramebuffer

end Program

end Gfxp
